import Mathlib

/-!
Shallow embedding of the classroom-monitor perception pipeline core
(`src/ai_service/trackers/bytetrack.py`, `src/ai_service/pipeline.py`,
`src/ai_service/models/detection.py`) over exact rational arithmetic,
together with proofs settling the frozen specification claims.

Python floats are modelled as `ℚ`, Python ints as `ℤ`/`ℕ`, dictionaries as
structures or association lists, and `None` as `Option.none`.  External
capabilities (YOLO detector, InsightFace, MediaPipe) are inputs to the
embedded pipeline step, mirroring §1 of the spec which treats them as
collaborators behind narrow interfaces.
-/

namespace ClassroomMonitor

/-- Wall-clock timestamps (`datetime.now()` / `time.time()`) are opaque to all
claims; they are modelled as an abstract tick supplied by the caller. -/
abbrev Timestamp := ℕ

/-! ## Bounding boxes and IoU (`bytetrack.py` lines 202-216) -/

/-- A bounding box in corner (`tlbr`) form, as carried in the numpy arrays
`[x1, y1, x2, y2]` throughout the tracker. -/
structure Bbox where
  x1 : ℚ
  y1 : ℚ
  x2 : ℚ
  y2 : ℚ
deriving DecidableEq

/-- `(bbox[2] - bbox[0]) * (bbox[3] - bbox[1])`: the area term used by
`bbox_iou` (lines 211-212) and by the tracker's small-detection filter. -/
def bboxArea (b : Bbox) : ℚ := (b.x2 - b.x1) * (b.y2 - b.y1)

/-- Intersection area computed by `bbox_iou` lines 204-209:
`max(0, x2 - x1) * max(0, y2 - y1)` over the clipped corners. -/
def bboxInterArea (bbox1 bbox2 : Bbox) : ℚ :=
  let x1 := max bbox1.x1 bbox2.x1
  let y1 := max bbox1.y1 bbox2.y1
  let x2 := min bbox1.x2 bbox2.x2
  let y2 := min bbox1.y2 bbox2.y2
  max 0 (x2 - x1) * max 0 (y2 - y1)

/-- `union_area = area1 + area2 - inter_area` (line 214). -/
def bboxUnionArea (bbox1 bbox2 : Bbox) : ℚ :=
  bboxArea bbox1 + bboxArea bbox2 - bboxInterArea bbox1 bbox2

/-- `bbox_iou` (lines 202-216):
`inter_area / union_area if union_area > 0 else 0`. -/
def bbox_iou (bbox1 bbox2 : Bbox) : ℚ :=
  if bboxUnionArea bbox1 bbox2 > 0 then
    bboxInterArea bbox1 bbox2 / bboxUnionArea bbox1 bbox2
  else 0

/-- A corner-form bounding box in the format documented for `tlbr`
("top-left x, top-left y, bottom-right x, bottom-right y", line 108):
the right edge is to the right of the left edge and the bottom edge below
the top edge, hence positive area. -/
def ProperBox (b : Bbox) : Prop := b.x1 < b.x2 ∧ b.y1 < b.y2

instance : DecidablePred ProperBox := fun b => by
  unfold ProperBox; infer_instance

/-! ## Face embedding matching (`detection.py` lines 286-323)

`compute_similarity` (lines 257-284) is cosine similarity rescaled to
`[0,1]`; its body runs on floating-point numpy vectors with a square-root
norm, so the embedding abstracts it as an oracle `sim` giving the
similarity of the query against each catalog entry.  `match_embedding`'s
own selection logic — the subject of the claim — is translated verbatim. -/

/-- One element of the `known_embeddings` catalog: a dict
`{student_id, student_name, embedding}`.  Identifiers are opaque; the
embedding vector is an opaque handle consumed by the similarity oracle. -/
structure KnownStudent where
  student_id : ℕ
  student_name : Option ℕ
  embedding : ℕ
deriving DecidableEq, Inhabited

/-- The dict `{'student_id': ..., 'student_name': ..., 'similarity': ...}`
built at lines 317-321. -/
structure MatchResult where
  student_id : ℕ
  student_name : Option ℕ
  similarity : ℚ
deriving DecidableEq

/-- The `for known in known_embeddings` loop of `match_embedding`
(lines 312-321), carrying `best_match` and `best_similarity`. -/
def matchLoop (sim : ℕ → ℚ) :
    List KnownStudent → Option MatchResult → ℚ → Option MatchResult
  | [], best_match, _ => best_match
  | known :: rest, best_match, best_similarity =>
      let similarity := sim known.embedding
      if similarity > best_similarity then
        matchLoop sim rest
          (some ⟨known.student_id, known.student_name, similarity⟩) similarity
      else
        matchLoop sim rest best_match best_similarity

/-- `match_embedding` (lines 286-323): `best_similarity` starts at the
threshold, `best_match` at `None`; an entry replaces the running best only
when strictly more similar. -/
def match_embedding (sim : ℕ → ℚ) (known_embeddings : List KnownStudent)
    (threshold : ℚ) : Option MatchResult :=
  if known_embeddings.length = 0 then none
  else matchLoop sim known_embeddings none threshold

/-! ## Events and per-track metrics (`pipeline.py` lines 27-47, 637-657) -/

/-- An event dict as built by the pipeline's `_check_*_events` helpers and
the `student_entered` block: the claims only inspect the event type, the
track, and the frame it was emitted on, but the confidence and optional
student id are carried as in the source.  (`data` payloads of attention
and posture events are dropped: no claim mentions them.) -/
structure EventL where
  eventType : String
  trackId : ℕ
  studentId : Option ℕ
  confidence : ℚ
  timestamp : Timestamp
deriving DecidableEq

/-- `TrackMetrics` (pipeline.py lines 27-47).  `phone_detected_frames` is a
Python `int`, hence `ℤ`. -/
structure TrackMetricsL where
  track_id : ℕ
  student_id : Option ℕ := none
  student_name : Option ℕ := none
  first_seen : Timestamp
  last_seen : Timestamp
  attention_scores : List ℚ := []
  posture_scores : List ℚ := []
  phone_usage_count : ℕ := 0
  distraction_count : ℕ := 0
  looking_away_count : ℕ := 0
  last_attention_state : String := "unknown"
  last_posture_state : String := "unknown"
  phone_detected_frames : ℤ := 0
deriving DecidableEq

/-- `_check_phone_events` (lines 637-657): fires (and increments
`phone_usage_count`) exactly when the counter equals
`phone_detection_frames`. -/
def check_phone_events (phone_detection_frames : ℕ) (track_id : ℕ)
    (student_id : Option ℕ) (now : Timestamp) (metrics : TrackMetricsL) :
    TrackMetricsL × List EventL :=
  if metrics.phone_detected_frames = (phone_detection_frames : ℤ) then
    ({ metrics with phone_usage_count := metrics.phone_usage_count + 1 },
     [⟨"phone_detected", track_id, student_id, 8/10, now⟩])
  else (metrics, [])

/-- The phone-detection slice of `_process_track` (lines 489-507): the
counter is incremented when the track is in this frame's phone-association
set, decremented saturating at 0 otherwise; when it is at least the
threshold the track is flagged and `_check_phone_events` runs.  Returns
the updated metrics, the `phone_detected` flag of the track record, and
the emitted events. -/
def phoneTrackStep (phone_detection_frames : ℕ) (track_id : ℕ)
    (student_id : Option ℕ) (now : Timestamp) (metrics : TrackMetricsL)
    (person_has_phone : Bool) : TrackMetricsL × Bool × List EventL :=
  let metrics1 :=
    if person_has_phone then
      { metrics with phone_detected_frames := metrics.phone_detected_frames + 1 }
    else
      { metrics with
          phone_detected_frames := max 0 (metrics.phone_detected_frames - 1) }
  if metrics1.phone_detected_frames ≥ (phone_detection_frames : ℤ) then
    let r := check_phone_events phone_detection_frames track_id student_id now metrics1
    (r.1, true, r.2)
  else (metrics1, false, [])

/-! ## Pose/gaze analysis records and event synthesis
(`pipeline.py` lines 464-487, 538-635)

The MediaPipe analyser is an external capability; its per-track result
(`analysis['gaze']`, `analysis['pose']`) is an input of the embedded
pipeline step. -/

/-- The `analysis['gaze']` dict: classification state, score, head-pose
angles and eye aspect ratio, as consumed by `_check_attention_events`. -/
structure GazeResult where
  state : String
  score : ℚ
  yaw : ℚ
  pitch : ℚ
  eye_aspect_ratio : ℚ
deriving DecidableEq

/-- The `analysis['pose']` dict as consumed by `_check_posture_events`. -/
structure PoseResult where
  state : String
  score : ℚ
deriving DecidableEq

/-- `_check_attention_events` (lines 538-596): on a state transition emits
`attention_high` / `attention_low` / `drowsiness_detected` and updates
`last_attention_state` (and `distraction_count`). -/
def check_attention_events (attention_high_threshold : ℚ) (track_id : ℕ)
    (student_id : Option ℕ) (now : Timestamp) (metrics : TrackMetricsL)
    (gaze_data : GazeResult) : TrackMetricsL × List EventL :=
  let score := gaze_data.score
  let state := gaze_data.state
  let r :=
    if metrics.last_attention_state ≠ state then
      if state = "focused" ∧ score ≥ attention_high_threshold then
        (metrics, [⟨"attention_high", track_id, student_id, score, now⟩])
      else if state = "distracted" then
        ({ metrics with distraction_count := metrics.distraction_count + 1 },
         [⟨"attention_low", track_id, student_id, 1 - score, now⟩])
      else if state = "drowsy" then
        (metrics,
         [⟨"drowsiness_detected", track_id, student_id,
           1 - gaze_data.eye_aspect_ratio, now⟩])
      else (metrics, [])
    else (metrics, [])
  ({ r.1 with last_attention_state := state }, r.2)

/-- `_check_posture_events` (lines 598-635). -/
def check_posture_events (track_id : ℕ) (student_id : Option ℕ)
    (now : Timestamp) (metrics : TrackMetricsL) (pose_data : PoseResult) :
    TrackMetricsL × List EventL :=
  let state := pose_data.state
  let score := pose_data.score
  let r :=
    if metrics.last_posture_state ≠ state then
      if state = "slouching" ∨ state = "leaning" then
        (metrics, [⟨"posture_poor", track_id, student_id, 1 - score, now⟩])
      else if state = "good" ∧
          (metrics.last_posture_state = "slouching" ∨
           metrics.last_posture_state = "leaning") then
        (metrics, [⟨"posture_good", track_id, student_id, score, now⟩])
      else (metrics, [])
    else (metrics, [])
  ({ r.1 with last_posture_state := state }, r.2)

/-! ## Session metrics (`pipeline.py` lines 50-67, 659-699) -/

/-- One element of `attention_timeline` (appended at lines 674-678). -/
structure TimelineEntry where
  timestamp : Timestamp
  value : ℚ
  student_count : ℕ
deriving DecidableEq

/-- The per-track result dict assembled by `_process_track`
(lines 407-417); `attention` / `posture` hold the analysis dicts when
present. -/
structure TrackResultL where
  track_id : ℕ
  bbox : Bbox
  score : ℚ
  student_id : Option ℕ
  student_name : Option ℕ
  attention : Option GazeResult
  posture : Option PoseResult
  phone_detected : Bool
  events : List EventL
deriving DecidableEq

/-- `SessionMetrics` (lines 50-66).  The `track_metrics` dict is an
insertion-ordered association list, as a Python dict is.  `pending_events`
is never touched by the source and is omitted. -/
structure SessionMetricsL where
  session_id : ℕ
  start_time : Timestamp
  frame_count : ℕ := 0
  current_student_count : ℕ := 0
  peak_student_count : ℕ := 0
  attention_timeline : List TimelineEntry := []
  track_metrics : List (ℕ × TrackMetricsL) := []
deriving DecidableEq

/-- `_calculate_average_attention` (lines 680-691): mean of the attention
scores of the track results that carry one; `0` when none does. -/
def calculate_average_attention (track_results : List TrackResultL) : ℚ :=
  let attention_scores :=
    (track_results.filterMap (fun t => t.attention)).map (fun g => g.score)
  if attention_scores = [] then 0
  else attention_scores.sum / attention_scores.length

/-- `_update_session_metrics` (lines 659-678): always bumps `frame_count`,
`current_student_count` and `peak_student_count`; appends a timeline entry
only when `track_results` is non-empty (`if track_results:`). -/
def update_session_metrics (now : Timestamp) (sm : SessionMetricsL)
    (track_results : List TrackResultL) : SessionMetricsL :=
  let sm1 := { sm with
    frame_count := sm.frame_count + 1
    current_student_count := track_results.length
    peak_student_count := max sm.peak_student_count track_results.length }
  if track_results ≠ [] then
    { sm1 with
        attention_timeline := sm1.attention_timeline ++
          [⟨now, calculate_average_attention track_results,
            track_results.length⟩] }
  else sm1

/-! ## Dense rational linear algebra

`bytetrack.py` drives numpy through `@`, `np.diag`, `np.square`,
transposition and `np.linalg.inv`; vectors are rows of rationals and
matrices lists of rows. -/

/-- A numpy 1-d array of floats. -/
abbrev Vec := List ℚ

/-- A numpy 2-d array of floats, stored by rows. -/
abbrev Mat := List Vec

/-- Dot product of two rows. -/
def dotQ (v w : Vec) : ℚ := (List.zipWith (· * ·) v w).sum

/-- Row `i` of a matrix (out-of-range reads never happen on the shapes the
tracker builds; they default to an empty row). -/
def matRow (A : Mat) (i : ℕ) : Vec := A.getD i []

/-- Entry `A[i, j]`. -/
def matEntry (A : Mat) (i j : ℕ) : ℚ := (matRow A i).getD j 0

/-- Matrix transpose. -/
def matTranspose (A : Mat) : Mat :=
  (List.range (A.getD 0 []).length).map (fun j => A.map (fun row => row.getD j 0))

/-- `A @ B` for matrices. -/
def matMul (A B : Mat) : Mat :=
  let Bt := matTranspose B
  A.map (fun row => Bt.map (fun col => dotQ row col))

/-- `A @ v` for a matrix and a vector. -/
def matVec (A : Mat) (v : Vec) : Vec := A.map (fun row => dotQ row v)

/-- Entrywise matrix sum. -/
def matAdd (A B : Mat) : Mat := List.zipWith (List.zipWith (· + ·)) A B

/-- Entrywise matrix difference. -/
def matSub (A B : Mat) : Mat := List.zipWith (List.zipWith (· - ·)) A B

/-- Entrywise vector sum. -/
def vecAdd (v w : Vec) : Vec := List.zipWith (· + ·) v w

/-- Entrywise vector difference. -/
def vecSub (v w : Vec) : Vec := List.zipWith (· - ·) v w

/-- `np.square` on a vector. -/
def vecSquare (v : Vec) : Vec := v.map (fun x => x * x)

/-- `np.diag(d)`. -/
def diagMat (d : Vec) : Mat :=
  (List.range d.length).map (fun i =>
    (List.range d.length).map (fun j => if i = j then d.getD i 0 else 0))

/-- Determinant of a 2×2 block read off a matrix at the given row/column
indices; building block of the explicit 4×4 inverse. -/
def det2At (A : Mat) (r0 r1 c0 c1 : ℕ) : ℚ :=
  matEntry A r0 c0 * matEntry A r1 c1 - matEntry A r0 c1 * matEntry A r1 c0

/-- Determinant of the 3×3 minor of `A` on the given rows and columns. -/
def det3At (A : Mat) (r0 r1 r2 c0 c1 c2 : ℕ) : ℚ :=
  matEntry A r0 c0 * det2At A r1 r2 c1 c2
  - matEntry A r0 c1 * det2At A r1 r2 c0 c2
  + matEntry A r0 c2 * det2At A r1 r2 c0 c1

/-- Determinant of a 4×4 matrix by cofactor expansion along the first row. -/
def det4 (A : Mat) : ℚ :=
  matEntry A 0 0 * det3At A 1 2 3 1 2 3
  - matEntry A 0 1 * det3At A 1 2 3 0 2 3
  + matEntry A 0 2 * det3At A 1 2 3 0 1 3
  - matEntry A 0 3 * det3At A 1 2 3 0 1 2

/-- The complementary index triple of `k` in `{0,1,2,3}`. -/
def others4 (k : ℕ) : ℕ × ℕ × ℕ :=
  if k = 0 then (1, 2, 3)
  else if k = 1 then (0, 2, 3)
  else if k = 2 then (0, 1, 3)
  else (0, 1, 2)

/-- `np.linalg.inv` on the 4×4 matrices the Kalman update inverts
(`projected_cov`), via the adjugate formula.  numpy raises on a singular
matrix; there `det = 0` and this returns a junk matrix that the use sites
never produce. -/
def inv4 (A : Mat) : Mat :=
  let d := det4 A
  (List.range 4).map (fun i =>
    (List.range 4).map (fun j =>
      let rj := others4 j
      let ci := others4 i
      let m := det3At A rj.1 rj.2.1 rj.2.2 ci.1 ci.2.1 ci.2.2
      (if (i + j) % 2 = 0 then m else -m) / d))

/-! ## Kalman filter (`bytetrack.py` lines 120-199)

State `[cx, cy, w, h, vx, vy, vw, vh]`; `dt = 1`. -/

/-- `self._std_weight_position = 1.0 / 20` (line 137). -/
def std_weight_position : ℚ := 1 / 20

/-- `self._std_weight_velocity = 1.0 / 160` (line 138). -/
def std_weight_velocity : ℚ := 1 / 160

/-- `self._motion_mat`: `np.eye(8)` with `dt` on the position↔velocity
off-diagonal (lines 129-131). -/
def motion_mat : Mat :=
  (List.range 8).map (fun i =>
    (List.range 8).map (fun j => if j = i then 1 else if j = i + 4 then 1 else 0))

/-- `self._update_mat = np.eye(4, 8)` (line 134). -/
def update_mat : Mat :=
  (List.range 4).map (fun i =>
    (List.range 8).map (fun j => if j = i then 1 else 0))

/-- The `std` list of `initiate` (lines 146-155); note indices 0 and 2 use
`measurement[2]` (the width) and indices 1 and 3 use `measurement[3]`
(the height), and likewise for the velocity block. -/
def initiate_std (measurement : Vec) : Vec :=
  [2 * std_weight_position * measurement.getD 2 0,
   2 * std_weight_position * measurement.getD 3 0,
   2 * std_weight_position * measurement.getD 2 0,
   2 * std_weight_position * measurement.getD 3 0,
   10 * std_weight_velocity * measurement.getD 2 0,
   10 * std_weight_velocity * measurement.getD 3 0,
   10 * std_weight_velocity * measurement.getD 2 0,
   10 * std_weight_velocity * measurement.getD 3 0]

/-- `KalmanFilter.initiate` (lines 140-158): mean is the measurement
followed by zero velocities, covariance the diagonal of squared stds. -/
def kf_initiate (measurement : Vec) : Vec × Mat :=
  let mean := measurement ++ List.replicate measurement.length 0
  (mean, diagMat (vecSquare (initiate_std measurement)))

/-- The `std` list of `predict` (lines 162-171): same width/height pattern
read off the current mean. -/
def predict_std (mean : Vec) : Vec :=
  [std_weight_position * mean.getD 2 0,
   std_weight_position * mean.getD 3 0,
   std_weight_position * mean.getD 2 0,
   std_weight_position * mean.getD 3 0,
   std_weight_velocity * mean.getD 2 0,
   std_weight_velocity * mean.getD 3 0,
   std_weight_velocity * mean.getD 2 0,
   std_weight_velocity * mean.getD 3 0]

/-- `KalmanFilter.predict` (lines 160-177). -/
def kf_predict (mean : Vec) (covariance : Mat) : Vec × Mat :=
  let motion_cov := diagMat (vecSquare (predict_std mean))
  let mean1 := matVec motion_mat mean
  let covariance1 :=
    matAdd (matMul (matMul motion_mat covariance) (matTranspose motion_mat))
      motion_cov
  (mean1, covariance1)

/-- The `std` list of `update` (lines 182-187). -/
def update_std (mean : Vec) : Vec :=
  [std_weight_position * mean.getD 2 0,
   std_weight_position * mean.getD 3 0,
   std_weight_position * mean.getD 2 0,
   std_weight_position * mean.getD 3 0]

/-- `KalmanFilter.update` (lines 179-199). -/
def kf_update (mean : Vec) (covariance : Mat) (measurement : Vec) :
    Vec × Mat :=
  let innovation_cov := diagMat (vecSquare (update_std mean))
  let projected_mean := matVec update_mat mean
  let projected_cov :=
    matAdd (matMul (matMul update_mat covariance) (matTranspose update_mat))
      innovation_cov
  let kalman_gain :=
    matMul (matMul covariance (matTranspose update_mat)) (inv4 projected_cov)
  let innovation := vecSub measurement projected_mean
  let new_mean := vecAdd mean (matVec kalman_gain innovation)
  let new_covariance :=
    matSub covariance (matMul (matMul kalman_gain update_mat) covariance)
  (new_mean, new_covariance)

/-! ## Linear assignment (`bytetrack.py` lines 233-252)

`linear_assignment` delegates the optimisation to
`scipy.optimize.linear_sum_assignment`, an external library.  Modelled
from the spec: scipy's documented contract is a one-to-one minimum-cost
assignment of `min(rows, cols)` pairs; `linearSumAssignment` below
realises that contract by exhaustive search, and is proved optimal over
all one-to-one assignments.  The gating and bookkeeping around it are
translated from the source. -/

/-- A cost matrix with explicit shape, as a numpy 2-d array. -/
structure CostMatrix where
  rows : ℕ
  cols : ℕ
  entry : ℕ → ℕ → ℚ

/-- All ways of choosing `k` pairwise-distinct elements, in order, from the
pool `avail`. -/
def injSeqs : ℕ → List ℕ → List (List ℕ)
  | 0, _ => [[]]
  | k + 1, avail =>
      avail.flatMap (fun c => (injSeqs k (avail.erase c)).map (fun cs => c :: cs))

/-- Every maximal one-to-one assignment of row indices to column indices:
when `rows ≤ cols` each row gets a distinct column, otherwise each column
gets a distinct row. -/
def allAssignments (rows cols : ℕ) : List (List (ℕ × ℕ)) :=
  if rows ≤ cols then
    (injSeqs rows (List.range cols)).map (fun cs => (List.range rows).zip cs)
  else
    (injSeqs cols (List.range rows)).map (fun rs => rs.zip (List.range cols))

/-- Total cost of an assignment. -/
def assignmentCost (entry : ℕ → ℕ → ℚ) (a : List (ℕ × ℕ)) : ℚ :=
  (a.map (fun p => entry p.1 p.2)).sum

/-- First minimiser of `f` among `best` and the remaining candidates. -/
def argminBy {α : Type} (f : α → ℚ) : α → List α → α
  | best, [] => best
  | best, a :: rest =>
      if f a < f best then argminBy f a rest else argminBy f best rest

/-- Modelled from the spec: `scipy.optimize.linear_sum_assignment` (external
to this repository) solves the one-to-one minimum-cost assignment problem;
here computed by exhaustive search over `allAssignments`. -/
def linearSumAssignment (cost : CostMatrix) : List (ℕ × ℕ) :=
  match allAssignments cost.rows cost.cols with
  | [] => []
  | a :: rest => argminBy (assignmentCost cost.entry) a rest

/-- `linear_assignment` (lines 233-252): an empty matrix yields no matches
with every row and column unmatched; otherwise the solver's pairs are
accepted exactly when their cost is strictly below the threshold, and
accepted rows/columns are removed from the unmatched lists. -/
def linear_assignment (cost : CostMatrix) (thresh : ℚ) :
    List (ℕ × ℕ) × List ℕ × List ℕ :=
  if cost.rows * cost.cols = 0 then
    ([], List.range cost.rows, List.range cost.cols)
  else
    let pairs := linearSumAssignment cost
    pairs.foldl
      (fun acc rc =>
        if cost.entry rc.1 rc.2 < thresh then
          (acc.1 ++ [rc], (acc.2.1).erase rc.1, (acc.2.2).erase rc.2)
        else acc)
      ([], List.range cost.rows, List.range cost.cols)

/-! ## Tracks and the ByteTracker (`bytetrack.py` lines 14-118, 255-456)

`ByteTracker.update` mutates `STrack` objects that can be referenced from
`tracked_tracks` and `lost_tracks` simultaneously (a track marked lost
stays in `tracked_tracks` until the final state filter).  The embedding
therefore keeps every `STrack` object in a store keyed by its `track_id`
— ids are unique because `__post_init__` draws them from the global
counter — and the tracker's lists hold ids; each Python field mutation is
a store update, so aliased references observe it exactly as in the
source. -/

/-- `TrackState` (lines 14-20). -/
inductive TrackStateL where
  | NEW
  | TRACKED
  | LOST
  | REMOVED
deriving DecidableEq

/-- `STrack` (lines 23-117).  `features` is only ever copied around and
never read by the pipeline; it is omitted.  The class-level `_next_id`
counter lives in the tracker state. -/
structure STrackL where
  track_id : ℕ
  bbox : Bbox
  score : ℚ
  class_id : ℕ := 0
  mean : Vec
  covariance : Mat
  state : TrackStateL := TrackStateL.NEW
  is_activated : Bool := false
  frame_id : ℕ := 0
  start_frame : ℕ := 0
  tracklet_len : ℕ := 0
  student_id : Option ℕ := none
deriving DecidableEq

instance : Inhabited STrackL :=
  ⟨{ track_id := 0, bbox := ⟨0, 0, 0, 0⟩, score := 0, mean := [],
     covariance := [] }⟩

/-- Object store: `track_id ↦ STrack` association list. -/
abbrev Store := List (ℕ × STrackL)

/-- Dereference an object id. -/
def storeGet (s : Store) (id : ℕ) : STrackL :=
  ((s.find? (fun p => p.1 = id)).map (fun p => p.2)).getD default

/-- Mutate the object with the given id. -/
def storeSet (s : Store) (id : ℕ) (t : STrackL) : Store :=
  s.map (fun p => if p.1 = id then (id, t) else p)

/-- A detection dict handed to `ByteTracker.update`:
`{bbox, score, class_id}` (`features` omitted, see `STrackL`). -/
structure DetectionL where
  bbox : Bbox
  score : ℚ
  class_id : ℕ := 0
deriving DecidableEq

/-- `ByteTracker` (lines 255-287): configuration, the three track lists
(as object ids), frame counter, and the `STrack._next_id` class counter. -/
structure ByteTrackerL where
  track_thresh : ℚ := 1 / 2
  track_buffer : ℕ := 30
  match_thresh : ℚ := 4 / 5
  min_box_area : ℚ := 100
  tracked_tracks : List ℕ := []
  lost_tracks : List ℕ := []
  removed_tracks : List ℕ := []
  store : Store := []
  frame_id : ℕ := 0
  next_id : ℕ := 0
deriving DecidableEq

/-- `STrack.activate` (lines 59-65). -/
def strackActivate (t : STrackL) (frame_id : ℕ) : STrackL :=
  { t with frame_id := frame_id, start_frame := frame_id,
           state := TrackStateL.TRACKED, is_activated := true,
           tracklet_len := 0 }

/-- `STrack.re_activate` (lines 67-78). -/
def strackReActivate (t new_track : STrackL) (frame_id : ℕ) : STrackL :=
  { t with bbox := new_track.bbox, score := new_track.score,
           mean := new_track.mean, covariance := new_track.covariance,
           frame_id := frame_id, tracklet_len := 0,
           state := TrackStateL.TRACKED, is_activated := true }

/-- `STrack.update` (lines 80-89). -/
def strackUpdate (t new_track : STrackL) (frame_id : ℕ) : STrackL :=
  { t with frame_id := frame_id, bbox := new_track.bbox,
           score := new_track.score, tracklet_len := t.tracklet_len + 1,
           state := TrackStateL.TRACKED, is_activated := true }

/-- `iou_distance` (lines 219-230): `1 - IoU` cost matrix; an explicit
zero matrix when either side is empty. -/
def iou_distance (tracks detections : List STrackL) : CostMatrix :=
  if tracks.length = 0 ∨ detections.length = 0 then
    ⟨tracks.length, detections.length, fun _ _ => 0⟩
  else
    ⟨tracks.length, detections.length, fun i j =>
      1 - bbox_iou (tracks.getD i default).bbox (detections.getD j default).bbox⟩

/-- `ByteTracker.reset` (lines 281-287), including `STrack.reset_id`. -/
def tracker_reset (t : ByteTrackerL) : ByteTrackerL :=
  { t with tracked_tracks := [], lost_tracks := [], removed_tracks := [],
           store := [], frame_id := 0, next_id := 0 }

/-- `ByteTracker.update` (lines 289-434), step by step.  The local
`unconfirmed` list of line 353 is computed by the source but never used
afterwards, so it does not appear.  `removed_tracks` is never appended to
by the source (marked-removed objects are only dropped from
`lost_tracks`), and the clause `t not in removed_lost` at line 416 is
subsumed by `t.state == LOST` since every element of `removed_lost` has
state `REMOVED`.  Returns the new tracker state and the ids of the active
tracks returned at line 434. -/
def tracker_update (t : ByteTrackerL) (detections : List DetectionL) :
    ByteTrackerL × List ℕ :=
  let frame_id := t.frame_id + 1
  -- Filter small detections (lines 305-311).
  let valid_dets :=
    detections.filter (fun det => bboxArea det.bbox ≥ t.min_box_area)
  -- Separate high and low confidence detections, building one STrack per
  -- detection with a fresh id and an initiated Kalman state (lines 313-336).
  let step1 := valid_dets.foldl
    (fun (acc : ℕ × Store × List ℕ × List ℕ) det =>
      let new_id := acc.1 + 1
      let cx := (det.bbox.x1 + det.bbox.x2) / 2
      let cy := (det.bbox.y1 + det.bbox.y2) / 2
      let w := det.bbox.x2 - det.bbox.x1
      let h := det.bbox.y2 - det.bbox.y1
      let mc := kf_initiate [cx, cy, w, h]
      let tr : STrackL :=
        { track_id := new_id, bbox := det.bbox, score := det.score,
          class_id := det.class_id, mean := mc.1, covariance := mc.2 }
      if det.score ≥ t.track_thresh then
        (new_id, acc.2.1 ++ [(new_id, tr)], acc.2.2.1 ++ [new_id], acc.2.2.2)
      else
        (new_id, acc.2.1 ++ [(new_id, tr)], acc.2.2.1, acc.2.2.2 ++ [new_id]))
    (t.next_id, t.store, [], [])
  let next_id := step1.1
  let store1 := step1.2.1
  let high_dets := step1.2.2.1
  let low_dets := step1.2.2.2
  -- Predict positions of tracked tracks, refreshing their bbox from the
  -- mean, and of lost tracks (lines 338-350).
  let store2 := t.tracked_tracks.foldl
    (fun s id =>
      let tr := storeGet s id
      let mc := kf_predict tr.mean tr.covariance
      let cx := mc.1.getD 0 0
      let cy := mc.1.getD 1 0
      let w := mc.1.getD 2 0
      let h := mc.1.getD 3 0
      storeSet s id
        { tr with
            mean := mc.1
            covariance := mc.2
            bbox := ⟨cx - w / 2, cy - h / 2, cx + w / 2, cy + h / 2⟩ })
    store1
  let store3 := t.lost_tracks.foldl
    (fun s id =>
      let tr := storeGet s id
      let mc := kf_predict tr.mean tr.covariance
      storeSet s id { tr with mean := mc.1, covariance := mc.2 })
    store2
  -- First association: activated tracked tracks against high-confidence
  -- detections, gated by match_thresh (lines 352-377).
  let tracked :=
    t.tracked_tracks.filter (fun id => (storeGet store3 id).is_activated)
  let cost1 := iou_distance (tracked.map (storeGet store3))
    (high_dets.map (storeGet store3))
  let la1 := linear_assignment cost1 t.match_thresh
  let store4 := la1.1.foldl
    (fun s m =>
      let track_id := tracked.getD m.1 0
      let det := storeGet s (high_dets.getD m.2 0)
      let track := storeGet s track_id
      let cx := (det.bbox.x1 + det.bbox.x2) / 2
      let cy := (det.bbox.y1 + det.bbox.y2) / 2
      let w := det.bbox.x2 - det.bbox.x1
      let h := det.bbox.y2 - det.bbox.y1
      let mc := kf_update track.mean track.covariance [cx, cy, w, h]
      storeSet s track_id
        (strackUpdate { track with mean := mc.1, covariance := mc.2 } det
          frame_id))
    store3
  let remaining_tracked := la1.2.1.map (fun i => tracked.getD i 0)
  let remaining_high := la1.2.2.map (fun i => high_dets.getD i 0)
  -- Second association with low-confidence detections, gate 0.5
  -- (lines 383-390).
  let cost2 := iou_distance (remaining_tracked.map (storeGet store4))
    (low_dets.map (storeGet store4))
  let la2 := linear_assignment cost2 (1 / 2)
  let store5 := la2.1.foldl
    (fun s m =>
      let track_id := remaining_tracked.getD m.1 0
      let det := storeGet s (low_dets.getD m.2 0)
      storeSet s track_id (strackUpdate (storeGet s track_id) det frame_id))
    store4
  -- Mark remaining unmatched tracks as lost (lines 392-397); the lost
  -- object stays referenced from tracked_tracks until the final filter.
  let step6 := la2.2.1.foldl
    (fun (acc : Store × List ℕ) idx =>
      let track_id := remaining_tracked.getD idx 0
      let track := storeGet acc.1 track_id
      if track.state ≠ TrackStateL.LOST then
        (storeSet acc.1 track_id { track with state := TrackStateL.LOST },
         acc.2 ++ [track_id])
      else acc)
    (store5, t.lost_tracks)
  let store6 := step6.1
  let lost1 := step6.2
  -- Third association: lost tracks against remaining high detections,
  -- gate 0.7; matches are re-activated (lines 399-406).
  let cost3 := iou_distance (lost1.map (storeGet store6))
    (remaining_high.map (storeGet store6))
  let la3 := linear_assignment cost3 (7 / 10)
  let store7 := la3.1.foldl
    (fun s m =>
      let track_id := lost1.getD m.1 0
      let det := storeGet s (remaining_high.getD m.2 0)
      storeSet s track_id (strackReActivate (storeGet s track_id) det frame_id))
    store6
  -- Remove lost tracks that exceeded the buffer (lines 408-416).
  let store8 := lost1.foldl
    (fun s id =>
      let track := storeGet s id
      if (frame_id : ℤ) - (track.frame_id : ℤ) > (t.track_buffer : ℤ) then
        storeSet s id { track with state := TrackStateL.REMOVED }
      else s)
    store7
  let lost2 :=
    lost1.filter (fun id => (storeGet store8 id).state = TrackStateL.LOST)
  -- Initialize new tracks from unmatched high-confidence detections
  -- (lines 418-424).
  let step9 := la3.2.2.foldl
    (fun (acc : Store × List ℕ) idx =>
      let det_id := remaining_high.getD idx 0
      let det := storeGet acc.1 det_id
      if det.score ≥ t.track_thresh then
        (storeSet acc.1 det_id (strackActivate det frame_id),
         acc.2 ++ [det_id])
      else acc)
    (store8, [])
  let store9 := step9.1
  let new_tracks := step9.2
  -- Update track lists and return active tracks (lines 426-434).
  let tracked_final := (t.tracked_tracks.filter
    (fun id => (storeGet store9 id).state = TrackStateL.TRACKED)) ++ new_tracks
  let active :=
    tracked_final.filter (fun id => (storeGet store9 id).is_activated)
  ({ t with tracked_tracks := tracked_final, lost_tracks := lost2,
            store := store9, frame_id := frame_id, next_id := next_id },
   active)

/-! ## The monitoring pipeline (`pipeline.py` lines 69-763)

The detector, face and pose/gaze capabilities are external models; the
per-frame input carries their outputs (person detections, phone
associations, and a per-track analysis oracle).  The embedding covers a
pipeline configured with an empty known-embedding catalog — as in every
claim scenario — under which `_try_face_recognition` (lines 515-536)
returns `None` immediately (lines 517-518), so the recognition block of
`_process_track` (lines 445-462) only touches the cooldown map and the
result record.  The `on_event` / `on_frame` callbacks (lines 368-388) are
external sinks that receive the events and the result and do not touch
pipeline state; they are not modelled. -/

/-- Python `int(c)` on a float: truncation toward zero. -/
def ratTrunc (q : ℚ) : ℤ := q.num.tdiv (q.den : ℤ)

instance : Inhabited TrackMetricsL :=
  ⟨{ track_id := 0, first_seen := 0, last_seen := 0 }⟩

instance : Inhabited DetectionL := ⟨{ bbox := ⟨0, 0, 0, 0⟩, score := 0 }⟩

/-- Lookup in the `track_metrics` dict. -/
def tmGet (tm : List (ℕ × TrackMetricsL)) (id : ℕ) : TrackMetricsL :=
  ((tm.find? (fun q => q.1 = id)).map (fun q => q.2)).getD default

/-- Write-back into the `track_metrics` dict. -/
def tmSet (tm : List (ℕ × TrackMetricsL)) (id : ℕ) (m : TrackMetricsL) :
    List (ℕ × TrackMetricsL) :=
  tm.map (fun q => if q.1 = id then (id, m) else q)

/-- `_track_matches_person` (lines 510-513). -/
def track_matches_person (track : STrackL) (person : DetectionL) : Bool :=
  bbox_iou track.bbox person.bbox > 1 / 2

/-- `deque(maxlen=30)` append: drops the oldest entries beyond the cap. -/
def pushMaxlen (maxlen : ℕ) (l : List ℚ) (x : ℚ) : List ℚ :=
  let l1 := l ++ [x]
  if l1.length > maxlen then l1.drop (l1.length - maxlen) else l1

/-- `_calculate_fps` (lines 693-699). -/
def calculate_fps (frame_times : List ℚ) : ℚ :=
  if frame_times.length < 2 then 0
  else
    let avg_interval := frame_times.sum / (frame_times.length : ℚ)
    if avg_interval > 0 then 1 / avg_interval else 0

/-- `MonitoringPipeline` mutable state (lines 96-130) restricted to the
fields the claims observe; thresholds keep their constructor defaults. -/
structure PipelineStateL where
  is_running : Bool := false
  session_id : Option ℕ := none
  session_metrics : Option SessionMetricsL := none
  tracker : ByteTrackerL := {}
  last_frame_time : ℚ := 0
  frame_times : List ℚ := []
  recognition_cooldown : List (ℕ × ℚ) := []
  recognition_interval : ℚ := 2
  attention_high_threshold : ℚ := 7 / 10
  attention_low_threshold : ℚ := 4 / 10
  phone_detection_frames : ℕ := 3
  posture_poor_threshold : ℚ := 1 / 2
deriving DecidableEq

/-- One frame's worth of external-capability output, as consumed by
`process_frame`: the detector's person list, the
`detect_phones_near_persons` association (only the person index of each
pair is read, line 492), a per-track pose/gaze analysis oracle standing
for `self.pose_gaze_analyzer.analyze(person_roi)`, the wall-clock tick
and `time.time()` value, and the frame dimensions. -/
structure FrameInputL where
  persons : List DetectionL
  phone_associations : List ℕ
  analyses : ℕ → Option GazeResult × Option PoseResult
  now : Timestamp
  time_now : ℚ
  frame_w : ℤ := 640
  frame_h : ℤ := 480

/-- The frame result dict (lines 310-317, 356-366).  On the early
session-not-running return (line 302) only `error` is meaningful; the
remaining fields are zeroed. -/
structure FrameResultL where
  error : Option String := none
  timestamp : Timestamp := 0
  session_id : Option ℕ := none
  detections_persons : ℕ := 0
  tracks : List TrackResultL := []
  student_count : ℕ := 0
  average_attention : ℚ := 0
  fps : ℚ := 0
  events : List EventL := []
deriving DecidableEq

/-- `_process_track` (lines 398-508) for one active track: threads the
`track_metrics` dict and the recognition-cooldown map, and produces the
track result record.  The face-recognition branch follows the
empty-catalog behaviour (`face_result = None`), whose only effect is the
cooldown write at line 459. -/
def process_track (phone_detection_frames : ℕ)
    (attention_high_threshold recognition_interval : ℚ)
    (input : FrameInputL) (track : STrackL)
    (tm0 : List (ℕ × TrackMetricsL)) (cooldown : List (ℕ × ℚ)) :
    List (ℕ × TrackMetricsL) × List (ℕ × ℚ) × TrackResultL :=
  let track_data0 : TrackResultL :=
    { track_id := track.track_id, bbox := track.bbox, score := track.score,
      student_id := track.student_id, student_name := none,
      attention := none, posture := none, phone_detected := false,
      events := [] }
  -- Get or create track metrics; a fresh track emits student_entered
  -- (lines 420-430).
  let is_new := (tm0.find? (fun q => q.1 = track.track_id)).isNone
  let tm1 :=
    if is_new then
      tm0 ++ [(track.track_id,
        { track_id := track.track_id, first_seen := input.now,
          last_seen := input.now })]
    else tm0
  let track_data1 :=
    if is_new then
      { track_data0 with events := track_data0.events ++
          [⟨"student_entered", track.track_id, none, track.score,
            input.now⟩] }
    else track_data0
  -- metrics.last_seen = datetime.now() (line 433).
  let metrics1 := { tmGet tm1 track.track_id with last_seen := input.now }
  -- Extract the person region; degenerate crops return early
  -- (lines 436-443).
  let x1 := max 0 (ratTrunc track.bbox.x1)
  let y1 := max 0 (ratTrunc track.bbox.y1)
  let x2 := min input.frame_w (ratTrunc track.bbox.x2)
  let y2 := min input.frame_h (ratTrunc track.bbox.y2)
  if x2 ≤ x1 ∨ y2 ≤ y1 then
    (tmSet tm1 track.track_id metrics1, cooldown, track_data1)
  else
    -- Face recognition with cooldown (lines 445-462); empty catalog.
    let cool :=
      (((cooldown.find? (fun q => q.1 = track.track_id)).map
         (fun q => q.2)).getD 0)
    let rec_branch :=
      track.student_id = none ∧ input.time_now - cool > recognition_interval
    let cooldown1 :=
      if rec_branch then
        if (cooldown.find? (fun q => q.1 = track.track_id)).isSome then
          cooldown.map (fun q =>
            if q.1 = track.track_id then (q.1, input.time_now) else q)
        else cooldown ++ [(track.track_id, input.time_now)]
      else cooldown
    let track_data2 :=
      if rec_branch then track_data1
      else
        { track_data1 with student_id := track.student_id,
                           student_name := metrics1.student_name }
    -- Pose and gaze analysis (lines 464-487).
    let analysis := input.analyses track.track_id
    let gstep :=
      match analysis.1 with
      | some gaze =>
          let metrics2 := { metrics1 with
            attention_scores := metrics1.attention_scores ++ [gaze.score] }
          let r := check_attention_events attention_high_threshold
            track.track_id track.student_id input.now metrics2 gaze
          (r.1,
           { track_data2 with
               attention := some gaze
               events := track_data2.events ++ r.2 })
      | none => (metrics1, track_data2)
    let pstep :=
      match analysis.2 with
      | some pose =>
          let metrics3 := { gstep.1 with
            posture_scores := gstep.1.posture_scores ++ [pose.score] }
          let r := check_posture_events track.track_id track.student_id
            input.now metrics3 pose
          (r.1,
           { gstep.2 with
               posture := some pose
               events := gstep.2.events ++ r.2 })
      | none => gstep
    -- Phone detection (lines 489-507).
    let person_has_phone := input.phone_associations.any (fun idx =>
      decide (idx < input.persons.length) &&
        (decide (idx = track.track_id) ||
          track_matches_person track (input.persons.getD idx default)))
    let ph := phoneTrackStep phone_detection_frames track.track_id
      track.student_id input.now pstep.1 person_has_phone
    let track_dataF :=
      { pstep.2 with phone_detected := ph.2.1,
                     events := pstep.2.events ++ ph.2.2 }
    (tmSet tm1 track.track_id ph.1, cooldown1, track_dataF)

/-- `process_frame` (lines 291-396).  When the session is not running the
frame is rejected before any state is touched (lines 301-302).  The
session-metrics accesses inside the `try` block assume a started session;
`start_session` always installs metrics together with `is_running`, and
on the unreachable `None` case the embedding mirrors the caught
`AttributeError` (lines 390-392) after the tracker has already advanced. -/
def process_frame (p : PipelineStateL) (input : FrameInputL) :
    PipelineStateL × FrameResultL :=
  if p.is_running = false then
    (p, { error := some "Session not running" })
  else
    -- FPS bookkeeping (lines 306-308).
    let frame_times1 := pushMaxlen 30 p.frame_times
      (input.time_now - p.last_frame_time)
    -- Person detection is external; tracking (lines 320-330).
    let track_detections := input.persons.map (fun pd =>
      ({ bbox := pd.bbox, score := pd.score, class_id := 0 } : DetectionL))
    let tu := tracker_update p.tracker track_detections
    let tracker1 := tu.1
    let active := tu.2
    match p.session_metrics with
    | none =>
        -- Unreachable while a session runs (start_session installs the
        -- metrics with is_running); without metrics the first
        -- _process_track raises AttributeError, caught at lines 390-392,
        -- while a frame with no active tracks passes through the None
        -- guard of _update_session_metrics (lines 661-662).
        if active = [] then
          ({ p with tracker := tracker1, frame_times := frame_times1,
                    last_frame_time := input.time_now },
           { error := none, timestamp := input.now,
             session_id := p.session_id,
             detections_persons := input.persons.length, tracks := [],
             student_count := 0, average_attention := 0,
             fps := calculate_fps frame_times1, events := [] })
        else
          ({ p with tracker := tracker1, frame_times := frame_times1,
                    last_frame_time := input.time_now },
           { error := some "AttributeError", timestamp := input.now,
             session_id := p.session_id })
    | some sm =>
        -- Process each track (lines 338-350).
        let step := active.foldl
          (fun (acc : List (ℕ × TrackMetricsL) × List (ℕ × ℚ) ×
                       List TrackResultL) id =>
            let r := process_track p.phone_detection_frames
              p.attention_high_threshold p.recognition_interval input
              (storeGet tracker1.store id) acc.1 acc.2.1
            (r.1, r.2.1, acc.2.2 ++ [r.2.2]))
          (sm.track_metrics, p.recognition_cooldown, [])
        let track_results := step.2.2
        let events := track_results.foldl (fun es td => es ++ td.events) []
        -- Update session metrics (lines 352-353).
        let sm2 := update_session_metrics input.now
          { sm with track_metrics := step.1 } track_results
        ({ p with tracker := tracker1, session_metrics := some sm2,
                  frame_times := frame_times1,
                  last_frame_time := input.time_now,
                  recognition_cooldown := step.2.1 },
         { error := none, timestamp := input.now, session_id := p.session_id,
           detections_persons := input.persons.length,
           tracks := track_results, student_count := active.length,
           average_attention := calculate_average_attention track_results,
           fps := calculate_fps frame_times1, events := events })

/-- `start_session` (lines 145-158). -/
def start_session (p : PipelineStateL) (session_id : ℕ) (now : Timestamp) :
    PipelineStateL :=
  { p with session_id := some session_id, is_running := true,
           tracker := tracker_reset p.tracker,
           session_metrics := some { session_id := session_id,
                                     start_time := now },
           recognition_cooldown := [] }

/-- One per-student entry of the final analytics (lines 710-726). -/
structure StudentMetricsOut where
  trackId : ℕ
  studentId : Option ℕ
  name : Option ℕ
  averageAttention : Option ℚ
  distractionCount : ℕ
  phoneUsageCount : ℕ
  firstSeen : Timestamp
  lastSeen : Timestamp
  totalTimePresent : ℤ
deriving DecidableEq

/-- The analytics dict compiled on stop (lines 733-748). -/
structure SessionAnalytics where
  attention_average : ℚ
  attention_min : ℚ
  attention_max : ℚ
  peakStudentCount : ℕ
  averageStudentCount : ℚ
  studentMetrics : List StudentMetricsOut
  totalFrames : ℕ
  averageFps : ℚ
deriving DecidableEq

/-- Python `min` over a non-empty list (0 guard applied by the caller). -/
def listMinQ : List ℚ → ℚ
  | [] => 0
  | x :: xs => xs.foldl min x

/-- Python `max` over a non-empty list (0 guard applied by the caller). -/
def listMaxQ : List ℚ → ℚ
  | [] => 0
  | x :: xs => xs.foldl max x

/-- `_compile_session_analytics` (lines 701-748). -/
def compile_session_analytics (frame_times : List ℚ)
    (sm : SessionMetricsL) : SessionAnalytics :=
  let student_metrics := sm.track_metrics.map (fun q =>
    let tmx := q.2
    ({ trackId := q.1, studentId := tmx.student_id, name := tmx.student_name,
       averageAttention :=
         if tmx.attention_scores = [] then none
         else some (tmx.attention_scores.sum /
           (tmx.attention_scores.length : ℚ)),
       distractionCount := tmx.distraction_count,
       phoneUsageCount := tmx.phone_usage_count,
       firstSeen := tmx.first_seen, lastSeen := tmx.last_seen,
       totalTimePresent := (tmx.last_seen : ℤ) - (tmx.first_seen : ℤ)
     } : StudentMetricsOut))
  let all_attention := sm.track_metrics.flatMap (fun q => q.2.attention_scores)
  { attention_average :=
      if all_attention = [] then 0
      else all_attention.sum / (all_attention.length : ℚ),
    attention_min := if all_attention = [] then 0 else listMinQ all_attention,
    attention_max := if all_attention = [] then 0 else listMaxQ all_attention,
    peakStudentCount := sm.peak_student_count,
    averageStudentCount :=
      if sm.attention_timeline = [] then 0
      else ((sm.attention_timeline.map
        (fun e => (e.student_count : ℚ))).sum) /
        (sm.attention_timeline.length : ℚ),
    studentMetrics := student_metrics,
    totalFrames := sm.frame_count,
    averageFps := calculate_fps frame_times }

/-- `stop_session` (lines 160-176): always clears `is_running`; with no
active session metrics it returns the empty dict (modelled as `none`)
and changes nothing else; otherwise it compiles the analytics and clears
the session fields. -/
def stop_session (p : PipelineStateL) : PipelineStateL × Option SessionAnalytics :=
  let p1 := { p with is_running := false }
  match p1.session_metrics with
  | none => (p1, none)
  | some sm =>
      ({ p1 with session_id := none, session_metrics := none },
       some (compile_session_analytics p1.frame_times sm))

/-! ## Concrete scenario: occlusion recovery (spec §8, seed scenario 2)

A single stationary person: detected on frames 1-10, occluded (no
detections) on frames 11-15, re-detected at the same place from frame 16
on.  The detector reports bbox `[0,0,10,10]` (area 100 = `min_box_area`)
with score 0.9 every detected frame; no phones; the pose/gaze capability
returns nothing; timestamps are the frame number. -/

/-- The stationary person detection used by the occlusion scenario. -/
def occlusionDet : DetectionL := { bbox := ⟨0, 0, 10, 10⟩, score := 9 / 10 }

/-- Frame input of the occlusion scenario: detected except frames 11-15. -/
def occlusionInput (frame : ℕ) : FrameInputL :=
  { persons := if frame ≤ 10 ∨ 16 ≤ frame then [occlusionDet] else [],
    phone_associations := [],
    analyses := fun _ => (none, none),
    now := frame,
    time_now := (frame : ℚ) }

/-- Per-frame observation of the run: the ids the pipeline returned as
active tracks, the tracker's lost list, the stored state of the track
with id 1, and the frame's events. -/
structure OcclusionObs where
  frame : ℕ
  active_ids : List ℕ
  lost_ids : List ℕ
  track1_state : TrackStateL
  events : List EventL
deriving DecidableEq

/-- One monitored frame of the occlusion scenario. -/
def occlusionStep (acc : PipelineStateL × List OcclusionObs) (frame : ℕ) :
    PipelineStateL × List OcclusionObs :=
  let r := process_frame acc.1 (occlusionInput frame)
  (r.1, acc.2 ++ [⟨frame, r.2.tracks.map (fun t => t.track_id),
    r.1.tracker.lost_tracks, (storeGet r.1.tracker.store 1).state,
    r.2.events⟩])

/-- The occlusion scenario run over frames `1..n`, starting from a freshly
started session. -/
def occlusionRunTo (n : ℕ) : PipelineStateL × List OcclusionObs :=
  ((List.range n).map (fun i => i + 1)).foldl occlusionStep
    (start_session {} 1 0, [])

/-- The observation trace the embedded pipeline actually produces on the
occlusion scenario (established by `occlusion_trace_eval` below): the
track is Tracked on frames 1-10, Lost on 11-15, and on frame 16 the
re-activated object (state Tracked again) is dropped from both the
tracked and the lost list, so the active list stays empty; a second
track (id 12) spawns on frame 17 with a second `student_entered`. -/
def occlusionExpectedTrace : List OcclusionObs :=
  [⟨1, [1], [], TrackStateL.TRACKED,
     [⟨"student_entered", 1, none, 9 / 10, 1⟩]⟩,
   ⟨2, [1], [], TrackStateL.TRACKED, []⟩,
   ⟨3, [1], [], TrackStateL.TRACKED, []⟩,
   ⟨4, [1], [], TrackStateL.TRACKED, []⟩,
   ⟨5, [1], [], TrackStateL.TRACKED, []⟩,
   ⟨6, [1], [], TrackStateL.TRACKED, []⟩,
   ⟨7, [1], [], TrackStateL.TRACKED, []⟩,
   ⟨8, [1], [], TrackStateL.TRACKED, []⟩,
   ⟨9, [1], [], TrackStateL.TRACKED, []⟩,
   ⟨10, [1], [], TrackStateL.TRACKED, []⟩,
   ⟨11, [], [1], TrackStateL.LOST, []⟩,
   ⟨12, [], [1], TrackStateL.LOST, []⟩,
   ⟨13, [], [1], TrackStateL.LOST, []⟩,
   ⟨14, [], [1], TrackStateL.LOST, []⟩,
   ⟨15, [], [1], TrackStateL.LOST, []⟩,
   ⟨16, [], [], TrackStateL.TRACKED, []⟩,
   ⟨17, [12], [], TrackStateL.TRACKED,
     [⟨"student_entered", 12, none, 9 / 10, 17⟩]⟩,
   ⟨18, [12], [], TrackStateL.TRACKED, []⟩,
   ⟨19, [12], [], TrackStateL.TRACKED, []⟩,
   ⟨20, [12], [], TrackStateL.TRACKED, []⟩]

/-! ## Concrete scenario: phone-detection hysteresis (spec §8, seed 4)

The same stationary person, present on all 20 frames; the phone is
associated with person index 0 exactly on frames 5-10. -/

/-- Frame input of the phone scenario. -/
def phoneInput (frame : ℕ) : FrameInputL :=
  { persons := [occlusionDet],
    phone_associations := if 5 ≤ frame ∧ frame ≤ 10 then [0] else [],
    analyses := fun _ => (none, none),
    now := frame,
    time_now := (frame : ℚ) }

/-- One monitored frame of the phone scenario, collecting the frames on
which a `phone_detected` event was emitted. -/
def phoneStep (acc : PipelineStateL × List ℕ) (frame : ℕ) :
    PipelineStateL × List ℕ :=
  let r := process_frame acc.1 (phoneInput frame)
  (r.1, acc.2 ++ ((r.2.events.filter
    (fun e => e.eventType == "phone_detected")).map (fun _ => frame)))

/-- The phone scenario run over frames 1-20. -/
def phoneRun : PipelineStateL × List ℕ :=
  ((List.range 20).map (fun i => i + 1)).foldl phoneStep
    (start_session {} 2 0, [])

/-- The phone-scenario observables: the frames carrying a
`phone_detected` event, and track 1's final `phone_usage_count`. -/
def phoneRunObs : List ℕ × ℕ :=
  let r := phoneRun
  (r.2,
   ((r.1.session_metrics.map
      (fun sm => (tmGet sm.track_metrics 1).phone_usage_count)).getD 0))

/-- Iterating the phone slice of `_process_track` on a fresh
`TrackMetrics` with the phone present for 5 consecutive frames. -/
def phoneCounterRun : TrackMetricsL :=
  (List.range 5).foldl
    (fun m i => (phoneTrackStep 3 1 none i m true).1)
    { track_id := 1, first_seen := 0, last_seen := 0 }


/-- Pipeline state checkpoint after frames 1-4 of the occlusion scenario (established by the chunk evaluations below). -/
def occState4 : PipelineStateL :=
  { is_running := true, session_id := some 1, session_metrics := some { session_id := 1, start_time := 0, frame_count := 4, current_student_count := 1, peak_student_count := 1, attention_timeline := [{ timestamp := 1, value := 0, student_count := 1 }, { timestamp := 2, value := 0, student_count := 1 }, { timestamp := 3, value := 0, student_count := 1 }, { timestamp := 4, value := 0, student_count := 1 }], track_metrics := [(1, { track_id := 1, student_id := none, student_name := none, first_seen := 1, last_seen := 4, attention_scores := [], posture_scores := [], phone_usage_count := 0, distraction_count := 0, looking_away_count := 0, last_attention_state := "unknown", last_posture_state := "unknown", phone_detected_frames := 0 })] }, tracker := { track_thresh := (1 : Rat)/2, track_buffer := 30, match_thresh := (4 : Rat)/5, min_box_area := 100, tracked_tracks := [1], lost_tracks := [], removed_tracks := [], store := [(1, { track_id := 1, bbox := { x1 := 0, y1 := 0, x2 := 10, y2 := 10 }, score := (9 : Rat)/10, class_id := 0, mean := [5, 5, 10, 10, 0, 0, 0, 0], covariance := [[(7248121 : Rat)/37985508, 0, 0, 0, (2522681 : Rat)/37985508, 0, 0, 0], [0, (7248121 : Rat)/37985508, 0, 0, 0, (2522681 : Rat)/37985508, 0, 0], [0, 0, (7248121 : Rat)/37985508, 0, 0, 0, (2522681 : Rat)/37985508, 0], [0, 0, 0, (7248121 : Rat)/37985508, 0, 0, 0, (2522681 : Rat)/37985508], [(2522681 : Rat)/37985508, 0, 0, 0, (314425849 : Rat)/2431072512, 0, 0, 0], [0, (2522681 : Rat)/37985508, 0, 0, 0, (314425849 : Rat)/2431072512, 0, 0], [0, 0, (2522681 : Rat)/37985508, 0, 0, 0, (314425849 : Rat)/2431072512, 0], [0, 0, 0, (2522681 : Rat)/37985508, 0, 0, 0, (314425849 : Rat)/2431072512]], state := ClassroomMonitor.TrackStateL.TRACKED, is_activated := true, frame_id := 4, start_frame := 1, tracklet_len := 3, student_id := none }), (2, { track_id := 2, bbox := { x1 := 0, y1 := 0, x2 := 10, y2 := 10 }, score := (9 : Rat)/10, class_id := 0, mean := [5, 5, 10, 10, 0, 0, 0, 0], covariance := [[1, 0, 0, 0, 0, 0, 0, 0], [0, 1, 0, 0, 0, 0, 0, 0], [0, 0, 1, 0, 0, 0, 0, 0], [0, 0, 0, 1, 0, 0, 0, 0], [0, 0, 0, 0, (25 : Rat)/64, 0, 0, 0], [0, 0, 0, 0, 0, (25 : Rat)/64, 0, 0], [0, 0, 0, 0, 0, 0, (25 : Rat)/64, 0], [0, 0, 0, 0, 0, 0, 0, (25 : Rat)/64]], state := ClassroomMonitor.TrackStateL.NEW, is_activated := false, frame_id := 0, start_frame := 0, tracklet_len := 0, student_id := none }), (3, { track_id := 3, bbox := { x1 := 0, y1 := 0, x2 := 10, y2 := 10 }, score := (9 : Rat)/10, class_id := 0, mean := [5, 5, 10, 10, 0, 0, 0, 0], covariance := [[1, 0, 0, 0, 0, 0, 0, 0], [0, 1, 0, 0, 0, 0, 0, 0], [0, 0, 1, 0, 0, 0, 0, 0], [0, 0, 0, 1, 0, 0, 0, 0], [0, 0, 0, 0, (25 : Rat)/64, 0, 0, 0], [0, 0, 0, 0, 0, (25 : Rat)/64, 0, 0], [0, 0, 0, 0, 0, 0, (25 : Rat)/64, 0], [0, 0, 0, 0, 0, 0, 0, (25 : Rat)/64]], state := ClassroomMonitor.TrackStateL.NEW, is_activated := false, frame_id := 0, start_frame := 0, tracklet_len := 0, student_id := none }), (4, { track_id := 4, bbox := { x1 := 0, y1 := 0, x2 := 10, y2 := 10 }, score := (9 : Rat)/10, class_id := 0, mean := [5, 5, 10, 10, 0, 0, 0, 0], covariance := [[1, 0, 0, 0, 0, 0, 0, 0], [0, 1, 0, 0, 0, 0, 0, 0], [0, 0, 1, 0, 0, 0, 0, 0], [0, 0, 0, 1, 0, 0, 0, 0], [0, 0, 0, 0, (25 : Rat)/64, 0, 0, 0], [0, 0, 0, 0, 0, (25 : Rat)/64, 0, 0], [0, 0, 0, 0, 0, 0, (25 : Rat)/64, 0], [0, 0, 0, 0, 0, 0, 0, (25 : Rat)/64]], state := ClassroomMonitor.TrackStateL.NEW, is_activated := false, frame_id := 0, start_frame := 0, tracklet_len := 0, student_id := none })], frame_id := 4, next_id := 4 }, last_frame_time := 4, frame_times := [1, 1, 1, 1], recognition_cooldown := [(1, 3)], recognition_interval := 2, attention_high_threshold := (7 : Rat)/10, attention_low_threshold := (2 : Rat)/5, phone_detection_frames := 3, posture_poor_threshold := (1 : Rat)/2 }

/-- Observations of occlusion-scenario frames 1-4. -/
def occObs1 : List OcclusionObs :=
  [{ frame := 1, active_ids := [1], lost_ids := [], track1_state := ClassroomMonitor.TrackStateL.TRACKED, events := [{ eventType := "student_entered", trackId := 1, studentId := none, confidence := (9 : Rat)/10, timestamp := 1 }] }, { frame := 2, active_ids := [1], lost_ids := [], track1_state := ClassroomMonitor.TrackStateL.TRACKED, events := [] }, { frame := 3, active_ids := [1], lost_ids := [], track1_state := ClassroomMonitor.TrackStateL.TRACKED, events := [] }, { frame := 4, active_ids := [1], lost_ids := [], track1_state := ClassroomMonitor.TrackStateL.TRACKED, events := [] }]

/-- Checkpoint after frame 8 of the occlusion scenario. -/
def occState8 : PipelineStateL :=
  { is_running := true, session_id := some 1, session_metrics := some { session_id := 1, start_time := 0, frame_count := 8, current_student_count := 1, peak_student_count := 1, attention_timeline := [{ timestamp := 1, value := 0, student_count := 1 }, { timestamp := 2, value := 0, student_count := 1 }, { timestamp := 3, value := 0, student_count := 1 }, { timestamp := 4, value := 0, student_count := 1 }, { timestamp := 5, value := 0, student_count := 1 }, { timestamp := 6, value := 0, student_count := 1 }, { timestamp := 7, value := 0, student_count := 1 }, { timestamp := 8, value := 0, student_count := 1 }], track_metrics := [(1, { track_id := 1, student_id := none, student_name := none, first_seen := 1, last_seen := 8, attention_scores := [], posture_scores := [], phone_usage_count := 0, distraction_count := 0, looking_away_count := 0, last_attention_state := "unknown", last_posture_state := "unknown", phone_detected_frames := 0 })] }, tracker := { track_thresh := (1 : Rat)/2, track_buffer := 30, match_thresh := (4 : Rat)/5, min_box_area := 100, tracked_tracks := [1], lost_tracks := [], removed_tracks := [], store := [(1, { track_id := 1, bbox := { x1 := 0, y1 := 0, x2 := 10, y2 := 10 }, score := (9 : Rat)/10, class_id := 0, mean := [5, 5, 10, 10, 0, 0, 0, 0], covariance := [[(15842199843692793 : Rat)/91909336857623780, 0, 0, 0, (546560886450085 : Rat)/18381867371524756, 0, 0, 0], [0, (15842199843692793 : Rat)/91909336857623780, 0, 0, 0, (546560886450085 : Rat)/18381867371524756, 0, 0], [0, 0, (15842199843692793 : Rat)/91909336857623780, 0, 0, 0, (546560886450085 : Rat)/18381867371524756, 0], [0, 0, 0, (15842199843692793 : Rat)/91909336857623780, 0, 0, 0, (546560886450085 : Rat)/18381867371524756], [(546560886450085 : Rat)/18381867371524756, 0, 0, 0, (63560972416936037 : Rat)/1176439511777584384, 0, 0, 0], [0, (546560886450085 : Rat)/18381867371524756, 0, 0, 0, (63560972416936037 : Rat)/1176439511777584384, 0, 0], [0, 0, (546560886450085 : Rat)/18381867371524756, 0, 0, 0, (63560972416936037 : Rat)/1176439511777584384, 0], [0, 0, 0, (546560886450085 : Rat)/18381867371524756, 0, 0, 0, (63560972416936037 : Rat)/1176439511777584384]], state := ClassroomMonitor.TrackStateL.TRACKED, is_activated := true, frame_id := 8, start_frame := 1, tracklet_len := 7, student_id := none }), (2, { track_id := 2, bbox := { x1 := 0, y1 := 0, x2 := 10, y2 := 10 }, score := (9 : Rat)/10, class_id := 0, mean := [5, 5, 10, 10, 0, 0, 0, 0], covariance := [[1, 0, 0, 0, 0, 0, 0, 0], [0, 1, 0, 0, 0, 0, 0, 0], [0, 0, 1, 0, 0, 0, 0, 0], [0, 0, 0, 1, 0, 0, 0, 0], [0, 0, 0, 0, (25 : Rat)/64, 0, 0, 0], [0, 0, 0, 0, 0, (25 : Rat)/64, 0, 0], [0, 0, 0, 0, 0, 0, (25 : Rat)/64, 0], [0, 0, 0, 0, 0, 0, 0, (25 : Rat)/64]], state := ClassroomMonitor.TrackStateL.NEW, is_activated := false, frame_id := 0, start_frame := 0, tracklet_len := 0, student_id := none }), (3, { track_id := 3, bbox := { x1 := 0, y1 := 0, x2 := 10, y2 := 10 }, score := (9 : Rat)/10, class_id := 0, mean := [5, 5, 10, 10, 0, 0, 0, 0], covariance := [[1, 0, 0, 0, 0, 0, 0, 0], [0, 1, 0, 0, 0, 0, 0, 0], [0, 0, 1, 0, 0, 0, 0, 0], [0, 0, 0, 1, 0, 0, 0, 0], [0, 0, 0, 0, (25 : Rat)/64, 0, 0, 0], [0, 0, 0, 0, 0, (25 : Rat)/64, 0, 0], [0, 0, 0, 0, 0, 0, (25 : Rat)/64, 0], [0, 0, 0, 0, 0, 0, 0, (25 : Rat)/64]], state := ClassroomMonitor.TrackStateL.NEW, is_activated := false, frame_id := 0, start_frame := 0, tracklet_len := 0, student_id := none }), (4, { track_id := 4, bbox := { x1 := 0, y1 := 0, x2 := 10, y2 := 10 }, score := (9 : Rat)/10, class_id := 0, mean := [5, 5, 10, 10, 0, 0, 0, 0], covariance := [[1, 0, 0, 0, 0, 0, 0, 0], [0, 1, 0, 0, 0, 0, 0, 0], [0, 0, 1, 0, 0, 0, 0, 0], [0, 0, 0, 1, 0, 0, 0, 0], [0, 0, 0, 0, (25 : Rat)/64, 0, 0, 0], [0, 0, 0, 0, 0, (25 : Rat)/64, 0, 0], [0, 0, 0, 0, 0, 0, (25 : Rat)/64, 0], [0, 0, 0, 0, 0, 0, 0, (25 : Rat)/64]], state := ClassroomMonitor.TrackStateL.NEW, is_activated := false, frame_id := 0, start_frame := 0, tracklet_len := 0, student_id := none }), (5, { track_id := 5, bbox := { x1 := 0, y1 := 0, x2 := 10, y2 := 10 }, score := (9 : Rat)/10, class_id := 0, mean := [5, 5, 10, 10, 0, 0, 0, 0], covariance := [[1, 0, 0, 0, 0, 0, 0, 0], [0, 1, 0, 0, 0, 0, 0, 0], [0, 0, 1, 0, 0, 0, 0, 0], [0, 0, 0, 1, 0, 0, 0, 0], [0, 0, 0, 0, (25 : Rat)/64, 0, 0, 0], [0, 0, 0, 0, 0, (25 : Rat)/64, 0, 0], [0, 0, 0, 0, 0, 0, (25 : Rat)/64, 0], [0, 0, 0, 0, 0, 0, 0, (25 : Rat)/64]], state := ClassroomMonitor.TrackStateL.NEW, is_activated := false, frame_id := 0, start_frame := 0, tracklet_len := 0, student_id := none }), (6, { track_id := 6, bbox := { x1 := 0, y1 := 0, x2 := 10, y2 := 10 }, score := (9 : Rat)/10, class_id := 0, mean := [5, 5, 10, 10, 0, 0, 0, 0], covariance := [[1, 0, 0, 0, 0, 0, 0, 0], [0, 1, 0, 0, 0, 0, 0, 0], [0, 0, 1, 0, 0, 0, 0, 0], [0, 0, 0, 1, 0, 0, 0, 0], [0, 0, 0, 0, (25 : Rat)/64, 0, 0, 0], [0, 0, 0, 0, 0, (25 : Rat)/64, 0, 0], [0, 0, 0, 0, 0, 0, (25 : Rat)/64, 0], [0, 0, 0, 0, 0, 0, 0, (25 : Rat)/64]], state := ClassroomMonitor.TrackStateL.NEW, is_activated := false, frame_id := 0, start_frame := 0, tracklet_len := 0, student_id := none }), (7, { track_id := 7, bbox := { x1 := 0, y1 := 0, x2 := 10, y2 := 10 }, score := (9 : Rat)/10, class_id := 0, mean := [5, 5, 10, 10, 0, 0, 0, 0], covariance := [[1, 0, 0, 0, 0, 0, 0, 0], [0, 1, 0, 0, 0, 0, 0, 0], [0, 0, 1, 0, 0, 0, 0, 0], [0, 0, 0, 1, 0, 0, 0, 0], [0, 0, 0, 0, (25 : Rat)/64, 0, 0, 0], [0, 0, 0, 0, 0, (25 : Rat)/64, 0, 0], [0, 0, 0, 0, 0, 0, (25 : Rat)/64, 0], [0, 0, 0, 0, 0, 0, 0, (25 : Rat)/64]], state := ClassroomMonitor.TrackStateL.NEW, is_activated := false, frame_id := 0, start_frame := 0, tracklet_len := 0, student_id := none }), (8, { track_id := 8, bbox := { x1 := 0, y1 := 0, x2 := 10, y2 := 10 }, score := (9 : Rat)/10, class_id := 0, mean := [5, 5, 10, 10, 0, 0, 0, 0], covariance := [[1, 0, 0, 0, 0, 0, 0, 0], [0, 1, 0, 0, 0, 0, 0, 0], [0, 0, 1, 0, 0, 0, 0, 0], [0, 0, 0, 1, 0, 0, 0, 0], [0, 0, 0, 0, (25 : Rat)/64, 0, 0, 0], [0, 0, 0, 0, 0, (25 : Rat)/64, 0, 0], [0, 0, 0, 0, 0, 0, (25 : Rat)/64, 0], [0, 0, 0, 0, 0, 0, 0, (25 : Rat)/64]], state := ClassroomMonitor.TrackStateL.NEW, is_activated := false, frame_id := 0, start_frame := 0, tracklet_len := 0, student_id := none })], frame_id := 8, next_id := 8 }, last_frame_time := 8, frame_times := [1, 1, 1, 1, 1, 1, 1, 1], recognition_cooldown := [(1, 6)], recognition_interval := 2, attention_high_threshold := (7 : Rat)/10, attention_low_threshold := (2 : Rat)/5, phone_detection_frames := 3, posture_poor_threshold := (1 : Rat)/2 }

/-- Observations of occlusion-scenario frames 5-8. -/
def occObs2 : List OcclusionObs :=
  [{ frame := 5, active_ids := [1], lost_ids := [], track1_state := ClassroomMonitor.TrackStateL.TRACKED, events := [] }, { frame := 6, active_ids := [1], lost_ids := [], track1_state := ClassroomMonitor.TrackStateL.TRACKED, events := [] }, { frame := 7, active_ids := [1], lost_ids := [], track1_state := ClassroomMonitor.TrackStateL.TRACKED, events := [] }, { frame := 8, active_ids := [1], lost_ids := [], track1_state := ClassroomMonitor.TrackStateL.TRACKED, events := [] }]

/-- Checkpoint after frame 12 of the occlusion scenario. -/
def occState12 : PipelineStateL :=
  { is_running := true, session_id := some 1, session_metrics := some { session_id := 1, start_time := 0, frame_count := 12, current_student_count := 0, peak_student_count := 1, attention_timeline := [{ timestamp := 1, value := 0, student_count := 1 }, { timestamp := 2, value := 0, student_count := 1 }, { timestamp := 3, value := 0, student_count := 1 }, { timestamp := 4, value := 0, student_count := 1 }, { timestamp := 5, value := 0, student_count := 1 }, { timestamp := 6, value := 0, student_count := 1 }, { timestamp := 7, value := 0, student_count := 1 }, { timestamp := 8, value := 0, student_count := 1 }, { timestamp := 9, value := 0, student_count := 1 }, { timestamp := 10, value := 0, student_count := 1 }], track_metrics := [(1, { track_id := 1, student_id := none, student_name := none, first_seen := 1, last_seen := 10, attention_scores := [], posture_scores := [], phone_usage_count := 0, distraction_count := 0, looking_away_count := 0, last_attention_state := "unknown", last_posture_state := "unknown", phone_detected_frames := 0 })] }, tracker := { track_thresh := (1 : Rat)/2, track_buffer := 30, match_thresh := (4 : Rat)/5, min_box_area := 100, tracked_tracks := [], lost_tracks := [1], removed_tracks := [], store := [(1, { track_id := 1, bbox := { x1 := 0, y1 := 0, x2 := 10, y2 := 10 }, score := (9 : Rat)/10, class_id := 0, mean := [5, 5, 10, 10, 0, 0, 0, 0], covariance := [[(223094059276084472422109 : Rat)/234108074780735766214912, 0, 0, 0, (27951114259481079954795 : Rat)/234108074780735766214912, 0, 0, 0], [0, (223094059276084472422109 : Rat)/234108074780735766214912, 0, 0, 0, (27951114259481079954795 : Rat)/234108074780735766214912, 0, 0], [0, 0, (223094059276084472422109 : Rat)/234108074780735766214912, 0, 0, 0, (27951114259481079954795 : Rat)/234108074780735766214912, 0], [0, 0, 0, (223094059276084472422109 : Rat)/234108074780735766214912, 0, 0, 0, (27951114259481079954795 : Rat)/234108074780735766214912], [(27951114259481079954795 : Rat)/234108074780735766214912, 0, 0, 0, (12482423415312722252907 : Rat)/234108074780735766214912, 0, 0, 0], [0, (27951114259481079954795 : Rat)/234108074780735766214912, 0, 0, 0, (12482423415312722252907 : Rat)/234108074780735766214912, 0, 0], [0, 0, (27951114259481079954795 : Rat)/234108074780735766214912, 0, 0, 0, (12482423415312722252907 : Rat)/234108074780735766214912, 0], [0, 0, 0, (27951114259481079954795 : Rat)/234108074780735766214912, 0, 0, 0, (12482423415312722252907 : Rat)/234108074780735766214912]], state := ClassroomMonitor.TrackStateL.LOST, is_activated := true, frame_id := 10, start_frame := 1, tracklet_len := 9, student_id := none }), (2, { track_id := 2, bbox := { x1 := 0, y1 := 0, x2 := 10, y2 := 10 }, score := (9 : Rat)/10, class_id := 0, mean := [5, 5, 10, 10, 0, 0, 0, 0], covariance := [[1, 0, 0, 0, 0, 0, 0, 0], [0, 1, 0, 0, 0, 0, 0, 0], [0, 0, 1, 0, 0, 0, 0, 0], [0, 0, 0, 1, 0, 0, 0, 0], [0, 0, 0, 0, (25 : Rat)/64, 0, 0, 0], [0, 0, 0, 0, 0, (25 : Rat)/64, 0, 0], [0, 0, 0, 0, 0, 0, (25 : Rat)/64, 0], [0, 0, 0, 0, 0, 0, 0, (25 : Rat)/64]], state := ClassroomMonitor.TrackStateL.NEW, is_activated := false, frame_id := 0, start_frame := 0, tracklet_len := 0, student_id := none }), (3, { track_id := 3, bbox := { x1 := 0, y1 := 0, x2 := 10, y2 := 10 }, score := (9 : Rat)/10, class_id := 0, mean := [5, 5, 10, 10, 0, 0, 0, 0], covariance := [[1, 0, 0, 0, 0, 0, 0, 0], [0, 1, 0, 0, 0, 0, 0, 0], [0, 0, 1, 0, 0, 0, 0, 0], [0, 0, 0, 1, 0, 0, 0, 0], [0, 0, 0, 0, (25 : Rat)/64, 0, 0, 0], [0, 0, 0, 0, 0, (25 : Rat)/64, 0, 0], [0, 0, 0, 0, 0, 0, (25 : Rat)/64, 0], [0, 0, 0, 0, 0, 0, 0, (25 : Rat)/64]], state := ClassroomMonitor.TrackStateL.NEW, is_activated := false, frame_id := 0, start_frame := 0, tracklet_len := 0, student_id := none }), (4, { track_id := 4, bbox := { x1 := 0, y1 := 0, x2 := 10, y2 := 10 }, score := (9 : Rat)/10, class_id := 0, mean := [5, 5, 10, 10, 0, 0, 0, 0], covariance := [[1, 0, 0, 0, 0, 0, 0, 0], [0, 1, 0, 0, 0, 0, 0, 0], [0, 0, 1, 0, 0, 0, 0, 0], [0, 0, 0, 1, 0, 0, 0, 0], [0, 0, 0, 0, (25 : Rat)/64, 0, 0, 0], [0, 0, 0, 0, 0, (25 : Rat)/64, 0, 0], [0, 0, 0, 0, 0, 0, (25 : Rat)/64, 0], [0, 0, 0, 0, 0, 0, 0, (25 : Rat)/64]], state := ClassroomMonitor.TrackStateL.NEW, is_activated := false, frame_id := 0, start_frame := 0, tracklet_len := 0, student_id := none }), (5, { track_id := 5, bbox := { x1 := 0, y1 := 0, x2 := 10, y2 := 10 }, score := (9 : Rat)/10, class_id := 0, mean := [5, 5, 10, 10, 0, 0, 0, 0], covariance := [[1, 0, 0, 0, 0, 0, 0, 0], [0, 1, 0, 0, 0, 0, 0, 0], [0, 0, 1, 0, 0, 0, 0, 0], [0, 0, 0, 1, 0, 0, 0, 0], [0, 0, 0, 0, (25 : Rat)/64, 0, 0, 0], [0, 0, 0, 0, 0, (25 : Rat)/64, 0, 0], [0, 0, 0, 0, 0, 0, (25 : Rat)/64, 0], [0, 0, 0, 0, 0, 0, 0, (25 : Rat)/64]], state := ClassroomMonitor.TrackStateL.NEW, is_activated := false, frame_id := 0, start_frame := 0, tracklet_len := 0, student_id := none }), (6, { track_id := 6, bbox := { x1 := 0, y1 := 0, x2 := 10, y2 := 10 }, score := (9 : Rat)/10, class_id := 0, mean := [5, 5, 10, 10, 0, 0, 0, 0], covariance := [[1, 0, 0, 0, 0, 0, 0, 0], [0, 1, 0, 0, 0, 0, 0, 0], [0, 0, 1, 0, 0, 0, 0, 0], [0, 0, 0, 1, 0, 0, 0, 0], [0, 0, 0, 0, (25 : Rat)/64, 0, 0, 0], [0, 0, 0, 0, 0, (25 : Rat)/64, 0, 0], [0, 0, 0, 0, 0, 0, (25 : Rat)/64, 0], [0, 0, 0, 0, 0, 0, 0, (25 : Rat)/64]], state := ClassroomMonitor.TrackStateL.NEW, is_activated := false, frame_id := 0, start_frame := 0, tracklet_len := 0, student_id := none }), (7, { track_id := 7, bbox := { x1 := 0, y1 := 0, x2 := 10, y2 := 10 }, score := (9 : Rat)/10, class_id := 0, mean := [5, 5, 10, 10, 0, 0, 0, 0], covariance := [[1, 0, 0, 0, 0, 0, 0, 0], [0, 1, 0, 0, 0, 0, 0, 0], [0, 0, 1, 0, 0, 0, 0, 0], [0, 0, 0, 1, 0, 0, 0, 0], [0, 0, 0, 0, (25 : Rat)/64, 0, 0, 0], [0, 0, 0, 0, 0, (25 : Rat)/64, 0, 0], [0, 0, 0, 0, 0, 0, (25 : Rat)/64, 0], [0, 0, 0, 0, 0, 0, 0, (25 : Rat)/64]], state := ClassroomMonitor.TrackStateL.NEW, is_activated := false, frame_id := 0, start_frame := 0, tracklet_len := 0, student_id := none }), (8, { track_id := 8, bbox := { x1 := 0, y1 := 0, x2 := 10, y2 := 10 }, score := (9 : Rat)/10, class_id := 0, mean := [5, 5, 10, 10, 0, 0, 0, 0], covariance := [[1, 0, 0, 0, 0, 0, 0, 0], [0, 1, 0, 0, 0, 0, 0, 0], [0, 0, 1, 0, 0, 0, 0, 0], [0, 0, 0, 1, 0, 0, 0, 0], [0, 0, 0, 0, (25 : Rat)/64, 0, 0, 0], [0, 0, 0, 0, 0, (25 : Rat)/64, 0, 0], [0, 0, 0, 0, 0, 0, (25 : Rat)/64, 0], [0, 0, 0, 0, 0, 0, 0, (25 : Rat)/64]], state := ClassroomMonitor.TrackStateL.NEW, is_activated := false, frame_id := 0, start_frame := 0, tracklet_len := 0, student_id := none }), (9, { track_id := 9, bbox := { x1 := 0, y1 := 0, x2 := 10, y2 := 10 }, score := (9 : Rat)/10, class_id := 0, mean := [5, 5, 10, 10, 0, 0, 0, 0], covariance := [[1, 0, 0, 0, 0, 0, 0, 0], [0, 1, 0, 0, 0, 0, 0, 0], [0, 0, 1, 0, 0, 0, 0, 0], [0, 0, 0, 1, 0, 0, 0, 0], [0, 0, 0, 0, (25 : Rat)/64, 0, 0, 0], [0, 0, 0, 0, 0, (25 : Rat)/64, 0, 0], [0, 0, 0, 0, 0, 0, (25 : Rat)/64, 0], [0, 0, 0, 0, 0, 0, 0, (25 : Rat)/64]], state := ClassroomMonitor.TrackStateL.NEW, is_activated := false, frame_id := 0, start_frame := 0, tracklet_len := 0, student_id := none }), (10, { track_id := 10, bbox := { x1 := 0, y1 := 0, x2 := 10, y2 := 10 }, score := (9 : Rat)/10, class_id := 0, mean := [5, 5, 10, 10, 0, 0, 0, 0], covariance := [[1, 0, 0, 0, 0, 0, 0, 0], [0, 1, 0, 0, 0, 0, 0, 0], [0, 0, 1, 0, 0, 0, 0, 0], [0, 0, 0, 1, 0, 0, 0, 0], [0, 0, 0, 0, (25 : Rat)/64, 0, 0, 0], [0, 0, 0, 0, 0, (25 : Rat)/64, 0, 0], [0, 0, 0, 0, 0, 0, (25 : Rat)/64, 0], [0, 0, 0, 0, 0, 0, 0, (25 : Rat)/64]], state := ClassroomMonitor.TrackStateL.NEW, is_activated := false, frame_id := 0, start_frame := 0, tracklet_len := 0, student_id := none })], frame_id := 12, next_id := 10 }, last_frame_time := 12, frame_times := [1, 1, 1, 1, 1, 1, 1, 1, 1, 1, 1, 1], recognition_cooldown := [(1, 9)], recognition_interval := 2, attention_high_threshold := (7 : Rat)/10, attention_low_threshold := (2 : Rat)/5, phone_detection_frames := 3, posture_poor_threshold := (1 : Rat)/2 }

/-- Observations of occlusion-scenario frames 9-12. -/
def occObs3 : List OcclusionObs :=
  [{ frame := 9, active_ids := [1], lost_ids := [], track1_state := ClassroomMonitor.TrackStateL.TRACKED, events := [] }, { frame := 10, active_ids := [1], lost_ids := [], track1_state := ClassroomMonitor.TrackStateL.TRACKED, events := [] }, { frame := 11, active_ids := [], lost_ids := [1], track1_state := ClassroomMonitor.TrackStateL.LOST, events := [] }, { frame := 12, active_ids := [], lost_ids := [1], track1_state := ClassroomMonitor.TrackStateL.LOST, events := [] }]

/-- Checkpoint after frame 16 of the occlusion scenario. -/
def occState16 : PipelineStateL :=
  { is_running := true, session_id := some 1, session_metrics := some { session_id := 1, start_time := 0, frame_count := 16, current_student_count := 0, peak_student_count := 1, attention_timeline := [{ timestamp := 1, value := 0, student_count := 1 }, { timestamp := 2, value := 0, student_count := 1 }, { timestamp := 3, value := 0, student_count := 1 }, { timestamp := 4, value := 0, student_count := 1 }, { timestamp := 5, value := 0, student_count := 1 }, { timestamp := 6, value := 0, student_count := 1 }, { timestamp := 7, value := 0, student_count := 1 }, { timestamp := 8, value := 0, student_count := 1 }, { timestamp := 9, value := 0, student_count := 1 }, { timestamp := 10, value := 0, student_count := 1 }], track_metrics := [(1, { track_id := 1, student_id := none, student_name := none, first_seen := 1, last_seen := 10, attention_scores := [], posture_scores := [], phone_usage_count := 0, distraction_count := 0, looking_away_count := 0, last_attention_state := "unknown", last_posture_state := "unknown", phone_detected_frames := 0 })] }, tracker := { track_thresh := (1 : Rat)/2, track_buffer := 30, match_thresh := (4 : Rat)/5, min_box_area := 100, tracked_tracks := [], lost_tracks := [], removed_tracks := [], store := [(1, { track_id := 1, bbox := { x1 := 0, y1 := 0, x2 := 10, y2 := 10 }, score := (9 : Rat)/10, class_id := 0, mean := [5, 5, 10, 10, 0, 0, 0, 0], covariance := [[1, 0, 0, 0, 0, 0, 0, 0], [0, 1, 0, 0, 0, 0, 0, 0], [0, 0, 1, 0, 0, 0, 0, 0], [0, 0, 0, 1, 0, 0, 0, 0], [0, 0, 0, 0, (25 : Rat)/64, 0, 0, 0], [0, 0, 0, 0, 0, (25 : Rat)/64, 0, 0], [0, 0, 0, 0, 0, 0, (25 : Rat)/64, 0], [0, 0, 0, 0, 0, 0, 0, (25 : Rat)/64]], state := ClassroomMonitor.TrackStateL.TRACKED, is_activated := true, frame_id := 16, start_frame := 1, tracklet_len := 0, student_id := none }), (2, { track_id := 2, bbox := { x1 := 0, y1 := 0, x2 := 10, y2 := 10 }, score := (9 : Rat)/10, class_id := 0, mean := [5, 5, 10, 10, 0, 0, 0, 0], covariance := [[1, 0, 0, 0, 0, 0, 0, 0], [0, 1, 0, 0, 0, 0, 0, 0], [0, 0, 1, 0, 0, 0, 0, 0], [0, 0, 0, 1, 0, 0, 0, 0], [0, 0, 0, 0, (25 : Rat)/64, 0, 0, 0], [0, 0, 0, 0, 0, (25 : Rat)/64, 0, 0], [0, 0, 0, 0, 0, 0, (25 : Rat)/64, 0], [0, 0, 0, 0, 0, 0, 0, (25 : Rat)/64]], state := ClassroomMonitor.TrackStateL.NEW, is_activated := false, frame_id := 0, start_frame := 0, tracklet_len := 0, student_id := none }), (3, { track_id := 3, bbox := { x1 := 0, y1 := 0, x2 := 10, y2 := 10 }, score := (9 : Rat)/10, class_id := 0, mean := [5, 5, 10, 10, 0, 0, 0, 0], covariance := [[1, 0, 0, 0, 0, 0, 0, 0], [0, 1, 0, 0, 0, 0, 0, 0], [0, 0, 1, 0, 0, 0, 0, 0], [0, 0, 0, 1, 0, 0, 0, 0], [0, 0, 0, 0, (25 : Rat)/64, 0, 0, 0], [0, 0, 0, 0, 0, (25 : Rat)/64, 0, 0], [0, 0, 0, 0, 0, 0, (25 : Rat)/64, 0], [0, 0, 0, 0, 0, 0, 0, (25 : Rat)/64]], state := ClassroomMonitor.TrackStateL.NEW, is_activated := false, frame_id := 0, start_frame := 0, tracklet_len := 0, student_id := none }), (4, { track_id := 4, bbox := { x1 := 0, y1 := 0, x2 := 10, y2 := 10 }, score := (9 : Rat)/10, class_id := 0, mean := [5, 5, 10, 10, 0, 0, 0, 0], covariance := [[1, 0, 0, 0, 0, 0, 0, 0], [0, 1, 0, 0, 0, 0, 0, 0], [0, 0, 1, 0, 0, 0, 0, 0], [0, 0, 0, 1, 0, 0, 0, 0], [0, 0, 0, 0, (25 : Rat)/64, 0, 0, 0], [0, 0, 0, 0, 0, (25 : Rat)/64, 0, 0], [0, 0, 0, 0, 0, 0, (25 : Rat)/64, 0], [0, 0, 0, 0, 0, 0, 0, (25 : Rat)/64]], state := ClassroomMonitor.TrackStateL.NEW, is_activated := false, frame_id := 0, start_frame := 0, tracklet_len := 0, student_id := none }), (5, { track_id := 5, bbox := { x1 := 0, y1 := 0, x2 := 10, y2 := 10 }, score := (9 : Rat)/10, class_id := 0, mean := [5, 5, 10, 10, 0, 0, 0, 0], covariance := [[1, 0, 0, 0, 0, 0, 0, 0], [0, 1, 0, 0, 0, 0, 0, 0], [0, 0, 1, 0, 0, 0, 0, 0], [0, 0, 0, 1, 0, 0, 0, 0], [0, 0, 0, 0, (25 : Rat)/64, 0, 0, 0], [0, 0, 0, 0, 0, (25 : Rat)/64, 0, 0], [0, 0, 0, 0, 0, 0, (25 : Rat)/64, 0], [0, 0, 0, 0, 0, 0, 0, (25 : Rat)/64]], state := ClassroomMonitor.TrackStateL.NEW, is_activated := false, frame_id := 0, start_frame := 0, tracklet_len := 0, student_id := none }), (6, { track_id := 6, bbox := { x1 := 0, y1 := 0, x2 := 10, y2 := 10 }, score := (9 : Rat)/10, class_id := 0, mean := [5, 5, 10, 10, 0, 0, 0, 0], covariance := [[1, 0, 0, 0, 0, 0, 0, 0], [0, 1, 0, 0, 0, 0, 0, 0], [0, 0, 1, 0, 0, 0, 0, 0], [0, 0, 0, 1, 0, 0, 0, 0], [0, 0, 0, 0, (25 : Rat)/64, 0, 0, 0], [0, 0, 0, 0, 0, (25 : Rat)/64, 0, 0], [0, 0, 0, 0, 0, 0, (25 : Rat)/64, 0], [0, 0, 0, 0, 0, 0, 0, (25 : Rat)/64]], state := ClassroomMonitor.TrackStateL.NEW, is_activated := false, frame_id := 0, start_frame := 0, tracklet_len := 0, student_id := none }), (7, { track_id := 7, bbox := { x1 := 0, y1 := 0, x2 := 10, y2 := 10 }, score := (9 : Rat)/10, class_id := 0, mean := [5, 5, 10, 10, 0, 0, 0, 0], covariance := [[1, 0, 0, 0, 0, 0, 0, 0], [0, 1, 0, 0, 0, 0, 0, 0], [0, 0, 1, 0, 0, 0, 0, 0], [0, 0, 0, 1, 0, 0, 0, 0], [0, 0, 0, 0, (25 : Rat)/64, 0, 0, 0], [0, 0, 0, 0, 0, (25 : Rat)/64, 0, 0], [0, 0, 0, 0, 0, 0, (25 : Rat)/64, 0], [0, 0, 0, 0, 0, 0, 0, (25 : Rat)/64]], state := ClassroomMonitor.TrackStateL.NEW, is_activated := false, frame_id := 0, start_frame := 0, tracklet_len := 0, student_id := none }), (8, { track_id := 8, bbox := { x1 := 0, y1 := 0, x2 := 10, y2 := 10 }, score := (9 : Rat)/10, class_id := 0, mean := [5, 5, 10, 10, 0, 0, 0, 0], covariance := [[1, 0, 0, 0, 0, 0, 0, 0], [0, 1, 0, 0, 0, 0, 0, 0], [0, 0, 1, 0, 0, 0, 0, 0], [0, 0, 0, 1, 0, 0, 0, 0], [0, 0, 0, 0, (25 : Rat)/64, 0, 0, 0], [0, 0, 0, 0, 0, (25 : Rat)/64, 0, 0], [0, 0, 0, 0, 0, 0, (25 : Rat)/64, 0], [0, 0, 0, 0, 0, 0, 0, (25 : Rat)/64]], state := ClassroomMonitor.TrackStateL.NEW, is_activated := false, frame_id := 0, start_frame := 0, tracklet_len := 0, student_id := none }), (9, { track_id := 9, bbox := { x1 := 0, y1 := 0, x2 := 10, y2 := 10 }, score := (9 : Rat)/10, class_id := 0, mean := [5, 5, 10, 10, 0, 0, 0, 0], covariance := [[1, 0, 0, 0, 0, 0, 0, 0], [0, 1, 0, 0, 0, 0, 0, 0], [0, 0, 1, 0, 0, 0, 0, 0], [0, 0, 0, 1, 0, 0, 0, 0], [0, 0, 0, 0, (25 : Rat)/64, 0, 0, 0], [0, 0, 0, 0, 0, (25 : Rat)/64, 0, 0], [0, 0, 0, 0, 0, 0, (25 : Rat)/64, 0], [0, 0, 0, 0, 0, 0, 0, (25 : Rat)/64]], state := ClassroomMonitor.TrackStateL.NEW, is_activated := false, frame_id := 0, start_frame := 0, tracklet_len := 0, student_id := none }), (10, { track_id := 10, bbox := { x1 := 0, y1 := 0, x2 := 10, y2 := 10 }, score := (9 : Rat)/10, class_id := 0, mean := [5, 5, 10, 10, 0, 0, 0, 0], covariance := [[1, 0, 0, 0, 0, 0, 0, 0], [0, 1, 0, 0, 0, 0, 0, 0], [0, 0, 1, 0, 0, 0, 0, 0], [0, 0, 0, 1, 0, 0, 0, 0], [0, 0, 0, 0, (25 : Rat)/64, 0, 0, 0], [0, 0, 0, 0, 0, (25 : Rat)/64, 0, 0], [0, 0, 0, 0, 0, 0, (25 : Rat)/64, 0], [0, 0, 0, 0, 0, 0, 0, (25 : Rat)/64]], state := ClassroomMonitor.TrackStateL.NEW, is_activated := false, frame_id := 0, start_frame := 0, tracklet_len := 0, student_id := none }), (11, { track_id := 11, bbox := { x1 := 0, y1 := 0, x2 := 10, y2 := 10 }, score := (9 : Rat)/10, class_id := 0, mean := [5, 5, 10, 10, 0, 0, 0, 0], covariance := [[1, 0, 0, 0, 0, 0, 0, 0], [0, 1, 0, 0, 0, 0, 0, 0], [0, 0, 1, 0, 0, 0, 0, 0], [0, 0, 0, 1, 0, 0, 0, 0], [0, 0, 0, 0, (25 : Rat)/64, 0, 0, 0], [0, 0, 0, 0, 0, (25 : Rat)/64, 0, 0], [0, 0, 0, 0, 0, 0, (25 : Rat)/64, 0], [0, 0, 0, 0, 0, 0, 0, (25 : Rat)/64]], state := ClassroomMonitor.TrackStateL.NEW, is_activated := false, frame_id := 0, start_frame := 0, tracklet_len := 0, student_id := none })], frame_id := 16, next_id := 11 }, last_frame_time := 16, frame_times := [1, 1, 1, 1, 1, 1, 1, 1, 1, 1, 1, 1, 1, 1, 1, 1], recognition_cooldown := [(1, 9)], recognition_interval := 2, attention_high_threshold := (7 : Rat)/10, attention_low_threshold := (2 : Rat)/5, phone_detection_frames := 3, posture_poor_threshold := (1 : Rat)/2 }

/-- Observations of occlusion-scenario frames 13-16. -/
def occObs4 : List OcclusionObs :=
  [{ frame := 13, active_ids := [], lost_ids := [1], track1_state := ClassroomMonitor.TrackStateL.LOST, events := [] }, { frame := 14, active_ids := [], lost_ids := [1], track1_state := ClassroomMonitor.TrackStateL.LOST, events := [] }, { frame := 15, active_ids := [], lost_ids := [1], track1_state := ClassroomMonitor.TrackStateL.LOST, events := [] }, { frame := 16, active_ids := [], lost_ids := [], track1_state := ClassroomMonitor.TrackStateL.TRACKED, events := [] }]

/-- Observations of occlusion-scenario frames 17-20. -/
def occObs5 : List OcclusionObs :=
  [{ frame := 17, active_ids := [12], lost_ids := [], track1_state := ClassroomMonitor.TrackStateL.TRACKED, events := [{ eventType := "student_entered", trackId := 12, studentId := none, confidence := (9 : Rat)/10, timestamp := 17 }] }, { frame := 18, active_ids := [12], lost_ids := [], track1_state := ClassroomMonitor.TrackStateL.TRACKED, events := [] }, { frame := 19, active_ids := [12], lost_ids := [], track1_state := ClassroomMonitor.TrackStateL.TRACKED, events := [] }, { frame := 20, active_ids := [12], lost_ids := [], track1_state := ClassroomMonitor.TrackStateL.TRACKED, events := [] }]

/-- Checkpoint after frame 4 of the phone scenario. -/
def phState4 : PipelineStateL :=
  { is_running := true, session_id := some 2, session_metrics := some { session_id := 2, start_time := 0, frame_count := 4, current_student_count := 1, peak_student_count := 1, attention_timeline := [{ timestamp := 1, value := 0, student_count := 1 }, { timestamp := 2, value := 0, student_count := 1 }, { timestamp := 3, value := 0, student_count := 1 }, { timestamp := 4, value := 0, student_count := 1 }], track_metrics := [(1, { track_id := 1, student_id := none, student_name := none, first_seen := 1, last_seen := 4, attention_scores := [], posture_scores := [], phone_usage_count := 0, distraction_count := 0, looking_away_count := 0, last_attention_state := "unknown", last_posture_state := "unknown", phone_detected_frames := 0 })] }, tracker := { track_thresh := (1 : Rat)/2, track_buffer := 30, match_thresh := (4 : Rat)/5, min_box_area := 100, tracked_tracks := [1], lost_tracks := [], removed_tracks := [], store := [(1, { track_id := 1, bbox := { x1 := 0, y1 := 0, x2 := 10, y2 := 10 }, score := (9 : Rat)/10, class_id := 0, mean := [5, 5, 10, 10, 0, 0, 0, 0], covariance := [[(7248121 : Rat)/37985508, 0, 0, 0, (2522681 : Rat)/37985508, 0, 0, 0], [0, (7248121 : Rat)/37985508, 0, 0, 0, (2522681 : Rat)/37985508, 0, 0], [0, 0, (7248121 : Rat)/37985508, 0, 0, 0, (2522681 : Rat)/37985508, 0], [0, 0, 0, (7248121 : Rat)/37985508, 0, 0, 0, (2522681 : Rat)/37985508], [(2522681 : Rat)/37985508, 0, 0, 0, (314425849 : Rat)/2431072512, 0, 0, 0], [0, (2522681 : Rat)/37985508, 0, 0, 0, (314425849 : Rat)/2431072512, 0, 0], [0, 0, (2522681 : Rat)/37985508, 0, 0, 0, (314425849 : Rat)/2431072512, 0], [0, 0, 0, (2522681 : Rat)/37985508, 0, 0, 0, (314425849 : Rat)/2431072512]], state := ClassroomMonitor.TrackStateL.TRACKED, is_activated := true, frame_id := 4, start_frame := 1, tracklet_len := 3, student_id := none }), (2, { track_id := 2, bbox := { x1 := 0, y1 := 0, x2 := 10, y2 := 10 }, score := (9 : Rat)/10, class_id := 0, mean := [5, 5, 10, 10, 0, 0, 0, 0], covariance := [[1, 0, 0, 0, 0, 0, 0, 0], [0, 1, 0, 0, 0, 0, 0, 0], [0, 0, 1, 0, 0, 0, 0, 0], [0, 0, 0, 1, 0, 0, 0, 0], [0, 0, 0, 0, (25 : Rat)/64, 0, 0, 0], [0, 0, 0, 0, 0, (25 : Rat)/64, 0, 0], [0, 0, 0, 0, 0, 0, (25 : Rat)/64, 0], [0, 0, 0, 0, 0, 0, 0, (25 : Rat)/64]], state := ClassroomMonitor.TrackStateL.NEW, is_activated := false, frame_id := 0, start_frame := 0, tracklet_len := 0, student_id := none }), (3, { track_id := 3, bbox := { x1 := 0, y1 := 0, x2 := 10, y2 := 10 }, score := (9 : Rat)/10, class_id := 0, mean := [5, 5, 10, 10, 0, 0, 0, 0], covariance := [[1, 0, 0, 0, 0, 0, 0, 0], [0, 1, 0, 0, 0, 0, 0, 0], [0, 0, 1, 0, 0, 0, 0, 0], [0, 0, 0, 1, 0, 0, 0, 0], [0, 0, 0, 0, (25 : Rat)/64, 0, 0, 0], [0, 0, 0, 0, 0, (25 : Rat)/64, 0, 0], [0, 0, 0, 0, 0, 0, (25 : Rat)/64, 0], [0, 0, 0, 0, 0, 0, 0, (25 : Rat)/64]], state := ClassroomMonitor.TrackStateL.NEW, is_activated := false, frame_id := 0, start_frame := 0, tracklet_len := 0, student_id := none }), (4, { track_id := 4, bbox := { x1 := 0, y1 := 0, x2 := 10, y2 := 10 }, score := (9 : Rat)/10, class_id := 0, mean := [5, 5, 10, 10, 0, 0, 0, 0], covariance := [[1, 0, 0, 0, 0, 0, 0, 0], [0, 1, 0, 0, 0, 0, 0, 0], [0, 0, 1, 0, 0, 0, 0, 0], [0, 0, 0, 1, 0, 0, 0, 0], [0, 0, 0, 0, (25 : Rat)/64, 0, 0, 0], [0, 0, 0, 0, 0, (25 : Rat)/64, 0, 0], [0, 0, 0, 0, 0, 0, (25 : Rat)/64, 0], [0, 0, 0, 0, 0, 0, 0, (25 : Rat)/64]], state := ClassroomMonitor.TrackStateL.NEW, is_activated := false, frame_id := 0, start_frame := 0, tracklet_len := 0, student_id := none })], frame_id := 4, next_id := 4 }, last_frame_time := 4, frame_times := [1, 1, 1, 1], recognition_cooldown := [(1, 3)], recognition_interval := 2, attention_high_threshold := (7 : Rat)/10, attention_low_threshold := (2 : Rat)/5, phone_detection_frames := 3, posture_poor_threshold := (1 : Rat)/2 }

/-- Frames among 1-4 of the phone scenario with a phone_detected event. -/
def phObs1 : List ℕ :=
  []

/-- Checkpoint after frame 8 of the phone scenario. -/
def phState8 : PipelineStateL :=
  { is_running := true, session_id := some 2, session_metrics := some { session_id := 2, start_time := 0, frame_count := 8, current_student_count := 1, peak_student_count := 1, attention_timeline := [{ timestamp := 1, value := 0, student_count := 1 }, { timestamp := 2, value := 0, student_count := 1 }, { timestamp := 3, value := 0, student_count := 1 }, { timestamp := 4, value := 0, student_count := 1 }, { timestamp := 5, value := 0, student_count := 1 }, { timestamp := 6, value := 0, student_count := 1 }, { timestamp := 7, value := 0, student_count := 1 }, { timestamp := 8, value := 0, student_count := 1 }], track_metrics := [(1, { track_id := 1, student_id := none, student_name := none, first_seen := 1, last_seen := 8, attention_scores := [], posture_scores := [], phone_usage_count := 1, distraction_count := 0, looking_away_count := 0, last_attention_state := "unknown", last_posture_state := "unknown", phone_detected_frames := 4 })] }, tracker := { track_thresh := (1 : Rat)/2, track_buffer := 30, match_thresh := (4 : Rat)/5, min_box_area := 100, tracked_tracks := [1], lost_tracks := [], removed_tracks := [], store := [(1, { track_id := 1, bbox := { x1 := 0, y1 := 0, x2 := 10, y2 := 10 }, score := (9 : Rat)/10, class_id := 0, mean := [5, 5, 10, 10, 0, 0, 0, 0], covariance := [[(15842199843692793 : Rat)/91909336857623780, 0, 0, 0, (546560886450085 : Rat)/18381867371524756, 0, 0, 0], [0, (15842199843692793 : Rat)/91909336857623780, 0, 0, 0, (546560886450085 : Rat)/18381867371524756, 0, 0], [0, 0, (15842199843692793 : Rat)/91909336857623780, 0, 0, 0, (546560886450085 : Rat)/18381867371524756, 0], [0, 0, 0, (15842199843692793 : Rat)/91909336857623780, 0, 0, 0, (546560886450085 : Rat)/18381867371524756], [(546560886450085 : Rat)/18381867371524756, 0, 0, 0, (63560972416936037 : Rat)/1176439511777584384, 0, 0, 0], [0, (546560886450085 : Rat)/18381867371524756, 0, 0, 0, (63560972416936037 : Rat)/1176439511777584384, 0, 0], [0, 0, (546560886450085 : Rat)/18381867371524756, 0, 0, 0, (63560972416936037 : Rat)/1176439511777584384, 0], [0, 0, 0, (546560886450085 : Rat)/18381867371524756, 0, 0, 0, (63560972416936037 : Rat)/1176439511777584384]], state := ClassroomMonitor.TrackStateL.TRACKED, is_activated := true, frame_id := 8, start_frame := 1, tracklet_len := 7, student_id := none }), (2, { track_id := 2, bbox := { x1 := 0, y1 := 0, x2 := 10, y2 := 10 }, score := (9 : Rat)/10, class_id := 0, mean := [5, 5, 10, 10, 0, 0, 0, 0], covariance := [[1, 0, 0, 0, 0, 0, 0, 0], [0, 1, 0, 0, 0, 0, 0, 0], [0, 0, 1, 0, 0, 0, 0, 0], [0, 0, 0, 1, 0, 0, 0, 0], [0, 0, 0, 0, (25 : Rat)/64, 0, 0, 0], [0, 0, 0, 0, 0, (25 : Rat)/64, 0, 0], [0, 0, 0, 0, 0, 0, (25 : Rat)/64, 0], [0, 0, 0, 0, 0, 0, 0, (25 : Rat)/64]], state := ClassroomMonitor.TrackStateL.NEW, is_activated := false, frame_id := 0, start_frame := 0, tracklet_len := 0, student_id := none }), (3, { track_id := 3, bbox := { x1 := 0, y1 := 0, x2 := 10, y2 := 10 }, score := (9 : Rat)/10, class_id := 0, mean := [5, 5, 10, 10, 0, 0, 0, 0], covariance := [[1, 0, 0, 0, 0, 0, 0, 0], [0, 1, 0, 0, 0, 0, 0, 0], [0, 0, 1, 0, 0, 0, 0, 0], [0, 0, 0, 1, 0, 0, 0, 0], [0, 0, 0, 0, (25 : Rat)/64, 0, 0, 0], [0, 0, 0, 0, 0, (25 : Rat)/64, 0, 0], [0, 0, 0, 0, 0, 0, (25 : Rat)/64, 0], [0, 0, 0, 0, 0, 0, 0, (25 : Rat)/64]], state := ClassroomMonitor.TrackStateL.NEW, is_activated := false, frame_id := 0, start_frame := 0, tracklet_len := 0, student_id := none }), (4, { track_id := 4, bbox := { x1 := 0, y1 := 0, x2 := 10, y2 := 10 }, score := (9 : Rat)/10, class_id := 0, mean := [5, 5, 10, 10, 0, 0, 0, 0], covariance := [[1, 0, 0, 0, 0, 0, 0, 0], [0, 1, 0, 0, 0, 0, 0, 0], [0, 0, 1, 0, 0, 0, 0, 0], [0, 0, 0, 1, 0, 0, 0, 0], [0, 0, 0, 0, (25 : Rat)/64, 0, 0, 0], [0, 0, 0, 0, 0, (25 : Rat)/64, 0, 0], [0, 0, 0, 0, 0, 0, (25 : Rat)/64, 0], [0, 0, 0, 0, 0, 0, 0, (25 : Rat)/64]], state := ClassroomMonitor.TrackStateL.NEW, is_activated := false, frame_id := 0, start_frame := 0, tracklet_len := 0, student_id := none }), (5, { track_id := 5, bbox := { x1 := 0, y1 := 0, x2 := 10, y2 := 10 }, score := (9 : Rat)/10, class_id := 0, mean := [5, 5, 10, 10, 0, 0, 0, 0], covariance := [[1, 0, 0, 0, 0, 0, 0, 0], [0, 1, 0, 0, 0, 0, 0, 0], [0, 0, 1, 0, 0, 0, 0, 0], [0, 0, 0, 1, 0, 0, 0, 0], [0, 0, 0, 0, (25 : Rat)/64, 0, 0, 0], [0, 0, 0, 0, 0, (25 : Rat)/64, 0, 0], [0, 0, 0, 0, 0, 0, (25 : Rat)/64, 0], [0, 0, 0, 0, 0, 0, 0, (25 : Rat)/64]], state := ClassroomMonitor.TrackStateL.NEW, is_activated := false, frame_id := 0, start_frame := 0, tracklet_len := 0, student_id := none }), (6, { track_id := 6, bbox := { x1 := 0, y1 := 0, x2 := 10, y2 := 10 }, score := (9 : Rat)/10, class_id := 0, mean := [5, 5, 10, 10, 0, 0, 0, 0], covariance := [[1, 0, 0, 0, 0, 0, 0, 0], [0, 1, 0, 0, 0, 0, 0, 0], [0, 0, 1, 0, 0, 0, 0, 0], [0, 0, 0, 1, 0, 0, 0, 0], [0, 0, 0, 0, (25 : Rat)/64, 0, 0, 0], [0, 0, 0, 0, 0, (25 : Rat)/64, 0, 0], [0, 0, 0, 0, 0, 0, (25 : Rat)/64, 0], [0, 0, 0, 0, 0, 0, 0, (25 : Rat)/64]], state := ClassroomMonitor.TrackStateL.NEW, is_activated := false, frame_id := 0, start_frame := 0, tracklet_len := 0, student_id := none }), (7, { track_id := 7, bbox := { x1 := 0, y1 := 0, x2 := 10, y2 := 10 }, score := (9 : Rat)/10, class_id := 0, mean := [5, 5, 10, 10, 0, 0, 0, 0], covariance := [[1, 0, 0, 0, 0, 0, 0, 0], [0, 1, 0, 0, 0, 0, 0, 0], [0, 0, 1, 0, 0, 0, 0, 0], [0, 0, 0, 1, 0, 0, 0, 0], [0, 0, 0, 0, (25 : Rat)/64, 0, 0, 0], [0, 0, 0, 0, 0, (25 : Rat)/64, 0, 0], [0, 0, 0, 0, 0, 0, (25 : Rat)/64, 0], [0, 0, 0, 0, 0, 0, 0, (25 : Rat)/64]], state := ClassroomMonitor.TrackStateL.NEW, is_activated := false, frame_id := 0, start_frame := 0, tracklet_len := 0, student_id := none }), (8, { track_id := 8, bbox := { x1 := 0, y1 := 0, x2 := 10, y2 := 10 }, score := (9 : Rat)/10, class_id := 0, mean := [5, 5, 10, 10, 0, 0, 0, 0], covariance := [[1, 0, 0, 0, 0, 0, 0, 0], [0, 1, 0, 0, 0, 0, 0, 0], [0, 0, 1, 0, 0, 0, 0, 0], [0, 0, 0, 1, 0, 0, 0, 0], [0, 0, 0, 0, (25 : Rat)/64, 0, 0, 0], [0, 0, 0, 0, 0, (25 : Rat)/64, 0, 0], [0, 0, 0, 0, 0, 0, (25 : Rat)/64, 0], [0, 0, 0, 0, 0, 0, 0, (25 : Rat)/64]], state := ClassroomMonitor.TrackStateL.NEW, is_activated := false, frame_id := 0, start_frame := 0, tracklet_len := 0, student_id := none })], frame_id := 8, next_id := 8 }, last_frame_time := 8, frame_times := [1, 1, 1, 1, 1, 1, 1, 1], recognition_cooldown := [(1, 6)], recognition_interval := 2, attention_high_threshold := (7 : Rat)/10, attention_low_threshold := (2 : Rat)/5, phone_detection_frames := 3, posture_poor_threshold := (1 : Rat)/2 }

/-- Frames among 5-8 of the phone scenario with a phone_detected event. -/
def phObs2 : List ℕ :=
  [7]

/-- Checkpoint after frame 12 of the phone scenario. -/
def phState12 : PipelineStateL :=
  { is_running := true, session_id := some 2, session_metrics := some { session_id := 2, start_time := 0, frame_count := 12, current_student_count := 1, peak_student_count := 1, attention_timeline := [{ timestamp := 1, value := 0, student_count := 1 }, { timestamp := 2, value := 0, student_count := 1 }, { timestamp := 3, value := 0, student_count := 1 }, { timestamp := 4, value := 0, student_count := 1 }, { timestamp := 5, value := 0, student_count := 1 }, { timestamp := 6, value := 0, student_count := 1 }, { timestamp := 7, value := 0, student_count := 1 }, { timestamp := 8, value := 0, student_count := 1 }, { timestamp := 9, value := 0, student_count := 1 }, { timestamp := 10, value := 0, student_count := 1 }, { timestamp := 11, value := 0, student_count := 1 }, { timestamp := 12, value := 0, student_count := 1 }], track_metrics := [(1, { track_id := 1, student_id := none, student_name := none, first_seen := 1, last_seen := 12, attention_scores := [], posture_scores := [], phone_usage_count := 1, distraction_count := 0, looking_away_count := 0, last_attention_state := "unknown", last_posture_state := "unknown", phone_detected_frames := 4 })] }, tracker := { track_thresh := (1 : Rat)/2, track_buffer := 30, match_thresh := (4 : Rat)/5, min_box_area := 100, tracked_tracks := [1], lost_tracks := [], removed_tracks := [], store := [(1, { track_id := 1, bbox := { x1 := 0, y1 := 0, x2 := 10, y2 := 10 }, score := (9 : Rat)/10, class_id := 0, mean := [5, 5, 10, 10, 0, 0, 0, 0], covariance := [[(23200313851665658412148985 : Rat)/138563756400025266782330084, 0, 0, 0, (3016269318754155270245945 : Rat)/138563756400025266782330084, 0, 0, 0], [0, (23200313851665658412148985 : Rat)/138563756400025266782330084, 0, 0, 0, (3016269318754155270245945 : Rat)/138563756400025266782330084, 0, 0], [0, 0, (23200313851665658412148985 : Rat)/138563756400025266782330084, 0, 0, 0, (3016269318754155270245945 : Rat)/138563756400025266782330084, 0], [0, 0, 0, (23200313851665658412148985 : Rat)/138563756400025266782330084, 0, 0, 0, (3016269318754155270245945 : Rat)/138563756400025266782330084], [(3016269318754155270245945 : Rat)/138563756400025266782330084, 0, 0, 0, (365065910505558894275219961 : Rat)/8868080409601617074069125376, 0, 0, 0], [0, (3016269318754155270245945 : Rat)/138563756400025266782330084, 0, 0, 0, (365065910505558894275219961 : Rat)/8868080409601617074069125376, 0, 0], [0, 0, (3016269318754155270245945 : Rat)/138563756400025266782330084, 0, 0, 0, (365065910505558894275219961 : Rat)/8868080409601617074069125376, 0], [0, 0, 0, (3016269318754155270245945 : Rat)/138563756400025266782330084, 0, 0, 0, (365065910505558894275219961 : Rat)/8868080409601617074069125376]], state := ClassroomMonitor.TrackStateL.TRACKED, is_activated := true, frame_id := 12, start_frame := 1, tracklet_len := 11, student_id := none }), (2, { track_id := 2, bbox := { x1 := 0, y1 := 0, x2 := 10, y2 := 10 }, score := (9 : Rat)/10, class_id := 0, mean := [5, 5, 10, 10, 0, 0, 0, 0], covariance := [[1, 0, 0, 0, 0, 0, 0, 0], [0, 1, 0, 0, 0, 0, 0, 0], [0, 0, 1, 0, 0, 0, 0, 0], [0, 0, 0, 1, 0, 0, 0, 0], [0, 0, 0, 0, (25 : Rat)/64, 0, 0, 0], [0, 0, 0, 0, 0, (25 : Rat)/64, 0, 0], [0, 0, 0, 0, 0, 0, (25 : Rat)/64, 0], [0, 0, 0, 0, 0, 0, 0, (25 : Rat)/64]], state := ClassroomMonitor.TrackStateL.NEW, is_activated := false, frame_id := 0, start_frame := 0, tracklet_len := 0, student_id := none }), (3, { track_id := 3, bbox := { x1 := 0, y1 := 0, x2 := 10, y2 := 10 }, score := (9 : Rat)/10, class_id := 0, mean := [5, 5, 10, 10, 0, 0, 0, 0], covariance := [[1, 0, 0, 0, 0, 0, 0, 0], [0, 1, 0, 0, 0, 0, 0, 0], [0, 0, 1, 0, 0, 0, 0, 0], [0, 0, 0, 1, 0, 0, 0, 0], [0, 0, 0, 0, (25 : Rat)/64, 0, 0, 0], [0, 0, 0, 0, 0, (25 : Rat)/64, 0, 0], [0, 0, 0, 0, 0, 0, (25 : Rat)/64, 0], [0, 0, 0, 0, 0, 0, 0, (25 : Rat)/64]], state := ClassroomMonitor.TrackStateL.NEW, is_activated := false, frame_id := 0, start_frame := 0, tracklet_len := 0, student_id := none }), (4, { track_id := 4, bbox := { x1 := 0, y1 := 0, x2 := 10, y2 := 10 }, score := (9 : Rat)/10, class_id := 0, mean := [5, 5, 10, 10, 0, 0, 0, 0], covariance := [[1, 0, 0, 0, 0, 0, 0, 0], [0, 1, 0, 0, 0, 0, 0, 0], [0, 0, 1, 0, 0, 0, 0, 0], [0, 0, 0, 1, 0, 0, 0, 0], [0, 0, 0, 0, (25 : Rat)/64, 0, 0, 0], [0, 0, 0, 0, 0, (25 : Rat)/64, 0, 0], [0, 0, 0, 0, 0, 0, (25 : Rat)/64, 0], [0, 0, 0, 0, 0, 0, 0, (25 : Rat)/64]], state := ClassroomMonitor.TrackStateL.NEW, is_activated := false, frame_id := 0, start_frame := 0, tracklet_len := 0, student_id := none }), (5, { track_id := 5, bbox := { x1 := 0, y1 := 0, x2 := 10, y2 := 10 }, score := (9 : Rat)/10, class_id := 0, mean := [5, 5, 10, 10, 0, 0, 0, 0], covariance := [[1, 0, 0, 0, 0, 0, 0, 0], [0, 1, 0, 0, 0, 0, 0, 0], [0, 0, 1, 0, 0, 0, 0, 0], [0, 0, 0, 1, 0, 0, 0, 0], [0, 0, 0, 0, (25 : Rat)/64, 0, 0, 0], [0, 0, 0, 0, 0, (25 : Rat)/64, 0, 0], [0, 0, 0, 0, 0, 0, (25 : Rat)/64, 0], [0, 0, 0, 0, 0, 0, 0, (25 : Rat)/64]], state := ClassroomMonitor.TrackStateL.NEW, is_activated := false, frame_id := 0, start_frame := 0, tracklet_len := 0, student_id := none }), (6, { track_id := 6, bbox := { x1 := 0, y1 := 0, x2 := 10, y2 := 10 }, score := (9 : Rat)/10, class_id := 0, mean := [5, 5, 10, 10, 0, 0, 0, 0], covariance := [[1, 0, 0, 0, 0, 0, 0, 0], [0, 1, 0, 0, 0, 0, 0, 0], [0, 0, 1, 0, 0, 0, 0, 0], [0, 0, 0, 1, 0, 0, 0, 0], [0, 0, 0, 0, (25 : Rat)/64, 0, 0, 0], [0, 0, 0, 0, 0, (25 : Rat)/64, 0, 0], [0, 0, 0, 0, 0, 0, (25 : Rat)/64, 0], [0, 0, 0, 0, 0, 0, 0, (25 : Rat)/64]], state := ClassroomMonitor.TrackStateL.NEW, is_activated := false, frame_id := 0, start_frame := 0, tracklet_len := 0, student_id := none }), (7, { track_id := 7, bbox := { x1 := 0, y1 := 0, x2 := 10, y2 := 10 }, score := (9 : Rat)/10, class_id := 0, mean := [5, 5, 10, 10, 0, 0, 0, 0], covariance := [[1, 0, 0, 0, 0, 0, 0, 0], [0, 1, 0, 0, 0, 0, 0, 0], [0, 0, 1, 0, 0, 0, 0, 0], [0, 0, 0, 1, 0, 0, 0, 0], [0, 0, 0, 0, (25 : Rat)/64, 0, 0, 0], [0, 0, 0, 0, 0, (25 : Rat)/64, 0, 0], [0, 0, 0, 0, 0, 0, (25 : Rat)/64, 0], [0, 0, 0, 0, 0, 0, 0, (25 : Rat)/64]], state := ClassroomMonitor.TrackStateL.NEW, is_activated := false, frame_id := 0, start_frame := 0, tracklet_len := 0, student_id := none }), (8, { track_id := 8, bbox := { x1 := 0, y1 := 0, x2 := 10, y2 := 10 }, score := (9 : Rat)/10, class_id := 0, mean := [5, 5, 10, 10, 0, 0, 0, 0], covariance := [[1, 0, 0, 0, 0, 0, 0, 0], [0, 1, 0, 0, 0, 0, 0, 0], [0, 0, 1, 0, 0, 0, 0, 0], [0, 0, 0, 1, 0, 0, 0, 0], [0, 0, 0, 0, (25 : Rat)/64, 0, 0, 0], [0, 0, 0, 0, 0, (25 : Rat)/64, 0, 0], [0, 0, 0, 0, 0, 0, (25 : Rat)/64, 0], [0, 0, 0, 0, 0, 0, 0, (25 : Rat)/64]], state := ClassroomMonitor.TrackStateL.NEW, is_activated := false, frame_id := 0, start_frame := 0, tracklet_len := 0, student_id := none }), (9, { track_id := 9, bbox := { x1 := 0, y1 := 0, x2 := 10, y2 := 10 }, score := (9 : Rat)/10, class_id := 0, mean := [5, 5, 10, 10, 0, 0, 0, 0], covariance := [[1, 0, 0, 0, 0, 0, 0, 0], [0, 1, 0, 0, 0, 0, 0, 0], [0, 0, 1, 0, 0, 0, 0, 0], [0, 0, 0, 1, 0, 0, 0, 0], [0, 0, 0, 0, (25 : Rat)/64, 0, 0, 0], [0, 0, 0, 0, 0, (25 : Rat)/64, 0, 0], [0, 0, 0, 0, 0, 0, (25 : Rat)/64, 0], [0, 0, 0, 0, 0, 0, 0, (25 : Rat)/64]], state := ClassroomMonitor.TrackStateL.NEW, is_activated := false, frame_id := 0, start_frame := 0, tracklet_len := 0, student_id := none }), (10, { track_id := 10, bbox := { x1 := 0, y1 := 0, x2 := 10, y2 := 10 }, score := (9 : Rat)/10, class_id := 0, mean := [5, 5, 10, 10, 0, 0, 0, 0], covariance := [[1, 0, 0, 0, 0, 0, 0, 0], [0, 1, 0, 0, 0, 0, 0, 0], [0, 0, 1, 0, 0, 0, 0, 0], [0, 0, 0, 1, 0, 0, 0, 0], [0, 0, 0, 0, (25 : Rat)/64, 0, 0, 0], [0, 0, 0, 0, 0, (25 : Rat)/64, 0, 0], [0, 0, 0, 0, 0, 0, (25 : Rat)/64, 0], [0, 0, 0, 0, 0, 0, 0, (25 : Rat)/64]], state := ClassroomMonitor.TrackStateL.NEW, is_activated := false, frame_id := 0, start_frame := 0, tracklet_len := 0, student_id := none }), (11, { track_id := 11, bbox := { x1 := 0, y1 := 0, x2 := 10, y2 := 10 }, score := (9 : Rat)/10, class_id := 0, mean := [5, 5, 10, 10, 0, 0, 0, 0], covariance := [[1, 0, 0, 0, 0, 0, 0, 0], [0, 1, 0, 0, 0, 0, 0, 0], [0, 0, 1, 0, 0, 0, 0, 0], [0, 0, 0, 1, 0, 0, 0, 0], [0, 0, 0, 0, (25 : Rat)/64, 0, 0, 0], [0, 0, 0, 0, 0, (25 : Rat)/64, 0, 0], [0, 0, 0, 0, 0, 0, (25 : Rat)/64, 0], [0, 0, 0, 0, 0, 0, 0, (25 : Rat)/64]], state := ClassroomMonitor.TrackStateL.NEW, is_activated := false, frame_id := 0, start_frame := 0, tracklet_len := 0, student_id := none }), (12, { track_id := 12, bbox := { x1 := 0, y1 := 0, x2 := 10, y2 := 10 }, score := (9 : Rat)/10, class_id := 0, mean := [5, 5, 10, 10, 0, 0, 0, 0], covariance := [[1, 0, 0, 0, 0, 0, 0, 0], [0, 1, 0, 0, 0, 0, 0, 0], [0, 0, 1, 0, 0, 0, 0, 0], [0, 0, 0, 1, 0, 0, 0, 0], [0, 0, 0, 0, (25 : Rat)/64, 0, 0, 0], [0, 0, 0, 0, 0, (25 : Rat)/64, 0, 0], [0, 0, 0, 0, 0, 0, (25 : Rat)/64, 0], [0, 0, 0, 0, 0, 0, 0, (25 : Rat)/64]], state := ClassroomMonitor.TrackStateL.NEW, is_activated := false, frame_id := 0, start_frame := 0, tracklet_len := 0, student_id := none })], frame_id := 12, next_id := 12 }, last_frame_time := 12, frame_times := [1, 1, 1, 1, 1, 1, 1, 1, 1, 1, 1, 1], recognition_cooldown := [(1, 12)], recognition_interval := 2, attention_high_threshold := (7 : Rat)/10, attention_low_threshold := (2 : Rat)/5, phone_detection_frames := 3, posture_poor_threshold := (1 : Rat)/2 }

/-- Frames among 9-12 of the phone scenario with a phone_detected event. -/
def phObs3 : List ℕ :=
  []

/-- Checkpoint after frame 16 of the phone scenario. -/
def phState16 : PipelineStateL :=
  { is_running := true, session_id := some 2, session_metrics := some { session_id := 2, start_time := 0, frame_count := 16, current_student_count := 1, peak_student_count := 1, attention_timeline := [{ timestamp := 1, value := 0, student_count := 1 }, { timestamp := 2, value := 0, student_count := 1 }, { timestamp := 3, value := 0, student_count := 1 }, { timestamp := 4, value := 0, student_count := 1 }, { timestamp := 5, value := 0, student_count := 1 }, { timestamp := 6, value := 0, student_count := 1 }, { timestamp := 7, value := 0, student_count := 1 }, { timestamp := 8, value := 0, student_count := 1 }, { timestamp := 9, value := 0, student_count := 1 }, { timestamp := 10, value := 0, student_count := 1 }, { timestamp := 11, value := 0, student_count := 1 }, { timestamp := 12, value := 0, student_count := 1 }, { timestamp := 13, value := 0, student_count := 1 }, { timestamp := 14, value := 0, student_count := 1 }, { timestamp := 15, value := 0, student_count := 1 }, { timestamp := 16, value := 0, student_count := 1 }], track_metrics := [(1, { track_id := 1, student_id := none, student_name := none, first_seen := 1, last_seen := 16, attention_scores := [], posture_scores := [], phone_usage_count := 2, distraction_count := 0, looking_away_count := 0, last_attention_state := "unknown", last_posture_state := "unknown", phone_detected_frames := 0 })] }, tracker := { track_thresh := (1 : Rat)/2, track_buffer := 30, match_thresh := (4 : Rat)/5, min_box_area := 100, tracked_tracks := [1], lost_tracks := [], removed_tracks := [], store := [(1, { track_id := 1, bbox := { x1 := 0, y1 := 0, x2 := 10, y2 := 10 }, score := (9 : Rat)/10, class_id := 0, mean := [5, 5, 10, 10, 0, 0, 0, 0], covariance := [[(30852026457598528865478335625392377 : Rat)/185884919217744281615216203289787620, 0, 0, 0, (3612009985825855985641672689800761 : Rat)/185884919217744281615216203289787620, 0, 0, 0], [0, (30852026457598528865478335625392377 : Rat)/185884919217744281615216203289787620, 0, 0, 0, (3612009985825855985641672689800761 : Rat)/185884919217744281615216203289787620, 0, 0], [0, 0, (30852026457598528865478335625392377 : Rat)/185884919217744281615216203289787620, 0, 0, 0, (3612009985825855985641672689800761 : Rat)/185884919217744281615216203289787620, 0], [0, 0, 0, (30852026457598528865478335625392377 : Rat)/185884919217744281615216203289787620, 0, 0, 0, (3612009985825855985641672689800761 : Rat)/185884919217744281615216203289787620], [(3612009985825855985641672689800761 : Rat)/185884919217744281615216203289787620, 0, 0, 0, (445262658534599612218272696770599417 : Rat)/11896634829935634023373837010546407680, 0, 0, 0], [0, (3612009985825855985641672689800761 : Rat)/185884919217744281615216203289787620, 0, 0, 0, (445262658534599612218272696770599417 : Rat)/11896634829935634023373837010546407680, 0, 0], [0, 0, (3612009985825855985641672689800761 : Rat)/185884919217744281615216203289787620, 0, 0, 0, (445262658534599612218272696770599417 : Rat)/11896634829935634023373837010546407680, 0], [0, 0, 0, (3612009985825855985641672689800761 : Rat)/185884919217744281615216203289787620, 0, 0, 0, (445262658534599612218272696770599417 : Rat)/11896634829935634023373837010546407680]], state := ClassroomMonitor.TrackStateL.TRACKED, is_activated := true, frame_id := 16, start_frame := 1, tracklet_len := 15, student_id := none }), (2, { track_id := 2, bbox := { x1 := 0, y1 := 0, x2 := 10, y2 := 10 }, score := (9 : Rat)/10, class_id := 0, mean := [5, 5, 10, 10, 0, 0, 0, 0], covariance := [[1, 0, 0, 0, 0, 0, 0, 0], [0, 1, 0, 0, 0, 0, 0, 0], [0, 0, 1, 0, 0, 0, 0, 0], [0, 0, 0, 1, 0, 0, 0, 0], [0, 0, 0, 0, (25 : Rat)/64, 0, 0, 0], [0, 0, 0, 0, 0, (25 : Rat)/64, 0, 0], [0, 0, 0, 0, 0, 0, (25 : Rat)/64, 0], [0, 0, 0, 0, 0, 0, 0, (25 : Rat)/64]], state := ClassroomMonitor.TrackStateL.NEW, is_activated := false, frame_id := 0, start_frame := 0, tracklet_len := 0, student_id := none }), (3, { track_id := 3, bbox := { x1 := 0, y1 := 0, x2 := 10, y2 := 10 }, score := (9 : Rat)/10, class_id := 0, mean := [5, 5, 10, 10, 0, 0, 0, 0], covariance := [[1, 0, 0, 0, 0, 0, 0, 0], [0, 1, 0, 0, 0, 0, 0, 0], [0, 0, 1, 0, 0, 0, 0, 0], [0, 0, 0, 1, 0, 0, 0, 0], [0, 0, 0, 0, (25 : Rat)/64, 0, 0, 0], [0, 0, 0, 0, 0, (25 : Rat)/64, 0, 0], [0, 0, 0, 0, 0, 0, (25 : Rat)/64, 0], [0, 0, 0, 0, 0, 0, 0, (25 : Rat)/64]], state := ClassroomMonitor.TrackStateL.NEW, is_activated := false, frame_id := 0, start_frame := 0, tracklet_len := 0, student_id := none }), (4, { track_id := 4, bbox := { x1 := 0, y1 := 0, x2 := 10, y2 := 10 }, score := (9 : Rat)/10, class_id := 0, mean := [5, 5, 10, 10, 0, 0, 0, 0], covariance := [[1, 0, 0, 0, 0, 0, 0, 0], [0, 1, 0, 0, 0, 0, 0, 0], [0, 0, 1, 0, 0, 0, 0, 0], [0, 0, 0, 1, 0, 0, 0, 0], [0, 0, 0, 0, (25 : Rat)/64, 0, 0, 0], [0, 0, 0, 0, 0, (25 : Rat)/64, 0, 0], [0, 0, 0, 0, 0, 0, (25 : Rat)/64, 0], [0, 0, 0, 0, 0, 0, 0, (25 : Rat)/64]], state := ClassroomMonitor.TrackStateL.NEW, is_activated := false, frame_id := 0, start_frame := 0, tracklet_len := 0, student_id := none }), (5, { track_id := 5, bbox := { x1 := 0, y1 := 0, x2 := 10, y2 := 10 }, score := (9 : Rat)/10, class_id := 0, mean := [5, 5, 10, 10, 0, 0, 0, 0], covariance := [[1, 0, 0, 0, 0, 0, 0, 0], [0, 1, 0, 0, 0, 0, 0, 0], [0, 0, 1, 0, 0, 0, 0, 0], [0, 0, 0, 1, 0, 0, 0, 0], [0, 0, 0, 0, (25 : Rat)/64, 0, 0, 0], [0, 0, 0, 0, 0, (25 : Rat)/64, 0, 0], [0, 0, 0, 0, 0, 0, (25 : Rat)/64, 0], [0, 0, 0, 0, 0, 0, 0, (25 : Rat)/64]], state := ClassroomMonitor.TrackStateL.NEW, is_activated := false, frame_id := 0, start_frame := 0, tracklet_len := 0, student_id := none }), (6, { track_id := 6, bbox := { x1 := 0, y1 := 0, x2 := 10, y2 := 10 }, score := (9 : Rat)/10, class_id := 0, mean := [5, 5, 10, 10, 0, 0, 0, 0], covariance := [[1, 0, 0, 0, 0, 0, 0, 0], [0, 1, 0, 0, 0, 0, 0, 0], [0, 0, 1, 0, 0, 0, 0, 0], [0, 0, 0, 1, 0, 0, 0, 0], [0, 0, 0, 0, (25 : Rat)/64, 0, 0, 0], [0, 0, 0, 0, 0, (25 : Rat)/64, 0, 0], [0, 0, 0, 0, 0, 0, (25 : Rat)/64, 0], [0, 0, 0, 0, 0, 0, 0, (25 : Rat)/64]], state := ClassroomMonitor.TrackStateL.NEW, is_activated := false, frame_id := 0, start_frame := 0, tracklet_len := 0, student_id := none }), (7, { track_id := 7, bbox := { x1 := 0, y1 := 0, x2 := 10, y2 := 10 }, score := (9 : Rat)/10, class_id := 0, mean := [5, 5, 10, 10, 0, 0, 0, 0], covariance := [[1, 0, 0, 0, 0, 0, 0, 0], [0, 1, 0, 0, 0, 0, 0, 0], [0, 0, 1, 0, 0, 0, 0, 0], [0, 0, 0, 1, 0, 0, 0, 0], [0, 0, 0, 0, (25 : Rat)/64, 0, 0, 0], [0, 0, 0, 0, 0, (25 : Rat)/64, 0, 0], [0, 0, 0, 0, 0, 0, (25 : Rat)/64, 0], [0, 0, 0, 0, 0, 0, 0, (25 : Rat)/64]], state := ClassroomMonitor.TrackStateL.NEW, is_activated := false, frame_id := 0, start_frame := 0, tracklet_len := 0, student_id := none }), (8, { track_id := 8, bbox := { x1 := 0, y1 := 0, x2 := 10, y2 := 10 }, score := (9 : Rat)/10, class_id := 0, mean := [5, 5, 10, 10, 0, 0, 0, 0], covariance := [[1, 0, 0, 0, 0, 0, 0, 0], [0, 1, 0, 0, 0, 0, 0, 0], [0, 0, 1, 0, 0, 0, 0, 0], [0, 0, 0, 1, 0, 0, 0, 0], [0, 0, 0, 0, (25 : Rat)/64, 0, 0, 0], [0, 0, 0, 0, 0, (25 : Rat)/64, 0, 0], [0, 0, 0, 0, 0, 0, (25 : Rat)/64, 0], [0, 0, 0, 0, 0, 0, 0, (25 : Rat)/64]], state := ClassroomMonitor.TrackStateL.NEW, is_activated := false, frame_id := 0, start_frame := 0, tracklet_len := 0, student_id := none }), (9, { track_id := 9, bbox := { x1 := 0, y1 := 0, x2 := 10, y2 := 10 }, score := (9 : Rat)/10, class_id := 0, mean := [5, 5, 10, 10, 0, 0, 0, 0], covariance := [[1, 0, 0, 0, 0, 0, 0, 0], [0, 1, 0, 0, 0, 0, 0, 0], [0, 0, 1, 0, 0, 0, 0, 0], [0, 0, 0, 1, 0, 0, 0, 0], [0, 0, 0, 0, (25 : Rat)/64, 0, 0, 0], [0, 0, 0, 0, 0, (25 : Rat)/64, 0, 0], [0, 0, 0, 0, 0, 0, (25 : Rat)/64, 0], [0, 0, 0, 0, 0, 0, 0, (25 : Rat)/64]], state := ClassroomMonitor.TrackStateL.NEW, is_activated := false, frame_id := 0, start_frame := 0, tracklet_len := 0, student_id := none }), (10, { track_id := 10, bbox := { x1 := 0, y1 := 0, x2 := 10, y2 := 10 }, score := (9 : Rat)/10, class_id := 0, mean := [5, 5, 10, 10, 0, 0, 0, 0], covariance := [[1, 0, 0, 0, 0, 0, 0, 0], [0, 1, 0, 0, 0, 0, 0, 0], [0, 0, 1, 0, 0, 0, 0, 0], [0, 0, 0, 1, 0, 0, 0, 0], [0, 0, 0, 0, (25 : Rat)/64, 0, 0, 0], [0, 0, 0, 0, 0, (25 : Rat)/64, 0, 0], [0, 0, 0, 0, 0, 0, (25 : Rat)/64, 0], [0, 0, 0, 0, 0, 0, 0, (25 : Rat)/64]], state := ClassroomMonitor.TrackStateL.NEW, is_activated := false, frame_id := 0, start_frame := 0, tracklet_len := 0, student_id := none }), (11, { track_id := 11, bbox := { x1 := 0, y1 := 0, x2 := 10, y2 := 10 }, score := (9 : Rat)/10, class_id := 0, mean := [5, 5, 10, 10, 0, 0, 0, 0], covariance := [[1, 0, 0, 0, 0, 0, 0, 0], [0, 1, 0, 0, 0, 0, 0, 0], [0, 0, 1, 0, 0, 0, 0, 0], [0, 0, 0, 1, 0, 0, 0, 0], [0, 0, 0, 0, (25 : Rat)/64, 0, 0, 0], [0, 0, 0, 0, 0, (25 : Rat)/64, 0, 0], [0, 0, 0, 0, 0, 0, (25 : Rat)/64, 0], [0, 0, 0, 0, 0, 0, 0, (25 : Rat)/64]], state := ClassroomMonitor.TrackStateL.NEW, is_activated := false, frame_id := 0, start_frame := 0, tracklet_len := 0, student_id := none }), (12, { track_id := 12, bbox := { x1 := 0, y1 := 0, x2 := 10, y2 := 10 }, score := (9 : Rat)/10, class_id := 0, mean := [5, 5, 10, 10, 0, 0, 0, 0], covariance := [[1, 0, 0, 0, 0, 0, 0, 0], [0, 1, 0, 0, 0, 0, 0, 0], [0, 0, 1, 0, 0, 0, 0, 0], [0, 0, 0, 1, 0, 0, 0, 0], [0, 0, 0, 0, (25 : Rat)/64, 0, 0, 0], [0, 0, 0, 0, 0, (25 : Rat)/64, 0, 0], [0, 0, 0, 0, 0, 0, (25 : Rat)/64, 0], [0, 0, 0, 0, 0, 0, 0, (25 : Rat)/64]], state := ClassroomMonitor.TrackStateL.NEW, is_activated := false, frame_id := 0, start_frame := 0, tracklet_len := 0, student_id := none }), (13, { track_id := 13, bbox := { x1 := 0, y1 := 0, x2 := 10, y2 := 10 }, score := (9 : Rat)/10, class_id := 0, mean := [5, 5, 10, 10, 0, 0, 0, 0], covariance := [[1, 0, 0, 0, 0, 0, 0, 0], [0, 1, 0, 0, 0, 0, 0, 0], [0, 0, 1, 0, 0, 0, 0, 0], [0, 0, 0, 1, 0, 0, 0, 0], [0, 0, 0, 0, (25 : Rat)/64, 0, 0, 0], [0, 0, 0, 0, 0, (25 : Rat)/64, 0, 0], [0, 0, 0, 0, 0, 0, (25 : Rat)/64, 0], [0, 0, 0, 0, 0, 0, 0, (25 : Rat)/64]], state := ClassroomMonitor.TrackStateL.NEW, is_activated := false, frame_id := 0, start_frame := 0, tracklet_len := 0, student_id := none }), (14, { track_id := 14, bbox := { x1 := 0, y1 := 0, x2 := 10, y2 := 10 }, score := (9 : Rat)/10, class_id := 0, mean := [5, 5, 10, 10, 0, 0, 0, 0], covariance := [[1, 0, 0, 0, 0, 0, 0, 0], [0, 1, 0, 0, 0, 0, 0, 0], [0, 0, 1, 0, 0, 0, 0, 0], [0, 0, 0, 1, 0, 0, 0, 0], [0, 0, 0, 0, (25 : Rat)/64, 0, 0, 0], [0, 0, 0, 0, 0, (25 : Rat)/64, 0, 0], [0, 0, 0, 0, 0, 0, (25 : Rat)/64, 0], [0, 0, 0, 0, 0, 0, 0, (25 : Rat)/64]], state := ClassroomMonitor.TrackStateL.NEW, is_activated := false, frame_id := 0, start_frame := 0, tracklet_len := 0, student_id := none }), (15, { track_id := 15, bbox := { x1 := 0, y1 := 0, x2 := 10, y2 := 10 }, score := (9 : Rat)/10, class_id := 0, mean := [5, 5, 10, 10, 0, 0, 0, 0], covariance := [[1, 0, 0, 0, 0, 0, 0, 0], [0, 1, 0, 0, 0, 0, 0, 0], [0, 0, 1, 0, 0, 0, 0, 0], [0, 0, 0, 1, 0, 0, 0, 0], [0, 0, 0, 0, (25 : Rat)/64, 0, 0, 0], [0, 0, 0, 0, 0, (25 : Rat)/64, 0, 0], [0, 0, 0, 0, 0, 0, (25 : Rat)/64, 0], [0, 0, 0, 0, 0, 0, 0, (25 : Rat)/64]], state := ClassroomMonitor.TrackStateL.NEW, is_activated := false, frame_id := 0, start_frame := 0, tracklet_len := 0, student_id := none }), (16, { track_id := 16, bbox := { x1 := 0, y1 := 0, x2 := 10, y2 := 10 }, score := (9 : Rat)/10, class_id := 0, mean := [5, 5, 10, 10, 0, 0, 0, 0], covariance := [[1, 0, 0, 0, 0, 0, 0, 0], [0, 1, 0, 0, 0, 0, 0, 0], [0, 0, 1, 0, 0, 0, 0, 0], [0, 0, 0, 1, 0, 0, 0, 0], [0, 0, 0, 0, (25 : Rat)/64, 0, 0, 0], [0, 0, 0, 0, 0, (25 : Rat)/64, 0, 0], [0, 0, 0, 0, 0, 0, (25 : Rat)/64, 0], [0, 0, 0, 0, 0, 0, 0, (25 : Rat)/64]], state := ClassroomMonitor.TrackStateL.NEW, is_activated := false, frame_id := 0, start_frame := 0, tracklet_len := 0, student_id := none })], frame_id := 16, next_id := 16 }, last_frame_time := 16, frame_times := [1, 1, 1, 1, 1, 1, 1, 1, 1, 1, 1, 1, 1, 1, 1, 1], recognition_cooldown := [(1, 15)], recognition_interval := 2, attention_high_threshold := (7 : Rat)/10, attention_low_threshold := (2 : Rat)/5, phone_detection_frames := 3, posture_poor_threshold := (1 : Rat)/2 }

/-- Frames among 13-16 of the phone scenario with a phone_detected event. -/
def phObs4 : List ℕ :=
  [13]

/-- Final pipeline state of the phone scenario (after frame 20). -/
def phState20 : PipelineStateL :=
  { is_running := true, session_id := some 2, session_metrics := some { session_id := 2, start_time := 0, frame_count := 20, current_student_count := 1, peak_student_count := 1, attention_timeline := [{ timestamp := 1, value := 0, student_count := 1 }, { timestamp := 2, value := 0, student_count := 1 }, { timestamp := 3, value := 0, student_count := 1 }, { timestamp := 4, value := 0, student_count := 1 }, { timestamp := 5, value := 0, student_count := 1 }, { timestamp := 6, value := 0, student_count := 1 }, { timestamp := 7, value := 0, student_count := 1 }, { timestamp := 8, value := 0, student_count := 1 }, { timestamp := 9, value := 0, student_count := 1 }, { timestamp := 10, value := 0, student_count := 1 }, { timestamp := 11, value := 0, student_count := 1 }, { timestamp := 12, value := 0, student_count := 1 }, { timestamp := 13, value := 0, student_count := 1 }, { timestamp := 14, value := 0, student_count := 1 }, { timestamp := 15, value := 0, student_count := 1 }, { timestamp := 16, value := 0, student_count := 1 }, { timestamp := 17, value := 0, student_count := 1 }, { timestamp := 18, value := 0, student_count := 1 }, { timestamp := 19, value := 0, student_count := 1 }, { timestamp := 20, value := 0, student_count := 1 }], track_metrics := [(1, { track_id := 1, student_id := none, student_name := none, first_seen := 1, last_seen := 20, attention_scores := [], posture_scores := [], phone_usage_count := 2, distraction_count := 0, looking_away_count := 0, last_attention_state := "unknown", last_posture_state := "unknown", phone_detected_frames := 0 })] }, tracker := { track_thresh := (1 : Rat)/2, track_buffer := 30, match_thresh := (4 : Rat)/5, min_box_area := 100, tracked_tracks := [1], lost_tracks := [], removed_tracks := [], store := [(1, { track_id := 1, bbox := { x1 := 0, y1 := 0, x2 := 10, y2 := 10 }, score := (9 : Rat)/10, class_id := 0, mean := [5, 5, 10, 10, 0, 0, 0, 0], covariance := [[(39775664773458545217857708115386605727693049 : Rat)/240366195985123653571596027724397994243005668, 0, 0, 0, (344661793886177846524953243715818151550941 : Rat)/18489707383471050274738155978799845711000436, 0, 0, 0], [0, (39775664773458545217857708115386605727693049 : Rat)/240366195985123653571596027724397994243005668, 0, 0, 0, (344661793886177846524953243715818151550941 : Rat)/18489707383471050274738155978799845711000436, 0, 0], [0, 0, (39775664773458545217857708115386605727693049 : Rat)/240366195985123653571596027724397994243005668, 0, 0, 0, (344661793886177846524953243715818151550941 : Rat)/18489707383471050274738155978799845711000436, 0], [0, 0, 0, (39775664773458545217857708115386605727693049 : Rat)/240366195985123653571596027724397994243005668, 0, 0, 0, (344661793886177846524953243715818151550941 : Rat)/18489707383471050274738155978799845711000436], [(344661793886177846524953243715818151550941 : Rat)/18489707383471050274738155978799845711000436, 0, 0, 0, (42793106164973427386368391893291875353608861 : Rat)/1183341272542147217583241982643190125504027904, 0, 0, 0], [0, (344661793886177846524953243715818151550941 : Rat)/18489707383471050274738155978799845711000436, 0, 0, 0, (42793106164973427386368391893291875353608861 : Rat)/1183341272542147217583241982643190125504027904, 0, 0], [0, 0, (344661793886177846524953243715818151550941 : Rat)/18489707383471050274738155978799845711000436, 0, 0, 0, (42793106164973427386368391893291875353608861 : Rat)/1183341272542147217583241982643190125504027904, 0], [0, 0, 0, (344661793886177846524953243715818151550941 : Rat)/18489707383471050274738155978799845711000436, 0, 0, 0, (42793106164973427386368391893291875353608861 : Rat)/1183341272542147217583241982643190125504027904]], state := ClassroomMonitor.TrackStateL.TRACKED, is_activated := true, frame_id := 20, start_frame := 1, tracklet_len := 19, student_id := none }), (2, { track_id := 2, bbox := { x1 := 0, y1 := 0, x2 := 10, y2 := 10 }, score := (9 : Rat)/10, class_id := 0, mean := [5, 5, 10, 10, 0, 0, 0, 0], covariance := [[1, 0, 0, 0, 0, 0, 0, 0], [0, 1, 0, 0, 0, 0, 0, 0], [0, 0, 1, 0, 0, 0, 0, 0], [0, 0, 0, 1, 0, 0, 0, 0], [0, 0, 0, 0, (25 : Rat)/64, 0, 0, 0], [0, 0, 0, 0, 0, (25 : Rat)/64, 0, 0], [0, 0, 0, 0, 0, 0, (25 : Rat)/64, 0], [0, 0, 0, 0, 0, 0, 0, (25 : Rat)/64]], state := ClassroomMonitor.TrackStateL.NEW, is_activated := false, frame_id := 0, start_frame := 0, tracklet_len := 0, student_id := none }), (3, { track_id := 3, bbox := { x1 := 0, y1 := 0, x2 := 10, y2 := 10 }, score := (9 : Rat)/10, class_id := 0, mean := [5, 5, 10, 10, 0, 0, 0, 0], covariance := [[1, 0, 0, 0, 0, 0, 0, 0], [0, 1, 0, 0, 0, 0, 0, 0], [0, 0, 1, 0, 0, 0, 0, 0], [0, 0, 0, 1, 0, 0, 0, 0], [0, 0, 0, 0, (25 : Rat)/64, 0, 0, 0], [0, 0, 0, 0, 0, (25 : Rat)/64, 0, 0], [0, 0, 0, 0, 0, 0, (25 : Rat)/64, 0], [0, 0, 0, 0, 0, 0, 0, (25 : Rat)/64]], state := ClassroomMonitor.TrackStateL.NEW, is_activated := false, frame_id := 0, start_frame := 0, tracklet_len := 0, student_id := none }), (4, { track_id := 4, bbox := { x1 := 0, y1 := 0, x2 := 10, y2 := 10 }, score := (9 : Rat)/10, class_id := 0, mean := [5, 5, 10, 10, 0, 0, 0, 0], covariance := [[1, 0, 0, 0, 0, 0, 0, 0], [0, 1, 0, 0, 0, 0, 0, 0], [0, 0, 1, 0, 0, 0, 0, 0], [0, 0, 0, 1, 0, 0, 0, 0], [0, 0, 0, 0, (25 : Rat)/64, 0, 0, 0], [0, 0, 0, 0, 0, (25 : Rat)/64, 0, 0], [0, 0, 0, 0, 0, 0, (25 : Rat)/64, 0], [0, 0, 0, 0, 0, 0, 0, (25 : Rat)/64]], state := ClassroomMonitor.TrackStateL.NEW, is_activated := false, frame_id := 0, start_frame := 0, tracklet_len := 0, student_id := none }), (5, { track_id := 5, bbox := { x1 := 0, y1 := 0, x2 := 10, y2 := 10 }, score := (9 : Rat)/10, class_id := 0, mean := [5, 5, 10, 10, 0, 0, 0, 0], covariance := [[1, 0, 0, 0, 0, 0, 0, 0], [0, 1, 0, 0, 0, 0, 0, 0], [0, 0, 1, 0, 0, 0, 0, 0], [0, 0, 0, 1, 0, 0, 0, 0], [0, 0, 0, 0, (25 : Rat)/64, 0, 0, 0], [0, 0, 0, 0, 0, (25 : Rat)/64, 0, 0], [0, 0, 0, 0, 0, 0, (25 : Rat)/64, 0], [0, 0, 0, 0, 0, 0, 0, (25 : Rat)/64]], state := ClassroomMonitor.TrackStateL.NEW, is_activated := false, frame_id := 0, start_frame := 0, tracklet_len := 0, student_id := none }), (6, { track_id := 6, bbox := { x1 := 0, y1 := 0, x2 := 10, y2 := 10 }, score := (9 : Rat)/10, class_id := 0, mean := [5, 5, 10, 10, 0, 0, 0, 0], covariance := [[1, 0, 0, 0, 0, 0, 0, 0], [0, 1, 0, 0, 0, 0, 0, 0], [0, 0, 1, 0, 0, 0, 0, 0], [0, 0, 0, 1, 0, 0, 0, 0], [0, 0, 0, 0, (25 : Rat)/64, 0, 0, 0], [0, 0, 0, 0, 0, (25 : Rat)/64, 0, 0], [0, 0, 0, 0, 0, 0, (25 : Rat)/64, 0], [0, 0, 0, 0, 0, 0, 0, (25 : Rat)/64]], state := ClassroomMonitor.TrackStateL.NEW, is_activated := false, frame_id := 0, start_frame := 0, tracklet_len := 0, student_id := none }), (7, { track_id := 7, bbox := { x1 := 0, y1 := 0, x2 := 10, y2 := 10 }, score := (9 : Rat)/10, class_id := 0, mean := [5, 5, 10, 10, 0, 0, 0, 0], covariance := [[1, 0, 0, 0, 0, 0, 0, 0], [0, 1, 0, 0, 0, 0, 0, 0], [0, 0, 1, 0, 0, 0, 0, 0], [0, 0, 0, 1, 0, 0, 0, 0], [0, 0, 0, 0, (25 : Rat)/64, 0, 0, 0], [0, 0, 0, 0, 0, (25 : Rat)/64, 0, 0], [0, 0, 0, 0, 0, 0, (25 : Rat)/64, 0], [0, 0, 0, 0, 0, 0, 0, (25 : Rat)/64]], state := ClassroomMonitor.TrackStateL.NEW, is_activated := false, frame_id := 0, start_frame := 0, tracklet_len := 0, student_id := none }), (8, { track_id := 8, bbox := { x1 := 0, y1 := 0, x2 := 10, y2 := 10 }, score := (9 : Rat)/10, class_id := 0, mean := [5, 5, 10, 10, 0, 0, 0, 0], covariance := [[1, 0, 0, 0, 0, 0, 0, 0], [0, 1, 0, 0, 0, 0, 0, 0], [0, 0, 1, 0, 0, 0, 0, 0], [0, 0, 0, 1, 0, 0, 0, 0], [0, 0, 0, 0, (25 : Rat)/64, 0, 0, 0], [0, 0, 0, 0, 0, (25 : Rat)/64, 0, 0], [0, 0, 0, 0, 0, 0, (25 : Rat)/64, 0], [0, 0, 0, 0, 0, 0, 0, (25 : Rat)/64]], state := ClassroomMonitor.TrackStateL.NEW, is_activated := false, frame_id := 0, start_frame := 0, tracklet_len := 0, student_id := none }), (9, { track_id := 9, bbox := { x1 := 0, y1 := 0, x2 := 10, y2 := 10 }, score := (9 : Rat)/10, class_id := 0, mean := [5, 5, 10, 10, 0, 0, 0, 0], covariance := [[1, 0, 0, 0, 0, 0, 0, 0], [0, 1, 0, 0, 0, 0, 0, 0], [0, 0, 1, 0, 0, 0, 0, 0], [0, 0, 0, 1, 0, 0, 0, 0], [0, 0, 0, 0, (25 : Rat)/64, 0, 0, 0], [0, 0, 0, 0, 0, (25 : Rat)/64, 0, 0], [0, 0, 0, 0, 0, 0, (25 : Rat)/64, 0], [0, 0, 0, 0, 0, 0, 0, (25 : Rat)/64]], state := ClassroomMonitor.TrackStateL.NEW, is_activated := false, frame_id := 0, start_frame := 0, tracklet_len := 0, student_id := none }), (10, { track_id := 10, bbox := { x1 := 0, y1 := 0, x2 := 10, y2 := 10 }, score := (9 : Rat)/10, class_id := 0, mean := [5, 5, 10, 10, 0, 0, 0, 0], covariance := [[1, 0, 0, 0, 0, 0, 0, 0], [0, 1, 0, 0, 0, 0, 0, 0], [0, 0, 1, 0, 0, 0, 0, 0], [0, 0, 0, 1, 0, 0, 0, 0], [0, 0, 0, 0, (25 : Rat)/64, 0, 0, 0], [0, 0, 0, 0, 0, (25 : Rat)/64, 0, 0], [0, 0, 0, 0, 0, 0, (25 : Rat)/64, 0], [0, 0, 0, 0, 0, 0, 0, (25 : Rat)/64]], state := ClassroomMonitor.TrackStateL.NEW, is_activated := false, frame_id := 0, start_frame := 0, tracklet_len := 0, student_id := none }), (11, { track_id := 11, bbox := { x1 := 0, y1 := 0, x2 := 10, y2 := 10 }, score := (9 : Rat)/10, class_id := 0, mean := [5, 5, 10, 10, 0, 0, 0, 0], covariance := [[1, 0, 0, 0, 0, 0, 0, 0], [0, 1, 0, 0, 0, 0, 0, 0], [0, 0, 1, 0, 0, 0, 0, 0], [0, 0, 0, 1, 0, 0, 0, 0], [0, 0, 0, 0, (25 : Rat)/64, 0, 0, 0], [0, 0, 0, 0, 0, (25 : Rat)/64, 0, 0], [0, 0, 0, 0, 0, 0, (25 : Rat)/64, 0], [0, 0, 0, 0, 0, 0, 0, (25 : Rat)/64]], state := ClassroomMonitor.TrackStateL.NEW, is_activated := false, frame_id := 0, start_frame := 0, tracklet_len := 0, student_id := none }), (12, { track_id := 12, bbox := { x1 := 0, y1 := 0, x2 := 10, y2 := 10 }, score := (9 : Rat)/10, class_id := 0, mean := [5, 5, 10, 10, 0, 0, 0, 0], covariance := [[1, 0, 0, 0, 0, 0, 0, 0], [0, 1, 0, 0, 0, 0, 0, 0], [0, 0, 1, 0, 0, 0, 0, 0], [0, 0, 0, 1, 0, 0, 0, 0], [0, 0, 0, 0, (25 : Rat)/64, 0, 0, 0], [0, 0, 0, 0, 0, (25 : Rat)/64, 0, 0], [0, 0, 0, 0, 0, 0, (25 : Rat)/64, 0], [0, 0, 0, 0, 0, 0, 0, (25 : Rat)/64]], state := ClassroomMonitor.TrackStateL.NEW, is_activated := false, frame_id := 0, start_frame := 0, tracklet_len := 0, student_id := none }), (13, { track_id := 13, bbox := { x1 := 0, y1 := 0, x2 := 10, y2 := 10 }, score := (9 : Rat)/10, class_id := 0, mean := [5, 5, 10, 10, 0, 0, 0, 0], covariance := [[1, 0, 0, 0, 0, 0, 0, 0], [0, 1, 0, 0, 0, 0, 0, 0], [0, 0, 1, 0, 0, 0, 0, 0], [0, 0, 0, 1, 0, 0, 0, 0], [0, 0, 0, 0, (25 : Rat)/64, 0, 0, 0], [0, 0, 0, 0, 0, (25 : Rat)/64, 0, 0], [0, 0, 0, 0, 0, 0, (25 : Rat)/64, 0], [0, 0, 0, 0, 0, 0, 0, (25 : Rat)/64]], state := ClassroomMonitor.TrackStateL.NEW, is_activated := false, frame_id := 0, start_frame := 0, tracklet_len := 0, student_id := none }), (14, { track_id := 14, bbox := { x1 := 0, y1 := 0, x2 := 10, y2 := 10 }, score := (9 : Rat)/10, class_id := 0, mean := [5, 5, 10, 10, 0, 0, 0, 0], covariance := [[1, 0, 0, 0, 0, 0, 0, 0], [0, 1, 0, 0, 0, 0, 0, 0], [0, 0, 1, 0, 0, 0, 0, 0], [0, 0, 0, 1, 0, 0, 0, 0], [0, 0, 0, 0, (25 : Rat)/64, 0, 0, 0], [0, 0, 0, 0, 0, (25 : Rat)/64, 0, 0], [0, 0, 0, 0, 0, 0, (25 : Rat)/64, 0], [0, 0, 0, 0, 0, 0, 0, (25 : Rat)/64]], state := ClassroomMonitor.TrackStateL.NEW, is_activated := false, frame_id := 0, start_frame := 0, tracklet_len := 0, student_id := none }), (15, { track_id := 15, bbox := { x1 := 0, y1 := 0, x2 := 10, y2 := 10 }, score := (9 : Rat)/10, class_id := 0, mean := [5, 5, 10, 10, 0, 0, 0, 0], covariance := [[1, 0, 0, 0, 0, 0, 0, 0], [0, 1, 0, 0, 0, 0, 0, 0], [0, 0, 1, 0, 0, 0, 0, 0], [0, 0, 0, 1, 0, 0, 0, 0], [0, 0, 0, 0, (25 : Rat)/64, 0, 0, 0], [0, 0, 0, 0, 0, (25 : Rat)/64, 0, 0], [0, 0, 0, 0, 0, 0, (25 : Rat)/64, 0], [0, 0, 0, 0, 0, 0, 0, (25 : Rat)/64]], state := ClassroomMonitor.TrackStateL.NEW, is_activated := false, frame_id := 0, start_frame := 0, tracklet_len := 0, student_id := none }), (16, { track_id := 16, bbox := { x1 := 0, y1 := 0, x2 := 10, y2 := 10 }, score := (9 : Rat)/10, class_id := 0, mean := [5, 5, 10, 10, 0, 0, 0, 0], covariance := [[1, 0, 0, 0, 0, 0, 0, 0], [0, 1, 0, 0, 0, 0, 0, 0], [0, 0, 1, 0, 0, 0, 0, 0], [0, 0, 0, 1, 0, 0, 0, 0], [0, 0, 0, 0, (25 : Rat)/64, 0, 0, 0], [0, 0, 0, 0, 0, (25 : Rat)/64, 0, 0], [0, 0, 0, 0, 0, 0, (25 : Rat)/64, 0], [0, 0, 0, 0, 0, 0, 0, (25 : Rat)/64]], state := ClassroomMonitor.TrackStateL.NEW, is_activated := false, frame_id := 0, start_frame := 0, tracklet_len := 0, student_id := none }), (17, { track_id := 17, bbox := { x1 := 0, y1 := 0, x2 := 10, y2 := 10 }, score := (9 : Rat)/10, class_id := 0, mean := [5, 5, 10, 10, 0, 0, 0, 0], covariance := [[1, 0, 0, 0, 0, 0, 0, 0], [0, 1, 0, 0, 0, 0, 0, 0], [0, 0, 1, 0, 0, 0, 0, 0], [0, 0, 0, 1, 0, 0, 0, 0], [0, 0, 0, 0, (25 : Rat)/64, 0, 0, 0], [0, 0, 0, 0, 0, (25 : Rat)/64, 0, 0], [0, 0, 0, 0, 0, 0, (25 : Rat)/64, 0], [0, 0, 0, 0, 0, 0, 0, (25 : Rat)/64]], state := ClassroomMonitor.TrackStateL.NEW, is_activated := false, frame_id := 0, start_frame := 0, tracklet_len := 0, student_id := none }), (18, { track_id := 18, bbox := { x1 := 0, y1 := 0, x2 := 10, y2 := 10 }, score := (9 : Rat)/10, class_id := 0, mean := [5, 5, 10, 10, 0, 0, 0, 0], covariance := [[1, 0, 0, 0, 0, 0, 0, 0], [0, 1, 0, 0, 0, 0, 0, 0], [0, 0, 1, 0, 0, 0, 0, 0], [0, 0, 0, 1, 0, 0, 0, 0], [0, 0, 0, 0, (25 : Rat)/64, 0, 0, 0], [0, 0, 0, 0, 0, (25 : Rat)/64, 0, 0], [0, 0, 0, 0, 0, 0, (25 : Rat)/64, 0], [0, 0, 0, 0, 0, 0, 0, (25 : Rat)/64]], state := ClassroomMonitor.TrackStateL.NEW, is_activated := false, frame_id := 0, start_frame := 0, tracklet_len := 0, student_id := none }), (19, { track_id := 19, bbox := { x1 := 0, y1 := 0, x2 := 10, y2 := 10 }, score := (9 : Rat)/10, class_id := 0, mean := [5, 5, 10, 10, 0, 0, 0, 0], covariance := [[1, 0, 0, 0, 0, 0, 0, 0], [0, 1, 0, 0, 0, 0, 0, 0], [0, 0, 1, 0, 0, 0, 0, 0], [0, 0, 0, 1, 0, 0, 0, 0], [0, 0, 0, 0, (25 : Rat)/64, 0, 0, 0], [0, 0, 0, 0, 0, (25 : Rat)/64, 0, 0], [0, 0, 0, 0, 0, 0, (25 : Rat)/64, 0], [0, 0, 0, 0, 0, 0, 0, (25 : Rat)/64]], state := ClassroomMonitor.TrackStateL.NEW, is_activated := false, frame_id := 0, start_frame := 0, tracklet_len := 0, student_id := none }), (20, { track_id := 20, bbox := { x1 := 0, y1 := 0, x2 := 10, y2 := 10 }, score := (9 : Rat)/10, class_id := 0, mean := [5, 5, 10, 10, 0, 0, 0, 0], covariance := [[1, 0, 0, 0, 0, 0, 0, 0], [0, 1, 0, 0, 0, 0, 0, 0], [0, 0, 1, 0, 0, 0, 0, 0], [0, 0, 0, 1, 0, 0, 0, 0], [0, 0, 0, 0, (25 : Rat)/64, 0, 0, 0], [0, 0, 0, 0, 0, (25 : Rat)/64, 0, 0], [0, 0, 0, 0, 0, 0, (25 : Rat)/64, 0], [0, 0, 0, 0, 0, 0, 0, (25 : Rat)/64]], state := ClassroomMonitor.TrackStateL.NEW, is_activated := false, frame_id := 0, start_frame := 0, tracklet_len := 0, student_id := none })], frame_id := 20, next_id := 20 }, last_frame_time := 20, frame_times := [1, 1, 1, 1, 1, 1, 1, 1, 1, 1, 1, 1, 1, 1, 1, 1, 1, 1, 1, 1], recognition_cooldown := [(1, 18)], recognition_interval := 2, attention_high_threshold := (7 : Rat)/10, attention_low_threshold := (2 : Rat)/5, phone_detection_frames := 3, posture_poor_threshold := (1 : Rat)/2 }

/-- Frames among 17-20 of the phone scenario with a phone_detected event. -/
def phObs5 : List ℕ :=
  []

/-- Cost matrix used to exercise `linear_assignment` on a non-degenerate
shape: one track, two detections, costs 1/10 and 9/10. -/
def cexMatrix : CostMatrix :=
  ⟨1, 2, fun _ j => if j = 0 then 1 / 10 else 9 / 10⟩

/-- Fresh session metrics used by concrete instantiations. -/
def smFresh : SessionMetricsL := { session_id := 1, start_time := 0 }

/-! # Theorems -/

set_option maxRecDepth 1000000
set_option maxHeartbeats 4000000

/-- **C7** For all corner-form bounding boxes `a` and `b` with positive
area, `0 ≤ IoU(a,b) ≤ 1` and `IoU(a,a) = 1`; and whenever the union area
is zero, `bbox_iou` returns 0. -/
theorem c7_iou_bounds (a b : Bbox) (ha : ProperBox a) (hb : ProperBox b) :
    0 ≤ bbox_iou a b ∧ bbox_iou a b ≤ 1 ∧ bbox_iou a a = 1 ∧
      (∀ c d : Bbox, bboxUnionArea c d = 0 → bbox_iou c d = 0) := by
  obtain ⟨hax, hay⟩ := ha
  obtain ⟨hbx, hby⟩ := hb
  have hIa : 0 ≤ bboxInterArea a b := by
    unfold bboxInterArea
    exact mul_nonneg (le_max_left 0 _) (le_max_left 0 _)
  have hA : 0 < bboxArea a := by
    unfold bboxArea
    exact mul_pos (by linarith) (by linarith)
  have hB : 0 < bboxArea b := by
    unfold bboxArea
    exact mul_pos (by linarith) (by linarith)
  have hIleB : bboxInterArea a b ≤ bboxArea b := by
    unfold bboxInterArea bboxArea
    have h1 : max 0 (min a.x2 b.x2 - max a.x1 b.x1) ≤ b.x2 - b.x1 := by
      apply max_le (by linarith)
      have := min_le_right a.x2 b.x2
      have := le_max_right a.x1 b.x1
      linarith
    have h2 : max 0 (min a.y2 b.y2 - max a.y1 b.y1) ≤ b.y2 - b.y1 := by
      apply max_le (by linarith)
      have := min_le_right a.y2 b.y2
      have := le_max_right a.y1 b.y1
      linarith
    exact mul_le_mul h1 h2 (le_max_left 0 _) (by linarith)
  have hIleA : bboxInterArea a b ≤ bboxArea a := by
    unfold bboxInterArea bboxArea
    have h1 : max 0 (min a.x2 b.x2 - max a.x1 b.x1) ≤ a.x2 - a.x1 := by
      apply max_le (by linarith)
      have := min_le_left a.x2 b.x2
      have := le_max_left a.x1 b.x1
      linarith
    have h2 : max 0 (min a.y2 b.y2 - max a.y1 b.y1) ≤ a.y2 - a.y1 := by
      apply max_le (by linarith)
      have := min_le_left a.y2 b.y2
      have := le_max_left a.y1 b.y1
      linarith
    exact mul_le_mul h1 h2 (le_max_left 0 _) (by linarith)
  have hU : 0 < bboxUnionArea a b := by
    unfold bboxUnionArea
    linarith
  refine ⟨?_, ?_, ?_, ?_⟩
  · unfold bbox_iou
    rw [if_pos hU]
    exact div_nonneg hIa (le_of_lt hU)
  · unfold bbox_iou
    rw [if_pos hU]
    rw [div_le_one hU]
    unfold bboxUnionArea
    linarith
  · have hIaa : bboxInterArea a a = bboxArea a := by
      simp only [bboxInterArea, bboxArea, min_self, max_self]
      rw [max_eq_right (by linarith : (0:ℚ) ≤ a.x2 - a.x1),
        max_eq_right (by linarith : (0:ℚ) ≤ a.y2 - a.y1)]
    have hUaa : bboxUnionArea a a = bboxArea a := by
      unfold bboxUnionArea
      rw [hIaa]; ring
    unfold bbox_iou
    rw [if_pos (by rw [hUaa]; exact hA), hIaa, hUaa]
    exact div_self (ne_of_gt hA)
  · intro c d hcd
    unfold bbox_iou
    rw [if_neg (by rw [hcd]; exact lt_irrefl 0)]

/-- Witness for C7 at the concrete proper boxes `[0,0,2,2]` and
`[1,1,3,3]`. -/
theorem c7_iou_bounds_witness :
    0 ≤ bbox_iou ⟨0, 0, 2, 2⟩ ⟨1, 1, 3, 3⟩ ∧
      bbox_iou ⟨0, 0, 2, 2⟩ ⟨1, 1, 3, 3⟩ ≤ 1 ∧
      bbox_iou ⟨0, 0, 2, 2⟩ ⟨0, 0, 2, 2⟩ = 1 ∧
      (∀ c d : Bbox, bboxUnionArea c d = 0 → bbox_iou c d = 0) :=
  c7_iou_bounds ⟨0, 0, 2, 2⟩ ⟨1, 1, 3, 3⟩
    ⟨by norm_num, by norm_num⟩ ⟨by norm_num, by norm_num⟩

/-- **C5, counterexample**: the claim says every noise std is a function
of the height only, with position stds `height/20`; but on a mean with
width 40 and height 20 the first position std of `predict` is
`40/20 = 2`, not `20/20 = 1`, and with zero input covariance the
predicted covariance entry `(0,0)` is `4`, not `1`. -/
theorem c5_noise_std_counterexample :
    (predict_std [0, 0, 40, 20, 0, 0, 0, 0]).getD 0 0 = 2 ∧
      ([0, 0, 40, 20, 0, 0, 0, 0] : Vec).getD 3 0 / 20 = 1 ∧
      matEntry (kf_predict [0, 0, 40, 20, 0, 0, 0, 0]
        (List.replicate 8 (List.replicate 8 0))).2 0 0 = 4 ∧
      ((2 : ℚ) ≠ 1) ∧ ((4 : ℚ) ≠ 1) := by
  with_unfolding_all decide

/-- **C5, amended**: the Kalman noise standard deviations are functions of
the bounding-box *width and* height: components 0 and 2 (and their
velocities) scale with the width (`mean[2]`), components 1 and 3 with the
height (`mean[3]`).  In `predict` the position stds are
`[w/20, h/20, w/20, h/20]` and the velocity stds
`[w/160, h/160, w/160, h/160]`; in `update` the measurement stds are
`[w/20, h/20, w/20, h/20]`; `initiate` returns the measurement with zero
velocities and the diagonal covariance of the squared stds
`[2w/20, 2h/20, 2w/20, 2h/20, 10w/160, 10h/160, 10w/160, 10h/160]`. -/
theorem c5_noise_stds (mean measurement : Vec) :
    predict_std mean =
      [mean.getD 2 0 / 20, mean.getD 3 0 / 20,
       mean.getD 2 0 / 20, mean.getD 3 0 / 20,
       mean.getD 2 0 / 160, mean.getD 3 0 / 160,
       mean.getD 2 0 / 160, mean.getD 3 0 / 160] ∧
    update_std mean =
      [mean.getD 2 0 / 20, mean.getD 3 0 / 20,
       mean.getD 2 0 / 20, mean.getD 3 0 / 20] ∧
    initiate_std measurement =
      [2 * measurement.getD 2 0 / 20, 2 * measurement.getD 3 0 / 20,
       2 * measurement.getD 2 0 / 20, 2 * measurement.getD 3 0 / 20,
       10 * measurement.getD 2 0 / 160, 10 * measurement.getD 3 0 / 160,
       10 * measurement.getD 2 0 / 160, 10 * measurement.getD 3 0 / 160] ∧
    kf_initiate measurement =
      (measurement ++ List.replicate measurement.length 0,
       diagMat (vecSquare (initiate_std measurement))) := by
  refine ⟨?_, ?_, ?_, rfl⟩ <;>
    simp only [predict_std, update_std, initiate_std, std_weight_position,
      std_weight_velocity, List.cons.injEq, and_true] <;>
    norm_num <;> ring_nf <;> simp

/-- **C4, counterexample**: on a frame with zero active tracks the source
appends nothing to `attention_timeline` (the `if track_results:` guard at
line 672), while the claim requires exactly one entry per admitted frame;
`frame_count` is still incremented. -/
theorem c4_timeline_counterexample :
    (update_session_metrics 0 smFresh []).attention_timeline.length ≠
      smFresh.attention_timeline.length + 1 ∧
    (update_session_metrics 0 smFresh []).frame_count =
      smFresh.frame_count + 1 := by
  with_unfolding_all decide

/-- **C4, amended**: after every admitted frame, `frame_count` is
incremented, `current_student_count` becomes the active count and
`peak_student_count` the max of its previous value and the active count;
a `{timestamp, average attention, active count}` entry is appended to
`attention_timeline` exactly when at least one track is active — on
zero-track frames the timeline is unchanged. -/
theorem c4_update_session_metrics (now : Timestamp) (sm : SessionMetricsL)
    (tr : List TrackResultL) :
    (update_session_metrics now sm tr).frame_count = sm.frame_count + 1 ∧
    (update_session_metrics now sm tr).current_student_count = tr.length ∧
    (update_session_metrics now sm tr).peak_student_count =
      max sm.peak_student_count tr.length ∧
    (update_session_metrics now sm tr).attention_timeline =
      (if tr = [] then sm.attention_timeline
       else sm.attention_timeline ++
         [⟨now, calculate_average_attention tr, tr.length⟩]) := by
  unfold update_session_metrics
  by_cases h : tr = [] <;> simp [h]

/-- **C2, counterexample**: the counter is not capped: with the phone
present on 5 consecutive frames it reaches 5, outside
`[0, phone_detection_frames + 1] = [0, 4]`. -/
theorem c2_counter_range_counterexample :
    phoneCounterRun.phone_detected_frames = 5 ∧
      ¬ phoneCounterRun.phone_detected_frames ≤ (3 : ℤ) + 1 := by
  with_unfolding_all decide

/-- **C2, amended**: after every processed frame the counter stays
nonnegative and grows by at most one (so it is bounded by the number of
elapsed frames, but by no fixed constant), and a `phone_detected` event
fires exactly when the post-update counter equals
`phone_detection_frames` — a value reached both by incrementing from
`threshold - 1` and by decrementing from `threshold + 1`. -/
theorem c2_phone_counter_invariant (cfg track_id : ℕ) (sid : Option ℕ)
    (now : Timestamp) (m : TrackMetricsL) (has_phone : Bool)
    (h : 0 ≤ m.phone_detected_frames) :
    0 ≤ (phoneTrackStep cfg track_id sid now m has_phone).1.phone_detected_frames ∧
    (phoneTrackStep cfg track_id sid now m has_phone).1.phone_detected_frames ≤
      m.phone_detected_frames + 1 ∧
    ((phoneTrackStep cfg track_id sid now m has_phone).2.2 ≠ [] ↔
      (phoneTrackStep cfg track_id sid now m has_phone).1.phone_detected_frames =
        (cfg : ℤ)) := by
  unfold phoneTrackStep check_phone_events
  cases has_phone <;> simp only [Bool.false_eq_true, if_true, if_false] <;>
    split_ifs <;> simp_all <;> omega

/-- Witness for C2's amended invariant: a fresh track metrics record with
counter 2 and the phone present crosses the threshold 3 and fires. -/
theorem c2_phone_counter_invariant_witness :
    0 ≤ (phoneTrackStep 3 1 none 5
      { track_id := 1, first_seen := 0, last_seen := 0,
        phone_detected_frames := 2 } true).1.phone_detected_frames ∧
    (phoneTrackStep 3 1 none 5
      { track_id := 1, first_seen := 0, last_seen := 0,
        phone_detected_frames := 2 } true).1.phone_detected_frames ≤
      ({ track_id := 1, first_seen := 0, last_seen := 0,
         phone_detected_frames := 2 } : TrackMetricsL).phone_detected_frames
        + 1 ∧
    ((phoneTrackStep 3 1 none 5
      { track_id := 1, first_seen := 0, last_seen := 0,
        phone_detected_frames := 2 } true).2.2 ≠ [] ↔
      (phoneTrackStep 3 1 none 5
        { track_id := 1, first_seen := 0, last_seen := 0,
          phone_detected_frames := 2 } true).1.phone_detected_frames =
        ((3 : ℕ) : ℤ)) :=
  c2_phone_counter_invariant 3 1 none 5
    { track_id := 1, first_seen := 0, last_seen := 0,
      phone_detected_frames := 2 } true (by decide)

/-- The dict built from a catalog entry at lines 317-321. -/
def mkMatch (sim : ℕ → ℚ) (k : KnownStudent) : MatchResult :=
  ⟨k.student_id, k.student_name, sim k.embedding⟩

/-- `getD` at an in-range index is an element of the list. -/
theorem listGetD_mem {α : Type} [Inhabited α] (l : List α) (i : ℕ)
    (h : i < l.length) : l.getD i default ∈ l := by
  rw [List.getD_eq_getElem?_getD, List.getElem?_eq_getElem h]
  simp [List.getElem_mem]

/-- Characterization of the `match_embedding` loop: starting from any
running best, either no entry strictly improves on `bs` and the
accumulator is returned, or the result is the entry at the first index
attaining the maximum similarity, which strictly exceeds `bs`. -/
theorem matchLoop_spec (sim : ℕ → ℚ) :
    ∀ (l : List KnownStudent) (bm : Option MatchResult) (bs : ℚ),
      (matchLoop sim l bm bs = bm ∧ ∀ k ∈ l, sim k.embedding ≤ bs) ∨
      (∃ i, i < l.length ∧
        matchLoop sim l bm bs = some (mkMatch sim (l.getD i default)) ∧
        bs < sim (l.getD i default).embedding ∧
        (∀ k ∈ l, sim k.embedding ≤ sim (l.getD i default).embedding) ∧
        (∀ j, j < i →
          sim ((l.getD j default).embedding) <
            sim ((l.getD i default).embedding))) := by
  intro l
  induction l with
  | nil => intro bm bs; exact Or.inl ⟨rfl, by simp⟩
  | cons k rest ih =>
      intro bm bs
      by_cases h : sim k.embedding > bs
      · have hstep :
            matchLoop sim (k :: rest) bm bs =
              matchLoop sim rest (some (mkMatch sim k)) (sim k.embedding) := by
          simp [matchLoop, h, mkMatch]
        rcases ih (some (mkMatch sim k)) (sim k.embedding) with
          ⟨heq, hall⟩ | ⟨i, hi, heq, hgt, hall, hfirst⟩
        · refine Or.inr ⟨0, by simp, ?_, ?_, ?_, ?_⟩
          · rw [hstep, heq]; simp
          · simpa using h
          · intro k' hk'
            rcases List.mem_cons.mp hk' with rfl | hk'
            · simp
            · simpa using hall k' hk'
          · intro j hj; exact absurd hj (Nat.not_lt_zero j)
        · refine Or.inr ⟨i + 1, by simpa using hi, ?_, ?_, ?_, ?_⟩
          · rw [hstep, heq]; simp
          · simpa using lt_trans h hgt
          · intro k' hk'
            rcases List.mem_cons.mp hk' with rfl | hk'
            · simpa using le_of_lt hgt
            · simpa using hall k' hk'
          · intro j hj
            cases j with
            | zero => simpa using hgt
            | succ j' => simpa using hfirst j' (Nat.lt_of_succ_lt_succ hj)
      · have hstep :
            matchLoop sim (k :: rest) bm bs = matchLoop sim rest bm bs := by
          simp [matchLoop, h]
        rcases ih bm bs with ⟨heq, hall⟩ | ⟨i, hi, heq, hgt, hall, hfirst⟩
        · refine Or.inl ⟨by rw [hstep, heq], ?_⟩
          intro k' hk'
          rcases List.mem_cons.mp hk' with rfl | hk'
          · exact le_of_not_lt h
          · exact hall k' hk'
        · refine Or.inr ⟨i + 1, by simpa using hi, ?_, ?_, ?_, ?_⟩
          · rw [hstep, heq]; simp
          · simpa using hgt
          · intro k' hk'
            rcases List.mem_cons.mp hk' with rfl | hk'
            · simpa using le_trans (le_of_not_lt h) (le_of_lt hgt)
            · simpa using hall k' hk'
          · intro j hj
            cases j with
            | zero =>
                have : sim k.embedding ≤ bs := le_of_not_lt h
                simpa using lt_of_le_of_lt this hgt
            | succ j' => simpa using hfirst j' (Nat.lt_of_succ_lt_succ hj)

/-- **C6** `match_embedding` returns `none` exactly when no catalog entry
is strictly more similar than the threshold (in particular on an empty
catalog), and otherwise returns the record built from the first catalog
entry attaining the maximal similarity, which strictly exceeds the
threshold. -/
theorem c6_match_embedding (sim : ℕ → ℚ) (catalog : List KnownStudent)
    (threshold : ℚ) :
    (match_embedding sim catalog threshold = none ↔
      ∀ k ∈ catalog, sim k.embedding ≤ threshold) ∧
    (∀ m, match_embedding sim catalog threshold = some m →
      ∃ i, i < catalog.length ∧
        m = mkMatch sim (catalog.getD i default) ∧
        threshold < m.similarity ∧
        (∀ k ∈ catalog, sim k.embedding ≤ m.similarity) ∧
        (∀ j, j < i →
          sim ((catalog.getD j default).embedding) < m.similarity)) := by
  rcases List.eq_nil_or_concat catalog with rfl | hne
  · constructor
    · simp [match_embedding]
    · intro m hm
      simp [match_embedding] at hm
  · have hlen : catalog.length ≠ 0 := by
      rcases hne with ⟨l, a, rfl⟩; simp
    have hdef : match_embedding sim catalog threshold =
        matchLoop sim catalog none threshold := by
      simp [match_embedding, hlen]
    rcases matchLoop_spec sim catalog none threshold with
      ⟨heq, hall⟩ | ⟨i, hi, heq, hgt, hall, hfirst⟩
    · constructor
      · rw [hdef, heq]
        exact ⟨fun _ => hall, fun _ => rfl⟩
      · intro m hm
        rw [hdef, heq] at hm
        exact absurd hm (by simp)
    · constructor
      · rw [hdef, heq]
        constructor
        · intro hc; exact absurd hc (by simp)
        · intro hle
          exact absurd (lt_of_lt_of_le hgt
            (hle _ (listGetD_mem _ _ hi))) (lt_irrefl _)
      · intro m hm
        rw [hdef, heq] at hm
        refine ⟨i, hi, (Option.some.injEq _ _ ▸ hm).symm ▸ rfl, ?_, ?_, ?_⟩
        · have : m = mkMatch sim (catalog.getD i default) := by
            exact (Option.some.injEq _ _ ▸ hm).symm ▸ rfl
          rw [this]; exact hgt
        · have : m = mkMatch sim (catalog.getD i default) := by
            exact (Option.some.injEq _ _ ▸ hm).symm ▸ rfl
          rw [this]; exact hall
        · have : m = mkMatch sim (catalog.getD i default) := by
            exact (Option.some.injEq _ _ ▸ hm).symm ▸ rfl
          rw [this]; exact hfirst

/-- Witness for C6 on a concrete catalog with a similarity tie: entries
with similarities 0.6, 0.8, 0.8 against threshold 0.5 yield the second
entry (the first of the two maximisers). -/
theorem c6_match_embedding_witness :
    ∃ i, i < ([⟨1, none, 6⟩, ⟨2, none, 8⟩, ⟨3, none, 8⟩] :
        List KnownStudent).length ∧
      (⟨2, none, 8 / 10⟩ : MatchResult) =
        mkMatch (fun e => (e : ℚ) / 10)
          (([⟨1, none, 6⟩, ⟨2, none, 8⟩, ⟨3, none, 8⟩] :
            List KnownStudent).getD i default) ∧
      (1 : ℚ) / 2 < (⟨2, none, 8 / 10⟩ : MatchResult).similarity ∧
      (∀ k ∈ ([⟨1, none, 6⟩, ⟨2, none, 8⟩, ⟨3, none, 8⟩] :
          List KnownStudent),
        (fun e => (e : ℚ) / 10) k.embedding ≤
          (⟨2, none, 8 / 10⟩ : MatchResult).similarity) ∧
      (∀ j, j < i →
        (fun e => (e : ℚ) / 10)
            ((([⟨1, none, 6⟩, ⟨2, none, 8⟩, ⟨3, none, 8⟩] :
              List KnownStudent).getD j default).embedding) <
          (⟨2, none, 8 / 10⟩ : MatchResult).similarity) :=
  (c6_match_embedding (fun e => (e : ℚ) / 10)
    [⟨1, none, 6⟩, ⟨2, none, 8⟩, ⟨3, none, 8⟩] (1 / 2)).2
    ⟨2, none, 8 / 10⟩ (by with_unfolding_all decide)

/-- **C9** A frame submitted while `is_running` is false is rejected with
the session-not-running error before anything runs: the pipeline state —
in particular the tracker's `frame_id` and its tracked, lost and removed
lists — is exactly what it was before the call. -/
theorem c9_reject_when_not_running (p : PipelineStateL) (input : FrameInputL)
    (h : p.is_running = false) :
    (process_frame p input).1 = p ∧
    (process_frame p input).1.tracker.frame_id = p.tracker.frame_id ∧
    (process_frame p input).1.tracker.tracked_tracks =
      p.tracker.tracked_tracks ∧
    (process_frame p input).1.tracker.lost_tracks = p.tracker.lost_tracks ∧
    (process_frame p input).1.tracker.removed_tracks =
      p.tracker.removed_tracks ∧
    (process_frame p input).2.error = some "Session not running" := by
  unfold process_frame
  rw [if_pos h]
  exact ⟨rfl, rfl, rfl, rfl, rfl, rfl⟩

/-- Witness for C9 at the freshly constructed pipeline (not running) and
the occlusion scenario's first frame input. -/
theorem c9_reject_when_not_running_witness :
    (process_frame {} (occlusionInput 1)).1 = ({} : PipelineStateL) ∧
    (process_frame {} (occlusionInput 1)).1.tracker.frame_id =
      ({} : PipelineStateL).tracker.frame_id ∧
    (process_frame {} (occlusionInput 1)).1.tracker.tracked_tracks =
      ({} : PipelineStateL).tracker.tracked_tracks ∧
    (process_frame {} (occlusionInput 1)).1.tracker.lost_tracks =
      ({} : PipelineStateL).tracker.lost_tracks ∧
    (process_frame {} (occlusionInput 1)).1.tracker.removed_tracks =
      ({} : PipelineStateL).tracker.removed_tracks ∧
    (process_frame {} (occlusionInput 1)).2.error =
      some "Session not running" :=
  c9_reject_when_not_running {} (occlusionInput 1) rfl

/-- **C10** `stop_session` with no active session metrics returns the
empty dict (`none`) rather than an error, its only state change being
`is_running := false`; a second call in a row again returns the empty
dict with the same state. -/
theorem c10_stop_session_no_metrics (p : PipelineStateL)
    (h : p.session_metrics = none) :
    stop_session p = ({ p with is_running := false }, none) ∧
    stop_session (stop_session p).1 =
      ({ p with is_running := false }, none) := by
  have key : ∀ q : PipelineStateL, q.session_metrics = none →
      stop_session q = ({ q with is_running := false }, none) := by
    intro q hq
    unfold stop_session
    simp only [hq]
  have hfst := key p h
  refine ⟨hfst, ?_⟩
  rw [hfst]
  have h1 : ({ p with is_running := false } :
      PipelineStateL).session_metrics = none := h
  rw [key _ h1]

/-- Witness for C10 at the freshly constructed pipeline state. -/
theorem c10_stop_session_no_metrics_witness :
    stop_session {} = ({ ({} : PipelineStateL) with is_running := false },
      none) ∧
    stop_session (stop_session {}).1 =
      ({ ({} : PipelineStateL) with is_running := false }, none) :=
  c10_stop_session_no_metrics {} rfl

/-! ### Assignment-solver lemmas (towards C8) -/

/-- `argminBy` returns the seed or a candidate. -/
theorem argminBy_mem {α : Type} (f : α → ℚ) :
    ∀ (l : List α) (best : α), argminBy f best l ∈ best :: l := by
  intro l
  induction l with
  | nil => intro best; simp [argminBy]
  | cons a rest ih =>
      intro best
      by_cases h : f a < f best
      · simp only [argminBy, if_pos h]
        rcases List.mem_cons.mp (ih a) with h3 | h3
        · rw [h3]; simp
        · simp [h3]
      · simp only [argminBy, if_neg h]
        rcases List.mem_cons.mp (ih best) with h3 | h3
        · rw [h3]; simp
        · simp [h3]

/-- `argminBy` minimises `f` over the seed and the candidates. -/
theorem argminBy_le {α : Type} (f : α → ℚ) :
    ∀ (l : List α) (best : α),
      f (argminBy f best l) ≤ f best ∧
        ∀ x ∈ l, f (argminBy f best l) ≤ f x := by
  intro l
  induction l with
  | nil => intro best; exact ⟨le_refl _, by simp⟩
  | cons a rest ih =>
      intro best
      by_cases h : f a < f best
      · obtain ⟨h1, h2⟩ := ih a
        simp only [argminBy, if_pos h]
        refine ⟨le_trans h1 (le_of_lt h), ?_⟩
        intro x hx
        rcases List.mem_cons.mp hx with rfl | hx
        · exact h1
        · exact h2 x hx
      · obtain ⟨h1, h2⟩ := ih best
        simp only [argminBy, if_neg h]
        refine ⟨h1, ?_⟩
        intro x hx
        rcases List.mem_cons.mp hx with rfl | hx
        · exact le_trans h1 (le_of_not_lt h)
        · exact h2 x hx

/-- Everything `injSeqs` enumerates is an injective choice from the pool. -/
theorem injSeqs_sound :
    ∀ (k : ℕ) (avail : List ℕ), avail.Nodup →
      ∀ cs ∈ injSeqs k avail,
        cs.length = k ∧ cs.Nodup ∧ ∀ c ∈ cs, c ∈ avail := by
  intro k
  induction k with
  | zero =>
      intro avail _ cs hcs
      simp only [injSeqs, List.mem_singleton] at hcs
      subst hcs; simp
  | succ k ih =>
      intro avail hav cs hcs
      simp only [injSeqs, List.mem_flatMap, List.mem_map] at hcs
      obtain ⟨c, hc, cs', hcs', rfl⟩ := hcs
      obtain ⟨hlen, hnd, hsub⟩ := ih (avail.erase c) (hav.erase c) cs' hcs'
      refine ⟨by simp [hlen], ?_, ?_⟩
      · refine List.nodup_cons.mpr ⟨?_, hnd⟩
        intro hmem
        have := (hav.mem_erase_iff).mp (hsub c hmem)
        exact this.1 rfl
      · intro x hx
        rcases List.mem_cons.mp hx with rfl | hx
        · exact hc
        · exact List.mem_of_mem_erase (hsub x hx)

/-- Every injective choice from the pool is enumerated by `injSeqs`. -/
theorem injSeqs_complete :
    ∀ (k : ℕ) (avail cs : List ℕ),
      cs.length = k → cs.Nodup → (∀ c ∈ cs, c ∈ avail) →
      cs ∈ injSeqs k avail := by
  intro k
  induction k with
  | zero =>
      intro avail cs hlen _ _
      rw [List.length_eq_zero.mp hlen]
      simp [injSeqs]
  | succ k ih =>
      intro avail cs hlen hnd hsub
      cases cs with
      | nil => simp at hlen
      | cons c cs' =>
          simp only [List.length_cons, Nat.succ.injEq] at hlen
          have hc : c ∈ avail := hsub c (by simp)
          have hnd' := List.nodup_cons.mp hnd
          have hsub' : ∀ x ∈ cs', x ∈ avail.erase c := by
            intro x hx
            have hxa : x ∈ avail := hsub x (List.mem_cons_of_mem _ hx)
            have hxc : x ≠ c := fun he => hnd'.1 (he ▸ hx)
            exact (List.mem_erase_of_ne hxc).mpr hxa
          have hmem := ih (avail.erase c) cs' hlen hnd'.2 hsub'
          simp only [injSeqs, List.mem_flatMap]
          exact ⟨c, hc, List.mem_map.mpr ⟨cs', hmem, rfl⟩⟩

/-- The assignment enumeration is never empty (for a 0-row or 0-column
matrix it contains exactly the empty assignment). -/
theorem allAssignments_ne_nil (n m : ℕ) : allAssignments n m ≠ [] := by
  unfold allAssignments
  by_cases h : n ≤ m
  · rw [if_pos h]
    have hmem : (List.range m).take n ∈ injSeqs n (List.range m) := by
      apply injSeqs_complete
      · rw [List.length_take, List.length_range]
        exact Nat.min_eq_left h
      · exact (List.take_sublist n (List.range m)).nodup (List.nodup_range m)
      · exact fun c hc => List.take_subset _ _ hc
    exact List.ne_nil_of_mem (List.mem_map.mpr ⟨_, hmem, rfl⟩)
  · rw [if_neg h]
    have hm : m ≤ n := le_of_not_le h
    have hmem : (List.range n).take m ∈ injSeqs m (List.range n) := by
      apply injSeqs_complete
      · rw [List.length_take, List.length_range]
        exact Nat.min_eq_left hm
      · exact (List.take_sublist m (List.range n)).nodup (List.nodup_range n)
      · exact fun c hc => List.take_subset _ _ hc
    exact List.ne_nil_of_mem (List.mem_map.mpr ⟨_, hmem, rfl⟩)

/-- Zipping a list with its image is mapping to pairs. -/
theorem zip_self_map (σ : ℕ → ℕ) :
    ∀ l : List ℕ, l.zip (l.map σ) = l.map (fun i => (i, σ i)) := by
  intro l
  induction l with
  | nil => rfl
  | cons a rest ih => simp [ih]

/-- Zipping an image with its source list is mapping to pairs. -/
theorem zip_map_self (τ : ℕ → ℕ) :
    ∀ l : List ℕ, (l.map τ).zip l = l.map (fun j => (τ j, j)) := by
  intro l
  induction l with
  | nil => rfl
  | cons a rest ih => simp [ih]

/-- Everything `allAssignments` enumerates is a maximal one-to-one
assignment within the matrix shape. -/
theorem allAssignments_sound (n m : ℕ) (A : List (ℕ × ℕ))
    (hA : A ∈ allAssignments n m) :
    A.length = min n m ∧ (A.map Prod.fst).Nodup ∧
      (A.map Prod.snd).Nodup ∧ ∀ p ∈ A, p.1 < n ∧ p.2 < m := by
  unfold allAssignments at hA
  by_cases h : n ≤ m
  · rw [if_pos h] at hA
    obtain ⟨cs, hcs, rfl⟩ := List.mem_map.mp hA
    obtain ⟨hlen, hnd, hsub⟩ :=
      injSeqs_sound n (List.range m) (List.nodup_range m) cs hcs
    have hlr : (List.range n).length = cs.length := by
      rw [List.length_range, hlen]
    refine ⟨?_, ?_, ?_, ?_⟩
    · rw [List.length_zip, List.length_range, hlen, Nat.min_self]
      exact (Nat.min_eq_left h).symm
    · rw [List.map_fst_zip _ _ (le_of_eq hlr)]
      exact List.nodup_range n
    · rw [List.map_snd_zip _ _ (ge_of_eq hlr)]
      exact hnd
    · rintro ⟨x, y⟩ hp
      obtain ⟨hx, hy⟩ := List.of_mem_zip hp
      exact ⟨List.mem_range.mp hx, List.mem_range.mp (hsub y hy)⟩
  · rw [if_neg h] at hA
    obtain ⟨rs, hrs, rfl⟩ := List.mem_map.mp hA
    obtain ⟨hlen, hnd, hsub⟩ :=
      injSeqs_sound m (List.range n) (List.nodup_range n) rs hrs
    have hm : m ≤ n := le_of_not_le h
    have hlr : rs.length = (List.range m).length := by
      rw [List.length_range, hlen]
    refine ⟨?_, ?_, ?_, ?_⟩
    · rw [List.length_zip, List.length_range, hlen, Nat.min_self]
      exact (Nat.min_eq_right hm).symm
    · rw [List.map_fst_zip _ _ (le_of_eq hlr)]
      exact hnd
    · rw [List.map_snd_zip _ _ (ge_of_eq hlr)]
      exact List.nodup_range m
    · rintro ⟨x, y⟩ hp
      obtain ⟨hx, hy⟩ := List.of_mem_zip hp
      exact ⟨List.mem_range.mp (hsub x hx), List.mem_range.mp hy⟩

/-- The solver's result is one of the enumerated assignments. -/
theorem linearSumAssignment_mem (C : CostMatrix) :
    linearSumAssignment C ∈ allAssignments C.rows C.cols := by
  unfold linearSumAssignment
  rcases hA : allAssignments C.rows C.cols with _ | ⟨a, rest⟩
  · exact absurd hA (allAssignments_ne_nil _ _)
  · exact argminBy_mem _ rest a

/-- The solver's result minimises cost among enumerated assignments. -/
theorem linearSumAssignment_min (C : CostMatrix) :
    ∀ B ∈ allAssignments C.rows C.cols,
      assignmentCost C.entry (linearSumAssignment C) ≤
        assignmentCost C.entry B := by
  unfold linearSumAssignment
  rcases hA : allAssignments C.rows C.cols with _ | ⟨a, rest⟩
  · exact absurd hA (allAssignments_ne_nil _ _)
  · intro B hB
    rcases List.mem_cons.mp hB with rfl | hB
    · exact (argminBy_le _ rest B).1
    · exact (argminBy_le _ rest a).2 B hB

/-- The gating fold of `linear_assignment` accepts exactly the pairs whose
cost is strictly below the threshold, in order. -/
theorem laFoldl_matches (entry : ℕ → ℕ → ℚ) (thresh : ℚ) :
    ∀ (ps : List (ℕ × ℕ)) (acc : List (ℕ × ℕ) × List ℕ × List ℕ),
      (ps.foldl
        (fun acc rc =>
          if entry rc.1 rc.2 < thresh then
            (acc.1 ++ [rc], (acc.2.1).erase rc.1, (acc.2.2).erase rc.2)
          else acc) acc).1
      = acc.1 ++ ps.filter (fun rc => decide (entry rc.1 rc.2 < thresh)) := by
  intro ps
  induction ps with
  | nil => intro acc; simp
  | cons rc rest ih =>
      intro acc
      by_cases h : entry rc.1 rc.2 < thresh
      · simp only [List.foldl_cons, if_pos h, List.filter_cons,
          decide_eq_true h, ih, List.append_assoc, List.singleton_append]
        simp
      · simp only [List.foldl_cons, if_neg h, List.filter_cons,
          decide_eq_false h, ih]
        simp

/-- **C8** An empty cost matrix is not an error: `linear_assignment`
returns no matches with every row and column index unmatched.  On a
non-empty matrix the solver's pairs form a maximal one-to-one assignment
(distinct in-range rows and columns, `min(rows, cols)` pairs) of minimum
total cost among all one-to-one assignments — row-to-column injections
when `rows ≤ cols`, column-to-row injections otherwise — and exactly the
solver pairs with cost strictly below the gate are accepted. -/
theorem c8_linear_assignment (C : CostMatrix) (thresh : ℚ) :
    (C.rows * C.cols = 0 →
      linear_assignment C thresh =
        ([], List.range C.rows, List.range C.cols)) ∧
    (C.rows * C.cols ≠ 0 →
      (linear_assignment C thresh).1 =
        (linearSumAssignment C).filter
          (fun rc => decide (C.entry rc.1 rc.2 < thresh)) ∧
      ∀ rc ∈ (linear_assignment C thresh).1, C.entry rc.1 rc.2 < thresh) ∧
    ((linearSumAssignment C).length = min C.rows C.cols ∧
      ((linearSumAssignment C).map Prod.fst).Nodup ∧
      ((linearSumAssignment C).map Prod.snd).Nodup ∧
      ∀ p ∈ linearSumAssignment C, p.1 < C.rows ∧ p.2 < C.cols) ∧
    (∀ σ : ℕ → ℕ, C.rows ≤ C.cols →
      (∀ i, i < C.rows → σ i < C.cols) →
      (∀ i j, i < C.rows → j < C.rows → σ i = σ j → i = j) →
      assignmentCost C.entry (linearSumAssignment C) ≤
        ((List.range C.rows).map (fun i => C.entry i (σ i))).sum) ∧
    (∀ τ : ℕ → ℕ, C.cols < C.rows →
      (∀ j, j < C.cols → τ j < C.rows) →
      (∀ i j, i < C.cols → j < C.cols → τ i = τ j → i = j) →
      assignmentCost C.entry (linearSumAssignment C) ≤
        ((List.range C.cols).map (fun j => C.entry (τ j) j)).sum) := by
  have hmatches : C.rows * C.cols ≠ 0 →
      (linear_assignment C thresh).1 =
        (linearSumAssignment C).filter
          (fun rc => decide (C.entry rc.1 rc.2 < thresh)) := by
    intro h
    unfold linear_assignment
    rw [if_neg h]
    rw [laFoldl_matches C.entry thresh (linearSumAssignment C)
      ([], List.range C.rows, List.range C.cols)]
    simp
  refine ⟨?_, ?_, ?_, ?_, ?_⟩
  · intro h
    unfold linear_assignment
    rw [if_pos h]
  · intro h
    refine ⟨hmatches h, ?_⟩
    intro rc hrc
    rw [hmatches h] at hrc
    exact of_decide_eq_true (List.mem_filter.mp hrc).2
  · exact allAssignments_sound _ _ _ (linearSumAssignment_mem C)
  · intro σ hnm hσ hinj
    have hcs : (List.range C.rows).map σ ∈
        injSeqs C.rows (List.range C.cols) := by
      apply injSeqs_complete
      · simp
      · exact List.Nodup.map_on
          (fun x hx y hy he =>
            hinj x y (List.mem_range.mp hx) (List.mem_range.mp hy) he)
          (List.nodup_range C.rows)
      · intro c hc
        obtain ⟨i, hi, rfl⟩ := List.mem_map.mp hc
        exact List.mem_range.mpr (hσ i (List.mem_range.mp hi))
    have hB : (List.range C.rows).zip ((List.range C.rows).map σ) ∈
        allAssignments C.rows C.cols := by
      unfold allAssignments
      rw [if_pos hnm]
      exact List.mem_map.mpr ⟨_, hcs, rfl⟩
    have hmin := linearSumAssignment_min C _ hB
    have hcost :
        assignmentCost C.entry
          ((List.range C.rows).zip ((List.range C.rows).map σ)) =
          ((List.range C.rows).map (fun i => C.entry i (σ i))).sum := by
      unfold assignmentCost
      rw [zip_self_map, List.map_map]
      rfl
    rw [hcost] at hmin
    exact hmin
  · intro τ hlt hτ hinj
    have hrs : (List.range C.cols).map τ ∈
        injSeqs C.cols (List.range C.rows) := by
      apply injSeqs_complete
      · simp
      · exact List.Nodup.map_on
          (fun x hx y hy he =>
            hinj x y (List.mem_range.mp hx) (List.mem_range.mp hy) he)
          (List.nodup_range C.cols)
      · intro c hc
        obtain ⟨j, hj, rfl⟩ := List.mem_map.mp hc
        exact List.mem_range.mpr (hτ j (List.mem_range.mp hj))
    have hB : ((List.range C.cols).map τ).zip (List.range C.cols) ∈
        allAssignments C.rows C.cols := by
      unfold allAssignments
      rw [if_neg (not_le.mpr hlt)]
      exact List.mem_map.mpr ⟨_, hrs, rfl⟩
    have hmin := linearSumAssignment_min C _ hB
    have hcost :
        assignmentCost C.entry
          (((List.range C.cols).map τ).zip (List.range C.cols)) =
          ((List.range C.cols).map (fun j => C.entry (τ j) j)).sum := by
      unfold assignmentCost
      rw [zip_map_self, List.map_map]
      rfl
    rw [hcost] at hmin
    exact hmin

/-- Witness for C8: a 0×3 matrix is degenerate (no matches, all indices
unmatched); the 1×2 matrix `cexMatrix` exercises the accepted-pair filter
and the optimality bound against the injection `0 ↦ 1`. -/
theorem c8_linear_assignment_witness :
    linear_assignment ⟨0, 3, fun _ _ => 0⟩ (1 / 2) =
      ([], List.range 0, List.range 3) ∧
    (linear_assignment cexMatrix (1 / 2)).1 =
      (linearSumAssignment cexMatrix).filter
        (fun rc => decide (cexMatrix.entry rc.1 rc.2 < 1 / 2)) ∧
    assignmentCost cexMatrix.entry (linearSumAssignment cexMatrix) ≤
      ((List.range cexMatrix.rows).map
        (fun i => cexMatrix.entry i ((fun x => x + 1) i))).sum :=
  ⟨(c8_linear_assignment ⟨0, 3, fun _ _ => 0⟩ (1 / 2)).1 (by decide),
   ((c8_linear_assignment cexMatrix (1 / 2)).2.1 (by decide)).1,
   (c8_linear_assignment cexMatrix (1 / 2)).2.2.2.1 (fun x => x + 1)
     (by decide)
     (fun i hi => by simp only [cexMatrix] at hi ⊢; omega)
     (fun i j hi hj he => by simp only [cexMatrix] at hi hj; omega)⟩

/-- Observation lists accumulate on the left of the occlusion fold. -/
theorem occlusionStep_foldl_accum :
    ∀ (fr : List ℕ) (s : PipelineStateL) (l0 : List OcclusionObs),
      fr.foldl occlusionStep (s, l0) =
        ((fr.foldl occlusionStep (s, [])).1,
         l0 ++ (fr.foldl occlusionStep (s, [])).2) := by
  intro fr
  induction fr with
  | nil => intro s l0; simp
  | cons f fr ih =>
      intro s l0
      have hstep : ∀ l : List OcclusionObs, occlusionStep (s, l) f =
          ((occlusionStep (s, []) f).1, l ++ (occlusionStep (s, []) f).2) := by
        intro l; simp [occlusionStep]
      rw [List.foldl_cons, List.foldl_cons, hstep l0,
        ih (occlusionStep (s, []) f).1 (l0 ++ (occlusionStep (s, []) f).2)]
      conv_rhs => rw [hstep [], ih (occlusionStep (s, []) f).1
        ([] ++ (occlusionStep (s, []) f).2)]
      simp

/-- Fired-frame lists accumulate on the left of the phone fold. -/
theorem phoneStep_foldl_accum :
    ∀ (fr : List ℕ) (s : PipelineStateL) (l0 : List ℕ),
      fr.foldl phoneStep (s, l0) =
        ((fr.foldl phoneStep (s, [])).1,
         l0 ++ (fr.foldl phoneStep (s, [])).2) := by
  intro fr
  induction fr with
  | nil => intro s l0; simp
  | cons f fr ih =>
      intro s l0
      have hstep : ∀ l : List ℕ, phoneStep (s, l) f =
          ((phoneStep (s, []) f).1, l ++ (phoneStep (s, []) f).2) := by
        intro l; simp [phoneStep]
      rw [List.foldl_cons, List.foldl_cons, hstep l0,
        ih (phoneStep (s, []) f).1 (l0 ++ (phoneStep (s, []) f).2)]
      conv_rhs => rw [hstep [], ih (phoneStep (s, []) f).1
        ([] ++ (phoneStep (s, []) f).2)]
      simp

/-- Frames 1-4 of the occlusion scenario, evaluated. -/
theorem occ_chunk1_eval :
    List.foldl occlusionStep (start_session {} 1 0, []) [1, 2, 3, 4] =
      (occState4, occObs1) := by
  with_unfolding_all rfl

/-- Frames 5-8 of the occlusion scenario, evaluated. -/
theorem occ_chunk2_eval :
    List.foldl occlusionStep (occState4, []) [5, 6, 7, 8] =
      (occState8, occObs2) := by
  with_unfolding_all rfl

/-- Frames 9-12 of the occlusion scenario, evaluated. -/
theorem occ_chunk3_eval :
    List.foldl occlusionStep (occState8, []) [9, 10, 11, 12] =
      (occState12, occObs3) := by
  with_unfolding_all rfl

/-- Frames 13-16 of the occlusion scenario, evaluated. -/
theorem occ_chunk4_eval :
    List.foldl occlusionStep (occState12, []) [13, 14, 15, 16] =
      (occState16, occObs4) := by
  with_unfolding_all rfl

/-- Frames 17-20 of the occlusion scenario, evaluated. -/
theorem occ_chunk5_eval :
    (List.foldl occlusionStep (occState16, []) [17, 18, 19, 20]).2 =
      occObs5 := by
  with_unfolding_all rfl

/-- The embedded pipeline's 20-frame occlusion run evaluates to the
explicit observation trace (assembled from the chunk evaluations). -/
theorem occlusion_trace_eval :
    (occlusionRunTo 20).2 = occlusionExpectedTrace := by
  have h0 : occlusionRunTo 20 =
      List.foldl occlusionStep (start_session {} 1 0, [])
        ([1, 2, 3, 4] ++ [5, 6, 7, 8] ++ [9, 10, 11, 12] ++
          [13, 14, 15, 16] ++ [17, 18, 19, 20]) := rfl
  have e2 : List.foldl occlusionStep (start_session {} 1 0, [])
      ([1, 2, 3, 4] ++ [5, 6, 7, 8]) = (occState8, occObs1 ++ occObs2) := by
    rw [List.foldl_append, occ_chunk1_eval,
      occlusionStep_foldl_accum [5, 6, 7, 8] occState4 occObs1,
      occ_chunk2_eval]
  have e3 : List.foldl occlusionStep (start_session {} 1 0, [])
      ([1, 2, 3, 4] ++ [5, 6, 7, 8] ++ [9, 10, 11, 12]) =
      (occState12, occObs1 ++ occObs2 ++ occObs3) := by
    rw [List.foldl_append, e2,
      occlusionStep_foldl_accum [9, 10, 11, 12] occState8
        (occObs1 ++ occObs2),
      occ_chunk3_eval]
  have e4 : List.foldl occlusionStep (start_session {} 1 0, [])
      ([1, 2, 3, 4] ++ [5, 6, 7, 8] ++ [9, 10, 11, 12] ++
        [13, 14, 15, 16]) =
      (occState16, occObs1 ++ occObs2 ++ occObs3 ++ occObs4) := by
    rw [List.foldl_append, e3,
      occlusionStep_foldl_accum [13, 14, 15, 16] occState12
        (occObs1 ++ occObs2 ++ occObs3),
      occ_chunk4_eval]
  rw [h0, List.foldl_append, e4,
    occlusionStep_foldl_accum [17, 18, 19, 20] occState16
      (occObs1 ++ occObs2 ++ occObs3 ++ occObs4)]
  show occObs1 ++ occObs2 ++ occObs3 ++ occObs4 ++
      (List.foldl occlusionStep (occState16, []) [17, 18, 19, 20]).2 =
    occlusionExpectedTrace
  rw [occ_chunk5_eval]
  with_unfolding_all decide

/-- **C1** Evaluation of the occlusion-recovery scenario (single person:
detected frames 1-10, occluded 11-15, re-detected at the same box from
frame 16; `track_buffer` 30).  The track does go Tracked→Lost at frame 11
and stays Lost (never Removed) through frame 15, as the claim states; but
on frame 16 the re-activated track (id 1, state Tracked again) is dropped
from both the tracked and the lost lists — `ByteTracker.update` never
re-inserts a re-activated lost track into `tracked_tracks` — so the
returned active-track list is empty on frame 16, a brand-new track id 12
spawns on frame 17, and two `student_entered` events are emitted (frames
1 and 17) instead of the claimed one. -/
theorem c1_occlusion_recovery :
    ((occlusionRunTo 20).2.map (fun o => o.track1_state)) =
      List.replicate 10 TrackStateL.TRACKED ++
        List.replicate 5 TrackStateL.LOST ++
        List.replicate 5 TrackStateL.TRACKED ∧
    ((occlusionRunTo 20).2.map (fun o => o.active_ids)) =
      List.replicate 10 [1] ++ List.replicate 6 [] ++
        List.replicate 4 [12] ∧
    ((occlusionRunTo 20).2.map (fun o => o.lost_ids)) =
      List.replicate 10 [] ++ List.replicate 5 [1] ++
        List.replicate 5 [] ∧
    ((occlusionRunTo 20).2.flatMap (fun o =>
      (o.events.filter (fun e => e.eventType == "student_entered")).map
        (fun e => (o.frame, e.trackId)))) = [(1, 1), (17, 12)] := by
  rw [occlusion_trace_eval]
  with_unfolding_all decide

/-- Frames 1-4 of the phone scenario, evaluated. -/
theorem ph_chunk1_eval :
    List.foldl phoneStep (start_session {} 2 0, []) [1, 2, 3, 4] =
      (phState4, phObs1) := by
  with_unfolding_all rfl

/-- Frames 5-8 of the phone scenario, evaluated. -/
theorem ph_chunk2_eval :
    List.foldl phoneStep (phState4, []) [5, 6, 7, 8] =
      (phState8, phObs2) := by
  with_unfolding_all rfl

/-- Frames 9-12 of the phone scenario, evaluated. -/
theorem ph_chunk3_eval :
    List.foldl phoneStep (phState8, []) [9, 10, 11, 12] =
      (phState12, phObs3) := by
  with_unfolding_all rfl

/-- Frames 13-16 of the phone scenario, evaluated. -/
theorem ph_chunk4_eval :
    List.foldl phoneStep (phState12, []) [13, 14, 15, 16] =
      (phState16, phObs4) := by
  with_unfolding_all rfl

/-- Frames 17-20 of the phone scenario, evaluated. -/
theorem ph_chunk5_eval :
    List.foldl phoneStep (phState16, []) [17, 18, 19, 20] =
      (phState20, phObs5) := by
  with_unfolding_all rfl

/-- The phone scenario evaluates to the final state `phState20` with
`phone_detected` events exactly on frames 7 and 13. -/
theorem phoneRun_eval : phoneRun = (phState20, [7, 13]) := by
  have h0 : phoneRun =
      List.foldl phoneStep (start_session {} 2 0, [])
        ([1, 2, 3, 4] ++ [5, 6, 7, 8] ++ [9, 10, 11, 12] ++
          [13, 14, 15, 16] ++ [17, 18, 19, 20]) := rfl
  have e2 : List.foldl phoneStep (start_session {} 2 0, [])
      ([1, 2, 3, 4] ++ [5, 6, 7, 8]) = (phState8, phObs1 ++ phObs2) := by
    rw [List.foldl_append, ph_chunk1_eval,
      phoneStep_foldl_accum [5, 6, 7, 8] phState4 phObs1, ph_chunk2_eval]
  have e3 : List.foldl phoneStep (start_session {} 2 0, [])
      ([1, 2, 3, 4] ++ [5, 6, 7, 8] ++ [9, 10, 11, 12]) =
      (phState12, phObs1 ++ phObs2 ++ phObs3) := by
    rw [List.foldl_append, e2,
      phoneStep_foldl_accum [9, 10, 11, 12] phState8 (phObs1 ++ phObs2),
      ph_chunk3_eval]
  have e4 : List.foldl phoneStep (start_session {} 2 0, [])
      ([1, 2, 3, 4] ++ [5, 6, 7, 8] ++ [9, 10, 11, 12] ++
        [13, 14, 15, 16]) =
      (phState16, phObs1 ++ phObs2 ++ phObs3 ++ phObs4) := by
    rw [List.foldl_append, e3,
      phoneStep_foldl_accum [13, 14, 15, 16] phState12
        (phObs1 ++ phObs2 ++ phObs3),
      ph_chunk4_eval]
  rw [h0, List.foldl_append, e4,
    phoneStep_foldl_accum [17, 18, 19, 20] phState16
      (phObs1 ++ phObs2 ++ phObs3 ++ phObs4),
    ph_chunk5_eval]
  show (phState20, phObs1 ++ phObs2 ++ phObs3 ++ phObs4 ++ phObs5) =
    (phState20, [7, 13])
  have hobs : phObs1 ++ phObs2 ++ phObs3 ++ phObs4 ++ phObs5 =
      ([7, 13] : List ℕ) := by
    with_unfolding_all decide
  rw [hobs]

/-- **C3** Evaluation of the phone-hysteresis scenario (person present on
all 20 frames, phone associated exactly on frames 5-10,
`phone_detection_frames` 3): the pipeline emits `phone_detected` on frame
7 as the claim states, but also a second event on frame 13 — as the
uncapped counter decays from 6 it passes the value 3 again and
`_check_phone_events` re-fires — leaving `phone_usage_count` at 2,
against the claimed single event and the documented "only trigger if this
is a new phone detection". -/
theorem c3_phone_event_refire : phoneRunObs = ([7, 13], 2) := by
  show (phoneRun.2,
    ((phoneRun.1.session_metrics.map
       (fun sm => (tmGet sm.track_metrics 1).phone_usage_count)).getD 0)) =
    ([7, 13], 2)
  rw [phoneRun_eval]
  with_unfolding_all decide

end ClassroomMonitor
